import Mathlib

/-!
# Process supervision and display orchestration of the display manager

A shallow embedding of `src/child-process.c`, `src/pam-session.c`, `src/xserver.c`
and `src/display.c`.

Conventions of the embedding

* GObject instances live in heaps (lists); a pointer is an index into the heap and a
  NULL pointer is `none`.  Reference counts are not modelled.
* A `GHashTable` is an association list with unique keys; `hash_insert` replaces the
  value of a key that is present and appends otherwise, so the iteration order of the
  model is insertion order (the C iteration order is unspecified).
* Results of system calls and of library code outside the repository are inputs: every
  function takes a record of the results its calls receive.
* Calls with an effect outside the modelled state (signals sent, GObject signal
  emissions, D-Bus calls, timers) are appended to an effect list in program order.
* `g_debug`, `g_warning` and `g_critical` diagnostics are not modelled.
* Where a callback would dereference a NULL pointer, or runs on as the forked child, the
  world records why its control flow stopped (`Halt`) and the callback does nothing more.
* Code of the repository that is not under `src/` (session.c, greeter.c, dmrc.c, theme.c)
  is modelled from the spec; each such definition says so.
-/

set_option linter.unusedVariables false

namespace Cheese

/-! ## Constants of the C library -/

def SIGHUP : Nat := 1

def SIGINT : Nat := 2

def SIGUSR1 : Nat := 10

def SIGUSR2 : Nat := 12

def SIGTERM : Nat := 15

def EXIT_SUCCESS : Nat := 0

def EXIT_FAILURE : Nat := 1

def STDIN_FILENO : Int := 0

def STDOUT_FILENO : Int := 1

def STDERR_FILENO : Int := 2

/-! ## GHashTable -/

/-- Models `g_hash_table_insert`: the value of a present key is replaced, a new key is added. -/
def hash_insert {κ ν : Type} [DecidableEq κ] (t : List (κ × ν)) (k : κ) (v : ν) : List (κ × ν) :=
  if t.any (fun e => decide (e.1 = k)) then
    t.map (fun e => if e.1 = k then (k, v) else e)
  else
    t ++ [(k, v)]

/-- Models `g_hash_table_remove`. -/
def hash_remove {κ ν : Type} [DecidableEq κ] (t : List (κ × ν)) (k : κ) : List (κ × ν) :=
  t.filter (fun e => decide (e.1 ≠ k))

/-- Models `g_hash_table_lookup`. -/
def hash_lookup {κ ν : Type} [DecidableEq κ] (t : List (κ × ν)) (k : κ) : Option ν :=
  (t.find? (fun e => decide (e.1 = k))).map Prod.snd

/-! ## user.c: the identity record -/

/-- The fields of `UserPrivate` that the daemon reads. -/
structure User where
  name : String
  uid : Nat
  gid : Nat
  gecos : String
  home_directory : String
  shell : String
  deriving DecidableEq, Repr

/-- Embeds `user_get_by_name` over an identity source: NULL for a NULL name, else the
first identity of that name. -/
def user_get_by_name (users : List User) (username : Option String) : Option User :=
  match username with
  | none => none
  | some name => users.find? (fun u => decide (u.name = name))

/-! ## child-process.c -/

/-- The record `ChildProcessPrivate`. -/
structure ChildProcess where
  env : List (String × String) := []
  user : Option User := none
  log_file : Option String := none
  to_child_channel : Option Int := none
  from_child_channel : Option Int := none
  pid : Int := 0
  deriving DecidableEq, Repr

/-- The argument of `signal ()`. -/
inductive SigDisposition where
  | SIG_DFL
  | SIG_IGN
  deriving DecidableEq, Repr

/-- What the forked child does, in program order. -/
inductive ChildAction where
  | open_devnull
  | dup2 (fd target : Int)
  | close (fd : Int)
  | setenv (name value : String)
  | signal (signum : Nat) (disposition : SigDisposition)
  | setsid
  | initgroups (name : String) (gid : Nat)
  | setgid (gid : Nat)
  | setuid (uid : Nat)
  | chdir (dir : String)
  | open_log (path : String)
  | execvp (argv : List String)
  | exit (code : Nat)
  deriving DecidableEq, Repr

/-- Results of the system calls made in the forked child. -/
structure ChildOS where
  uid : Nat
  devnull_fd : Int
  setsid_ok : Bool
  initgroups_ok : Bool
  setgid_ok : Bool
  setuid_ok : Bool
  chdir_ok : Bool
  log_fd : Int
  execvp_ok : Bool
  deriving DecidableEq, Repr

/-- The tail of `run_child_process`: redirect output to the log file, then `execvp`;
`execvp` returns only when it failed, and the child then exits with `EXIT_FAILURE`. -/
def run_child_exec (process : ChildProcess) (argv : List String) (os : ChildOS) :
    List ChildAction :=
  (match process.log_file with
    | some path =>
      if os.log_fd < 0 then [ChildAction.open_log path]
      else [ChildAction.open_log path, ChildAction.dup2 os.log_fd STDOUT_FILENO,
            ChildAction.dup2 os.log_fd STDERR_FILENO, ChildAction.close os.log_fd]
    | none => [])
  ++ (if os.execvp_ok then [ChildAction.execvp argv]
      else [ChildAction.execvp argv, ChildAction.exit EXIT_FAILURE])

/-- The block `if (process->priv->user)` of `run_child_process` and what follows it. -/
def run_child_user (process : ChildProcess) (argv : List String) (os : ChildOS) :
    List ChildAction :=
  match process.user with
  | none => run_child_exec process argv os
  | some user =>
    let home :=
      if os.chdir_ok then ChildAction.chdir user.home_directory :: run_child_exec process argv os
      else [ChildAction.chdir user.home_directory, ChildAction.exit EXIT_FAILURE]
    if os.uid = 0 then
      if !os.initgroups_ok then
        [ChildAction.initgroups user.name user.gid, ChildAction.exit EXIT_FAILURE]
      else if !os.setgid_ok then
        [ChildAction.initgroups user.name user.gid, ChildAction.setgid user.gid,
         ChildAction.exit EXIT_FAILURE]
      else if !os.setuid_ok then
        [ChildAction.initgroups user.name user.gid, ChildAction.setgid user.gid,
         ChildAction.setuid user.uid, ChildAction.exit EXIT_FAILURE]
      else
        ChildAction.initgroups user.name user.gid :: ChildAction.setgid user.gid ::
          ChildAction.setuid user.uid :: home
    else home

/-- The start of `run_child_process`: stdin from /dev/null, the environment overlay, the
signal dispositions and `setsid` (whose failure is only logged). -/
def run_child_setup (process : ChildProcess) (os : ChildOS) : List ChildAction :=
  [ChildAction.open_devnull, ChildAction.dup2 os.devnull_fd STDIN_FILENO,
   ChildAction.close os.devnull_fd]
  ++ process.env.map (fun e => ChildAction.setenv e.1 e.2)
  ++ [ChildAction.signal SIGTERM SigDisposition.SIG_IGN,
      ChildAction.signal SIGINT SigDisposition.SIG_IGN,
      ChildAction.signal SIGHUP SigDisposition.SIG_IGN,
      ChildAction.signal SIGUSR1 SigDisposition.SIG_IGN,
      ChildAction.signal SIGUSR2 SigDisposition.SIG_IGN,
      ChildAction.setsid]

/-- Embeds `run_child_process`: the actions of the forked child up to the point where its
image is replaced (`execvp` succeeded) or it called `_exit`. -/
def run_child_process (process : ChildProcess) (argv : List String) (os : ChildOS) :
    List ChildAction :=
  run_child_setup process os ++ run_child_user process argv os

/-- Effects of the supervisor outside its own state, in program order. -/
inductive Effect where
  | create_log (path : String)
  | chown (path : String) (uid gid : Nat)
  | io_add_watch (process : Nat) (fd : Int)
  | fork (result : Int)
  | close (fd : Int)
  | child_watch_add (pid : Int) (process : Nat)
  | kill (pid : Int) (signum : Nat)
  | emit_exited (process : Nat) (status : Nat)
  | emit_terminated (process : Nat) (signum : Nat)
  deriving DecidableEq, Repr

/-- The file-scope state of child-process.c (`processes`, `stopping`), the heap of
`ChildProcess` instances, the child watches GLib holds, and the effects so far. -/
structure Supervisor where
  heap : List ChildProcess := []
  processes : List (Int × Nat) := []
  stopping : Bool := false
  watches : List (Int × Nat) := []
  effects : List Effect := []
  deriving DecidableEq, Repr

/-- Results of the system and library calls made by `child_process_start`. -/
structure StartOS where
  uid : Nat
  to_child_pipe : Option (Int × Int)
  from_child_pipe : Option (Int × Int)
  argv : Option (List String)
  fork : Int
  child : ChildOS
  deriving DecidableEq, Repr

/-- How a call of `child_process_start` ends in the image that made it: it returns a
boolean, or (fork returned 0) the image is the child and ends inside `run_child_process`. -/
inductive StartResult where
  | returned (result : Bool)
  | child (actions : List ChildAction)
  deriving DecidableEq, Repr

/-- Embeds `child_process_set_env` on the record. -/
def child_process_set_env (process : ChildProcess) (name : String) (value : Option String) :
    ChildProcess :=
  match value with
  | some v => { process with env := hash_insert process.env name v }
  | none => { process with env := hash_remove process.env name }

/-- The part of `child_process_start` from `g_shell_parse_argv` on; `p` is the instance
record after the log file and pipe set-up, `fx` the effects of that set-up. -/
def child_process_launch (s : Supervisor) (process : Nat) (p : ChildProcess)
    (fx : List Effect) (from_server_fd to_server_fd : Int) (os : StartOS) :
    StartResult × Supervisor :=
  match os.argv with
  | none =>
    (StartResult.returned false,
      { s with heap := s.heap.set process p, effects := s.effects ++ fx })
  | some argv =>
    if os.fork < 0 then
      (StartResult.returned false,
        { s with heap := s.heap.set process p,
                 effects := s.effects ++ fx ++ [Effect.fork os.fork] })
    else if os.fork = 0 then
      (StartResult.child
          ((match p.to_child_channel with
              | some fd => [ChildAction.close fd]
              | none => [])
            ++ (match p.from_child_channel with
              | some fd => [ChildAction.close fd]
              | none => [])
            ++ run_child_process p argv os.child),
        { s with heap := s.heap.set process p,
                 effects := s.effects ++ fx ++ [Effect.fork os.fork] })
    else
      (StartResult.returned true,
        { s with
          heap := s.heap.set process { p with pid := os.fork }
          processes := hash_insert s.processes os.fork process
          watches := s.watches ++ [(os.fork, process)]
          effects := s.effects ++ fx ++
            [Effect.fork os.fork, Effect.close from_server_fd, Effect.close to_server_fd,
             Effect.child_watch_add os.fork process] })

/-- Embeds `child_process_start`.  The argument `working_dir` is not read by the C code. -/
def child_process_start (s : Supervisor) (process : Nat) (user : User)
    (working_dir : Option String) (command : String) (create_pipe : Bool) (os : StartOS) :
    StartResult × Supervisor :=
  match s.heap[process]? with
  | none => (StartResult.returned false, s)
  | some p0 =>
    if p0.pid ≠ 0 then (StartResult.returned false, s)
    else
      let p1 : ChildProcess := { p0 with user := some user }
      let fx1 : List Effect :=
        match p1.log_file with
        | some path =>
          if os.uid = 0 then [Effect.create_log path, Effect.chown path user.uid user.gid]
          else [Effect.create_log path]
        | none => []
      if create_pipe then
        match os.to_child_pipe, os.from_child_pipe with
        | some to_child_pipe, some from_child_pipe =>
          let p2 : ChildProcess :=
            { p1 with to_child_channel := some to_child_pipe.2
                      from_child_channel := some from_child_pipe.1 }
          let to_server_fd := from_child_pipe.2
          let from_server_fd := to_child_pipe.1
          let p3 := child_process_set_env p2 "LDM_TO_SERVER_FD" (some (toString to_server_fd))
          let p4 := child_process_set_env p3 "LDM_FROM_SERVER_FD"
            (some (toString from_server_fd))
          child_process_launch s process p4
            (fx1 ++ [Effect.io_add_watch process from_child_pipe.1])
            from_server_fd to_server_fd os
        | _, _ =>
          (StartResult.returned false,
            { s with heap := s.heap.set process p1, effects := s.effects ++ fx1 })
      else
        child_process_launch s process p1 fx1 (-1) (-1) os

/-- Embeds `child_process_get_pid` (9 is what the C code returns for a NULL instance). -/
def child_process_get_pid (s : Supervisor) (process : Option Nat) : Int :=
  match process.bind (fun i => s.heap[i]?) with
  | some p => p.pid
  | none => 9

/-- Embeds `child_process_signal`: nothing for an instance that is not running, else one
`kill` (whose failure is only logged). -/
def child_process_signal (s : Supervisor) (process : Nat) (signum : Nat) : Supervisor :=
  match s.heap[process]? with
  | none => s
  | some p =>
    if p.pid = 0 then s
    else { s with effects := s.effects ++ [Effect.kill p.pid signum] }

/-- The exit status handed to a child watch, as the macros `WIFEXITED`/`WEXITSTATUS` and
`WIFSIGNALED`/`WTERMSIG` read it. -/
inductive WaitStatus where
  | exited (value : Nat)
  | signaled (signum : Nat)
  | other
  deriving DecidableEq, Repr

/-- Embeds `child_process_watch_cb`; the second component is the argument of `exit ()`
when the callback ends the daemon. -/
def child_process_watch_cb (s : Supervisor) (pid : Int) (status : WaitStatus) (process : Nat) :
    Supervisor × Option Nat :=
  let fx : List Effect :=
    match status with
    | WaitStatus.exited value => [Effect.emit_exited process value]
    | WaitStatus.signaled signum => [Effect.emit_terminated process signum]
    | WaitStatus.other => []
  let heap :=
    match s.heap[process]? with
    | some p => s.heap.set process { p with pid := 0 }
    | none => s.heap
  let processes := hash_remove s.processes pid
  let s1 : Supervisor := { s with heap := heap, processes := processes, effects := s.effects ++ fx }
  if s1.stopping && processes.length == 0 then (s1, some EXIT_SUCCESS) else (s1, none)

/-- Embeds `child_process_stop_all`; the second component is the argument of `exit ()`
when the call ends the daemon. -/
def child_process_stop_all (s : Supervisor) : Supervisor × Option Nat :=
  let s1 : Supervisor := { s with stopping := true }
  if s1.processes.length == 0 then (s1, some EXIT_SUCCESS)
  else (s1.processes.foldl (fun acc e => child_process_signal acc e.2 SIGTERM) s1, none)

/-- One operation of the supervisor: a call of `child_process_start`, or GLib dispatching
the child watch of `pid` to `child_process_watch_cb`. -/
inductive Op where
  | start (process : Nat) (user : User) (working_dir : Option String) (command : String)
      (create_pipe : Bool) (os : StartOS)
  | watch (pid : Int) (status : WaitStatus) (process : Nat)
  deriving DecidableEq, Repr

/-- The assumption on an operation under which the registry invariant is proved: `fork`
does not return a pid whose child watch is still pending, and a child watch callback runs
only for a watch that was added and has not run.  The first part is an assumption on the
run, not a guarantee: GLib reaps an exited child before it dispatches its watch callback, so
`fork` can return that pid again while the watch is pending. -/
def enabled (s : Supervisor) : Op → Bool
  | Op.start _ _ _ _ _ os => !(s.watches.any (fun e => decide (e.1 = os.fork)))
  | Op.watch pid _ process => decide ((pid, process) ∈ s.watches)

/-- Runs one operation; GLib removes a child watch when it has dispatched it. -/
def step (s : Supervisor) : Op → Supervisor × Option Nat
  | Op.start process user working_dir command create_pipe os =>
    ((child_process_start s process user working_dir command create_pipe os).2, none)
  | Op.watch pid status process =>
    let r := child_process_watch_cb s pid status process
    ({ r.1 with watches := r.1.watches.erase (pid, process) }, r.2)

/-- Runs a sequence of operations; nothing runs after the daemon has called `exit`. -/
def run (s : Supervisor) : List Op → Supervisor
  | [] => s
  | op :: ops =>
    match (step s op).2 with
    | none => run (step s op).1 ops
    | some _ => (step s op).1

/-- Every operation of the sequence is enabled in the state it runs in. -/
def valid_run (s : Supervisor) : List Op → Bool
  | [] => true
  | op :: ops =>
    enabled s op &&
      (match (step s op).2 with
        | none => valid_run (step s op).1 ops
        | some _ => true)

/-- A supervisor before any child was started: empty registry, no child watch, and no
instance with a process id. -/
def fresh (s : Supervisor) : Bool :=
  s.processes.isEmpty && s.watches.isEmpty && s.heap.all (fun p => decide (p.pid = 0))

/-- The number of instances whose pid is non-zero. -/
def live_count (s : Supervisor) : Nat :=
  s.heap.countP (fun p => decide (p.pid ≠ 0))

/-- Every registry entry maps a non-zero pid to an instance whose pid field is that key,
and no pid is registered twice. -/
def registry_ok (s : Supervisor) : Prop :=
  (s.processes.map Prod.fst).Nodup ∧
    ∀ e ∈ s.processes, e.1 ≠ 0 ∧ (s.heap[e.2]?).map (fun p => p.pid) = some e.1


/-- The four privilege-dropping calls of `run_child_process` for `user`, in source order. -/
def privilege_calls (user : User) : List ChildAction :=
  [ChildAction.initgroups user.name user.gid, ChildAction.setgid user.gid,
   ChildAction.setuid user.uid, ChildAction.chdir user.home_directory]

/-- The number of privilege-dropping calls that succeed before the first failure. -/
def leading_successes (os : ChildOS) : Nat :=
  ([os.initgroups_ok, os.setgid_ok, os.setuid_ok, os.chdir_ok].takeWhile id).length

/-- Recognises an `execvp` action. -/
def is_execvp : ChildAction → Bool
  | ChildAction.execvp _ => true
  | _ => false

/-- The pid fields of the heap, in heap order. -/
def heap_pids (s : Supervisor) : List Int := s.heap.map (fun p => p.pid)

/-- Consistency of a registry `procs` and child watches `watches` with the pid fields
`pids` of the heap. -/
def consistent (pids : List Int) (procs watches : List (Int × Nat)) : Prop :=
  (procs.map Prod.fst).Nodup ∧
  (∀ e ∈ procs, e.1 ≠ 0 ∧ pids[e.2]? = some e.1) ∧
  (∀ e, e ∈ watches ↔ e ∈ procs) ∧
  watches.Nodup ∧
  procs.length = pids.countP (fun pid => decide (pid ≠ 0))

/-! ## GLib string and key-file helpers -/

/-- Splits at every occurrence of `sep`, keeping empty pieces. -/
def split_chars (sep : Char) : List Char → List (List Char)
  | [] => [[]]
  | c :: cs =>
    if c = sep then [] :: split_chars sep cs
    else
      match split_chars sep cs with
      | [] => [[c]]
      | piece :: pieces => (c :: piece) :: pieces

/-- Models `g_strsplit (s, sep, -1)` for a one-character separator: the empty string has
no pieces. -/
def g_strsplit (s : List Char) (sep : Char) : List (List Char) :=
  match s with
  | [] => []
  | _ => split_chars sep s

/-- Models `g_ascii_isspace`. -/
def g_ascii_isspace (c : Char) : Bool :=
  c = ' ' || c = '\t' || c = '\n' || c = '\r' || c = Char.ofNat 11 || c = Char.ofNat 12

/-- Models `g_strstrip`: leading and trailing white space removed. -/
def g_strstrip (s : List Char) : List Char :=
  ((s.dropWhile g_ascii_isspace).reverse.dropWhile g_ascii_isspace).reverse

/-- Models `g_strsplit (s, "=", 2)` as read by `set_env_from_pam_session`: the text before
and after the first `=`, or `none` when fewer than two pieces result. -/
def split_first_equals : List Char → Option (List Char × List Char)
  | [] => none
  | c :: cs =>
    if c = '=' then some ([], cs)
    else
      match split_first_equals cs with
      | some (name, value) => some (c :: name, value)
      | none => none

/-- A `GKeyFile`: values by group and key. -/
abbrev KeyFile := List ((String × String) × String)

/-- Models `g_key_file_get_string`. -/
def g_key_file_get_string (f : KeyFile) (group key : String) : Option String :=
  hash_lookup f (group, key)

/-- Models `g_key_file_set_string`. -/
def g_key_file_set_string (f : KeyFile) (group key value : String) : KeyFile :=
  hash_insert f (group, key) value

/-- Models `g_key_file_remove_key`. -/
def g_key_file_remove_key (f : KeyFile) (group key : String) : KeyFile :=
  hash_remove f (group, key)

/-- Models `g_key_file_get_boolean` with a NULL error: TRUE for the values `true` and `1`,
FALSE for a missing key and for every other value. -/
def g_key_file_get_boolean (f : KeyFile) (group key : String) : Bool :=
  match g_key_file_get_string f group key with
  | some v => decide (v = "true") || decide (v = "1")
  | none => false

/-- Models the `%s` conversion of glibc for a string that may be NULL. -/
def printf_s (s : Option String) : String :=
  match s with
  | some v => v
  | none => "(null)"

/-! ## pam-session.c -/

def PAM_SUCCESS : Int := 0

def PAM_AUTH_ERR : Int := 7

def PAM_NEW_AUTHTOK_REQD : Int := 12

def PAM_CONV_ERR : Int := 19

def PAM_PROMPT_ECHO_OFF : Int := 1

def PAM_PROMPT_ECHO_ON : Int := 2

/-- The record `struct pam_message`. -/
structure PamMessage where
  msg_style : Int
  msg : String
  deriving DecidableEq, Repr

/-- What libpam keeps behind a `pam_handle_t` and the daemon reads back: the item
`PAM_USER` and the environment list. -/
structure PamHandle where
  user : Option String := none
  envlist : List String := []
  deriving DecidableEq, Repr

/-- An item of the response queue: a response of the owner, or the token
`GINT_TO_POINTER (-1)` pushed to unblock the worker. -/
inductive QueueItem where
  | response (resp : String)
  | aborted
  deriving DecidableEq, Repr

/-- The callbacks of display.c that are connected to signals of a PAM session. -/
inductive PamCallback where
  | default_session_pam_message_cb
  | default_session_authentication_result_cb
  deriving DecidableEq, Repr

/-- The record `PAMSessionPrivate`, and the handlers connected to the signals
`got-messages` and `authentication-result` of the instance. -/
structure PAMSession where
  service : String
  username : Option String
  authentication_thread : Bool := false
  stop : Bool := false
  cancel : Bool := false
  num_messages : Nat := 0
  messages : Option (List PamMessage) := none
  result : Int := 0
  authentication_response_queue : Option (List QueueItem) := none
  pam_handle : Option PamHandle := none
  in_session : Bool := false
  got_messages_handlers : List PamCallback := []
  authentication_result_handlers : List PamCallback := []
  deriving DecidableEq, Repr

/-- Signal emissions and libpam calls of a PAM session, in program order. -/
inductive PamEffect where
  | emit_authentication_started
  | emit_started
  | emit_got_messages (num_messages : Nat) (messages : Option (List PamMessage))
  | emit_authentication_result (result : Int)
  | emit_ended
  | pam_open_session
  | pam_setcred_establish
  | pam_close_session
  | pam_setcred_delete
  | thread_create
  deriving DecidableEq, Repr

/-- Embeds `pam_session_new`. -/
def pam_session_new (service : String) (username : Option String) : PAMSession :=
  { service := service, username := username }

/-- Embeds `pam_session_get_in_session`; FALSE for a NULL session. -/
def pam_session_get_in_session (session : Option PAMSession) : Bool :=
  match session with
  | some ps => ps.in_session
  | none => false

/-- Embeds `pam_session_authorize`; `passwd_file` is the file-scope variable. -/
def pam_session_authorize (passwd_file : Option String) (ps : PAMSession) :
    PAMSession × List PamEffect :=
  ({ ps with in_session := true },
    (match passwd_file with
      | none => [PamEffect.pam_open_session, PamEffect.pam_setcred_establish]
      | some _ => [])
    ++ [PamEffect.emit_started])

/-- Embeds `notify_messages_cb`, the idle callback that delivers the worker's prompts. -/
def notify_messages_cb (ps : PAMSession) : PAMSession × List PamEffect :=
  (ps, [PamEffect.emit_got_messages ps.num_messages ps.messages])

/-- Embeds `get_password`: the second field of the first line of the passwd file that has
seven fields and whose first field is `username`; `data` is the content of the file, `none`
when it cannot be read. -/
def get_password (data : Option String) (username : String) : Option String :=
  match data with
  | none => none
  | some text =>
    ((g_strsplit text.toList '\n').findSome? (fun line =>
      let fields := g_strsplit (g_strstrip line) ':'
      if fields.length = 7 ∧ fields.head? = some username.toList then fields[1]? else none)).map
      String.mk

/-- Embeds `send_message`. -/
def send_message (ps : PAMSession) (style : Int) (text : String) :
    PAMSession × List PamEffect :=
  ({ ps with messages := some [⟨style, text⟩], num_messages := 1 },
    [PamEffect.emit_got_messages 1 (some [⟨style, text⟩])])

/-- Embeds `pam_session_start`; `thread_ok` says whether `g_thread_create` succeeds. -/
def pam_session_start (passwd_file : Option String) (passwd_data : Option String)
    (ps : PAMSession) (thread_ok : Bool) : Bool × PAMSession × List PamEffect :=
  if ps.authentication_thread then (false, ps, [])
  else
    match passwd_file with
    | some _ =>
      match ps.username with
      | none =>
        let r := send_message ps PAM_PROMPT_ECHO_ON "login:"
        (true, r.1, PamEffect.emit_authentication_started :: r.2)
      | some username =>
        let password := get_password passwd_data username
        if ps.service = "lightdm-autologin" ∨ password = some "" then
          (true, ps, [PamEffect.emit_authentication_started,
            PamEffect.emit_authentication_result PAM_SUCCESS])
        else
          let r := send_message ps PAM_PROMPT_ECHO_OFF "Password:"
          (true, r.1, PamEffect.emit_authentication_started :: r.2)
    | none =>
      (thread_ok,
        { ps with authentication_response_queue := some [], authentication_thread := thread_ok },
        [PamEffect.emit_authentication_started, PamEffect.thread_create])

/-- Embeds `pam_session_get_username`: the name is refreshed from the PAM handle when there
is one. -/
def pam_session_get_username (ps : PAMSession) : Option String × PAMSession :=
  match ps.pam_handle with
  | some handle => (handle.user, { ps with username := handle.user })
  | none => (ps.username, ps)

/-- Embeds `pam_session_cancel`. -/
def pam_session_cancel (passwd_file : Option String) (ps : PAMSession) :
    PAMSession × List PamEffect :=
  match passwd_file with
  | none => (ps, [PamEffect.emit_authentication_result PAM_CONV_ERR])
  | some _ =>
    if !ps.authentication_thread then (ps, [])
    else
      ({ ps with cancel := true
                 authentication_response_queue :=
                   ps.authentication_response_queue.map (fun q => q ++ [QueueItem.aborted]) },
        [])

/-- Embeds `pam_session_get_envlist`. -/
def pam_session_get_envlist (passwd_file : Option String) (ps : PAMSession) :
    Option (List String) :=
  match passwd_file with
  | some _ => some []
  | none => ps.pam_handle.map (fun handle => handle.envlist)

/-- Embeds `pam_session_end`. -/
def pam_session_end (ps : PAMSession) : PAMSession × List PamEffect :=
  if ps.authentication_thread then
    ({ ps with stop := true
               authentication_response_queue :=
                 ps.authentication_response_queue.map (fun q => q ++ [QueueItem.aborted]) },
      [])
  else if ps.in_session then
    ({ ps with in_session := false },
      [PamEffect.pam_close_session, PamEffect.pam_setcred_delete, PamEffect.emit_ended])
  else (ps, [])

/-- Embeds `pam_session_respond`; `resp` is the text of the response, `users` the identity
source behind `user_get_by_name`. -/
def pam_session_respond (passwd_file : Option String) (passwd_data : Option String)
    (users : List User) (ps : PAMSession) (resp : String) : PAMSession × List PamEffect :=
  match passwd_file with
  | some _ =>
    let ps1 : PAMSession :=
      match ps.messages with
      | some _ => { ps with messages := none, num_messages := 0 }
      | none => ps
    match ps1.username with
    | none =>
      let ps2 : PAMSession := { ps1 with username := some resp }
      if get_password passwd_data resp = some "" then
        (ps2, [PamEffect.emit_authentication_result PAM_SUCCESS])
      else send_message ps2 PAM_PROMPT_ECHO_OFF "Password:"
    | some username =>
      if (user_get_by_name users (some username)).isSome ∧
          get_password passwd_data username = some resp then
        (ps1, [PamEffect.emit_authentication_result PAM_SUCCESS])
      else (ps1, [PamEffect.emit_authentication_result PAM_AUTH_ERR])
  | none =>
    if !ps.authentication_thread then (ps, [])
    else
      ({ ps with authentication_response_queue :=
          ps.authentication_response_queue.map (fun q => q ++ [QueueItem.response resp]) },
        [])

/-- The first half of `pam_conv_cb`, run by the worker: the messages are published in the
session (the caller queues `notify_messages_cb` on the main loop). -/
def pam_conv_cb_publish (ps : PAMSession) (msg : List PamMessage) : PAMSession :=
  { ps with num_messages := msg.length, messages := some msg }

/-- The second half of `pam_conv_cb`, from `g_async_queue_pop` on: `none` while the queue is
empty (the worker stays blocked), else the session after the call, the value returned to
libpam and the response handed over. -/
def pam_conv_cb_resume (ps : PAMSession) : Option (PAMSession × Int × Option String) :=
  match ps.authentication_response_queue with
  | some (item :: rest) =>
    let ps1 : PAMSession :=
      { ps with authentication_response_queue := some rest, num_messages := 0, messages := none }
    if ps1.stop || ps1.cancel then some ({ ps1 with cancel := false }, PAM_CONV_ERR, none)
    else
      some (ps1, PAM_SUCCESS,
        match item with
        | QueueItem.response resp => some resp
        | QueueItem.aborted => none)
  | _ => none

/-- The result `authenticate_cb` stores, from the values `pam_authenticate`, `pam_acct_mgmt`
and `pam_chauthtok` return. -/
def authenticate_result (authenticate acct_mgmt chauthtok : Int) : Int :=
  if authenticate = PAM_SUCCESS then
    if acct_mgmt = PAM_NEW_AUTHTOK_REQD then chauthtok else acct_mgmt
  else authenticate

/-- The start of `authenticate_cb`: `pam_start` creates the PAM handle. -/
def authenticate_cb_begin (ps : PAMSession) (handle : PamHandle) : PAMSession :=
  { ps with pam_handle := some handle }

/-- The end of `authenticate_cb`: the result is stored (the caller queues
`notify_auth_complete_cb` on the main loop). -/
def authenticate_cb_finish (ps : PAMSession) (result : Int) : PAMSession :=
  { ps with result := result }

/-- Embeds `notify_auth_complete_cb`, the idle callback that delivers the worker's result. -/
def notify_auth_complete_cb (ps : PAMSession) : PAMSession × List PamEffect :=
  let ps1 : PAMSession :=
    { ps with result := 0, authentication_thread := false,
              authentication_response_queue := none }
  if ps1.stop then pam_session_end ps1
  else (ps1, [PamEffect.emit_authentication_result ps.result])

/-- The idle callbacks the worker queues on the main loop with `g_idle_add`. -/
inductive IdleCallback where
  | notify_messages_cb
  | notify_auth_complete_cb
  deriving DecidableEq, Repr

/-- Where the authentication worker thread is: there is none, it was created, it runs inside
libpam, it is blocked in `pam_conv_cb` on the response queue, or `authenticate_cb` returned. -/
inductive Worker where
  | absent
  | created
  | authenticating
  | waiting
  | finished
  deriving DecidableEq, Repr

/-- A PAM session with its worker thread and the idle callbacks queued on the main loop (in
the order they run), and what the session has emitted so far. -/
structure PamRuntime where
  session : PAMSession
  worker : Worker := Worker.absent
  idle : List IdleCallback := []
  emitted : List PamEffect := []
  deriving DecidableEq, Repr

/-- The atomic steps of the owner (`start`, `respond`, `cancel`), of the worker thread and
of the main loop (`dispatch_idle` runs the first queued idle callback). -/
inductive PamOp where
  | start (thread_ok : Bool)
  | respond (resp : String)
  | cancel
  | worker_begin (handle : PamHandle)
  | worker_converse (msg : List PamMessage)
  | worker_resume
  | worker_finish (result : Int)
  | dispatch_idle
  deriving DecidableEq, Repr

/-- One step of the interleaving; a worker step that the worker cannot take in its state,
and a dispatch with nothing queued, change nothing. -/
def pam_step (passwd_file passwd_data : Option String) (users : List User) (rt : PamRuntime) :
    PamOp → PamRuntime
  | PamOp.start thread_ok =>
    let r := pam_session_start passwd_file passwd_data rt.session thread_ok
    { rt with
      session := r.2.1
      emitted := rt.emitted ++ r.2.2
      worker :=
        if r.2.1.authentication_thread && !rt.session.authentication_thread then Worker.created
        else rt.worker }
  | PamOp.respond resp =>
    let r := pam_session_respond passwd_file passwd_data users rt.session resp
    { rt with session := r.1, emitted := rt.emitted ++ r.2 }
  | PamOp.cancel =>
    let r := pam_session_cancel passwd_file rt.session
    { rt with session := r.1, emitted := rt.emitted ++ r.2 }
  | PamOp.worker_begin handle =>
    if rt.worker = Worker.created then
      { rt with session := authenticate_cb_begin rt.session handle,
                worker := Worker.authenticating }
    else rt
  | PamOp.worker_converse msg =>
    if rt.worker = Worker.authenticating then
      { rt with session := pam_conv_cb_publish rt.session msg
                idle := rt.idle ++ [IdleCallback.notify_messages_cb]
                worker := Worker.waiting }
    else rt
  | PamOp.worker_resume =>
    if rt.worker = Worker.waiting then
      match pam_conv_cb_resume rt.session with
      | some r => { rt with session := r.1, worker := Worker.authenticating }
      | none => rt
    else rt
  | PamOp.worker_finish result =>
    if rt.worker = Worker.authenticating then
      { rt with session := authenticate_cb_finish rt.session result
                idle := rt.idle ++ [IdleCallback.notify_auth_complete_cb]
                worker := Worker.finished }
    else rt
  | PamOp.dispatch_idle =>
    match rt.idle with
    | [] => rt
    | IdleCallback.notify_messages_cb :: rest =>
      let r := notify_messages_cb rt.session
      { rt with session := r.1, emitted := rt.emitted ++ r.2, idle := rest }
    | IdleCallback.notify_auth_complete_cb :: rest =>
      let r := notify_auth_complete_cb rt.session
      { rt with session := r.1, emitted := rt.emitted ++ r.2, idle := rest,
                worker := Worker.absent }

/-- Runs a sequence of steps. -/
def pam_run (passwd_file passwd_data : Option String) (users : List User) (rt : PamRuntime) :
    List PamOp → PamRuntime
  | [] => rt
  | op :: ops => pam_run passwd_file passwd_data users (pam_step passwd_file passwd_data users rt op) ops

/-- Recognises the emission of `authentication-result`. -/
def is_authentication_result : PamEffect → Bool
  | PamEffect.emit_authentication_result _ => true
  | _ => false

/-- The step `op` taken in `rt` emits `authentication-result` while a `notify_messages_cb`
of the session is queued and has not run. -/
def result_overtakes_messages (passwd_file passwd_data : Option String) (users : List User)
    (rt : PamRuntime) (op : PamOp) : Bool :=
  (((pam_step passwd_file passwd_data users rt op).emitted.drop rt.emitted.length).any
      is_authentication_result) &&
    ((pam_step passwd_file passwd_data users rt op).idle.contains
      IdleCallback.notify_messages_cb)

/-! ## xserver.c -/

/-- The enumeration `XServerType`. -/
inductive XServerType where
  | XSERVER_TYPE_LOCAL
  | XSERVER_TYPE_LOCAL_TERMINAL
  | XSERVER_TYPE_REMOTE
  deriving DecidableEq, Repr

/-- The record `XServerPrivate`. -/
structure XServer where
  type : XServerType := XServerType.XSERVER_TYPE_LOCAL
  log_file : Option String := none
  env : List (String × String) := []
  command : Option String := none
  ready : Bool := false
  hostname : Option String := none
  port : Nat := 0
  authentication_name : String := ""
  authentication_data : List Nat := []
  authorization : Bool := false
  authorization_path : Option String := none
  authorization_file : Bool := false
  vt : Int := -1
  display_number : Int := 0
  address : Option String := none
  pid : Int := 0
  connection : Bool := false
  deriving DecidableEq, Repr

/-- Embeds `xserver_get_server_type`. -/
def xserver_get_server_type (server : XServer) : XServerType := server.type

/-- Embeds `xserver_get_vt`. -/
def xserver_get_vt (server : XServer) : Int := server.vt

/-- Embeds `xserver_get_address`: the address is computed once and cached. -/
def xserver_get_address (server : XServer) : String × XServer :=
  match server.address with
  | some address => (address, server)
  | none =>
    let address :=
      if server.type = XServerType.XSERVER_TYPE_REMOTE then
        printf_s server.hostname ++ ":" ++ toString server.display_number
      else ":" ++ toString server.display_number
    (address, { server with address := some address })

/-- Embeds `xserver_disconnect_clients`; the second component is the pid sent SIGHUP. -/
def xserver_disconnect_clients (server : XServer) : XServer × Option Int :=
  ({ server with ready := false }, if server.pid ≠ 0 then some server.pid else none)

/-- The digit `%X` prints for a value below sixteen. -/
def hex_digit (n : Nat) : Char :=
  if n < 10 then Char.ofNat (48 + n) else Char.ofNat (55 + n)

/-- Models `%02X` for a byte: two upper-case hexadecimal digits. -/
def hex_byte (b : Nat) : List Char :=
  [hex_digit (b % 256 / 16), hex_digit (b % 16)]

/-- Models `%d` applied to a `guint`: the 32 bits of the value are read as a signed int. -/
def printf_d_guint (n : Nat) : String :=
  if n % 2 ^ 32 < 2 ^ 31 then toString (n % 2 ^ 32)
  else toString ((n % 2 ^ 32 : Int) - 2 ^ 32)

/-- The command line `xserver_start` builds for a local or local-terminal server. -/
def xserver_command_line (server : XServer) : String :=
  server.command.getD ""
  ++ " :" ++ toString server.display_number
  ++ (if server.authorization then " -auth " ++ printf_s server.authorization_path else "")
  ++ (if server.type = XServerType.XSERVER_TYPE_LOCAL_TERMINAL then
        (if server.port % 2 ^ 32 ≠ 0 then " -port " ++ printf_d_guint server.port else "")
        ++ " -query " ++ printf_s server.hostname
        ++ (if server.authentication_name = "XDM-AUTHENTICATION-1" ∧
              server.authentication_data.length > 0 then
              " -cookie 0x" ++ String.mk (server.authentication_data.flatMap hex_byte)
            else "")
      else " -nolisten tcp")
  ++ (if server.vt ≥ 0 then " vt" ++ toString server.vt else "")

/-- Effects of xserver.c outside its own state, in program order. -/
inductive XEffect where
  | emit_ready (server : Nat)
  | emit_exited (server : Nat)
  | xauth_write (server : Nat)
  | xcb_connect (address : String)
  | spawn (command_line : String)
  | child_watch_add (pid : Int) (server : Nat)
  | kill (pid : Int) (signum : Nat)
  deriving DecidableEq, Repr

/-- The file-scope table `servers` of xserver.c with the heap of `XServer` instances, and
the effects so far. -/
structure XState where
  xservers : List XServer := []
  servers : List (Int × Nat) := []
  effects : List XEffect := []
  deriving DecidableEq, Repr

/-- Results of the calls `xserver_start` makes outside the repository: whether `xauth_write`
returns a file, whether the connection `xcb_connect` returns has no error, whether
`g_shell_parse_argv` succeeds, and the pid `g_spawn_async` stores (`none` when it fails). -/
structure XStartOS where
  xauth_ok : Bool
  connect_ok : Bool
  argv_ok : Bool
  spawn : Option Int
  deriving DecidableEq, Repr

/-- Embeds `xserver_connect`: the authorization file is written when an authorization is
set, the connection is made to the address of the server, and the result says whether the
connection has no error. -/
def xserver_connect (server : XServer) (i : Nat) (os : XStartOS) :
    Bool × XServer × List XEffect :=
  let s1 : XServer :=
    if server.authorization then { server with authorization_file := os.xauth_ok } else server
  let a := xserver_get_address s1
  (os.connect_ok, { a.2 with connection := true },
    (if server.authorization then [XEffect.xauth_write i] else []) ++ [XEffect.xcb_connect a.1])

/-- Embeds `xserver_start` for the instance `i` of the heap. -/
def xserver_start (x : XState) (i : Nat) (os : XStartOS) : Bool × XState :=
  match x.xservers[i]? with
  | none => (false, x)
  | some server =>
    if server.pid ≠ 0 then (false, x)
    else if server.type = XServerType.XSERVER_TYPE_REMOTE then
      let c := xserver_connect server i os
      if !c.1 then
        (false, { x with xservers := x.xservers.set i c.2.1, effects := x.effects ++ c.2.2 })
      else
        (true,
          { x with xservers := x.xservers.set i { c.2.1 with ready := true }
                   effects := x.effects ++ c.2.2 ++ [XEffect.emit_ready i] })
    else
      let s1 : XServer :=
        if server.authorization then { server with authorization_file := os.xauth_ok } else server
      let fx1 : List XEffect := if server.authorization then [XEffect.xauth_write i] else []
      if !os.argv_ok then
        (false, { x with xservers := x.xservers.set i s1, effects := x.effects ++ fx1 })
      else
        match os.spawn with
        | none =>
          (decide (s1.pid ≠ 0),
            { x with xservers := x.xservers.set i s1
                     effects := x.effects ++ fx1 ++ [XEffect.spawn (xserver_command_line s1)] })
        | some pid =>
          (decide (pid ≠ 0),
            { x with xservers := x.xservers.set i { s1 with pid := pid }
                     servers := hash_insert x.servers pid i
                     effects := x.effects ++ fx1 ++
                       [XEffect.spawn (xserver_command_line s1), XEffect.child_watch_add pid i] })

/-- Embeds `xserver_handle_signal`: the server registered for `pid` becomes ready, and emits
`ready` when it was not ready before. -/
def xserver_handle_signal (x : XState) (pid : Int) : XState :=
  match hash_lookup x.servers pid with
  | none => x
  | some i =>
    match x.xservers[i]? with
    | none => x
    | some server =>
      if !server.ready then
        { x with xservers := x.xservers.set i { server with ready := true }
                 effects := x.effects ++ [XEffect.emit_ready i] }
      else x

/-- Embeds `xserver_watch_cb`, the child watch of the process of server `i`. -/
def xserver_watch_cb (x : XState) (i : Nat) (status : WaitStatus) : XState :=
  match x.xservers[i]? with
  | none => x
  | some server =>
    { x with xservers := x.xservers.set i { server with pid := 0 }
             servers := hash_remove x.servers server.pid
             effects := x.effects ++ [XEffect.emit_exited i] }

/-- The call `xserver_disconnect_clients (server)` on the instance `i` of the heap. -/
def call_xserver_disconnect_clients (x : XState) (i : Nat) : XState :=
  match x.xservers[i]? with
  | none => x
  | some server =>
    { x with xservers := x.xservers.set i (xserver_disconnect_clients server).1
             effects := x.effects ++
               (match (xserver_disconnect_clients server).2 with
                | some pid => [XEffect.kill pid SIGHUP]
                | none => []) }

/-- One operation on the X servers: a call of `xserver_start`, the ready signal (SIGUSR1)
received from process `pid`, a call of `xserver_disconnect_clients`, or the exit of the
process of a server. -/
inductive XOp where
  | start (server : Nat) (os : XStartOS)
  | handle_signal (pid : Int)
  | disconnect_clients (server : Nat)
  | process_exit (server : Nat) (status : WaitStatus)
  deriving DecidableEq, Repr

/-- Runs one operation. -/
def xserver_step (x : XState) : XOp → XState
  | XOp.start server os => (xserver_start x server os).2
  | XOp.handle_signal pid => xserver_handle_signal x pid
  | XOp.disconnect_clients server => call_xserver_disconnect_clients x server
  | XOp.process_exit server status => xserver_watch_cb x server status

/-- Runs a sequence of operations. -/
def xserver_run (x : XState) : List XOp → XState
  | [] => x
  | op :: ops => xserver_run (xserver_step x op) ops

/-- The number of `ready` emissions of server `i` among the effects. -/
def ready_emissions (fx : List XEffect) (i : Nat) : Nat :=
  fx.count (XEffect.emit_ready i)

/-- The number of `xserver_disconnect_clients` calls on server `i` among the operations. -/
def disconnect_calls (ops : List XOp) (i : Nat) : Nat :=
  ops.countP (fun op => decide (op = XOp.disconnect_clients i))

/-! ## display.c -/

/-- Modelled from the spec: the `Session` object of session.c (not under src/), a
`ChildProcess` (the instance `process` of the supervisor heap) with the identity to run as
and the command to launch. -/
structure Session where
  process : Nat
  user : Option User := none
  command : Option String := none
  deriving DecidableEq, Repr

/-- Modelled from the spec: the daemon-side `Greeter` object of greeter.c (not under src/),
a `Session` with the greeter settings and the login PAM session it drives. -/
structure Greeter where
  session : Session
  theme : Option String := none
  count : Int := 0
  default_user : Option String := none
  timeout : Int := 0
  default_session : Option String := none
  pam_session : Option Nat := none
  deriving DecidableEq, Repr

/-- The record `DisplayPrivate`; the two PAM sessions and the X server are pointers into
the heaps of the world. -/
structure DisplayPrivate where
  index : Int := 0
  xserver : Option Nat := none
  greeter_count : Int := 0
  login_count : Int := 0
  greeter_user : Option String := none
  greeter_theme : Option String := none
  session_wrapper : Option String := none
  pam_service : String
  pam_autologin_service : String
  greeter_session : Option Greeter := none
  greeter_pam_session : Option Nat := none
  greeter_ck_cookie : Option String := none
  supports_transitions : Bool := false
  user_session : Option Session := none
  user_session_timer : Nat := 0
  user_pam_session : Option Nat := none
  user_ck_cookie : Option String := none
  default_user : Option String := none
  timeout : Int := 0
  default_session : Option String := none
  deriving DecidableEq, Repr

/-- Effects of the Display outside the modelled state, in program order: its own signal
emissions, calls into code that is not under src/, D-Bus calls, timers, and the effects of
the PAM sessions it drives. -/
inductive Event where
  | emit_start_greeter (process : Nat)
  | emit_end_greeter (process : Option Nat)
  | emit_start_session (process : Nat)
  | emit_end_session (process : Option Nat)
  | emit_exited
  | load_theme (name : Option String)
  | ck_open_session (session_type : String) (uid : Nat) (address : String)
      (device : Option String)
  | ck_close_session (cookie : String)
  | dmrc_save (username : Option String)
  | session_start (process : Nat) (create_pipe : Bool)
  | greeter_quit (process : Option Nat)
  | timeout_add (interval : Nat)
  | source_remove (id : Nat)
  | kill (pid : Int) (signum : Nat)
  | pam (session : Nat) (effect : PamEffect)
  deriving DecidableEq, Repr

/-- Why the control flow of the daemon image stopped inside a callback: the C code
dereferences a NULL pointer there, or `fork` returned 0 and the image is the child. -/
inductive Halt where
  | null_dereference
  | forked_child (actions : List ChildAction)
  deriving DecidableEq, Repr

/-- The state the Display callbacks work on. -/
structure World where
  display : DisplayPrivate
  supervisor : Supervisor := {}
  pam_sessions : List PAMSession := []
  xservers : List XServer := []
  passwd_file : Option String := none
  dmrc : List (String × KeyFile) := []
  events : List Event := []
  halted : Option Halt := none
  deriving DecidableEq, Repr

/-- What the callbacks read from the host: the uid of the daemon, the identity source, the
session descriptors that load (by session name), the greeter command of the themes that
load (by theme name), and the content of the passwd file of the passwd-file mode. -/
structure Host where
  uid : Nat := 0
  users : List User := []
  current_user : Option User := none
  xsessions : List (String × KeyFile) := []
  themes : List (String × String) := []
  passwd_data : Option String := none
  deriving DecidableEq, Repr

/-- The results the calls of one callback receive from outside: the cookie ConsoleKit
returns, the results for `child_process_start`, the id `g_timeout_add` returns, and
whether `g_thread_create` succeeds. -/
structure CallOS where
  ck_cookie : Option String
  start : StartOS
  timer : Nat
  thread_ok : Bool
  deriving DecidableEq, Repr

/-- Length of time in milliseconds to wait for a session to load. -/
def USER_SESSION_TIMEOUT : Nat := 5000

/-- Modelled from the spec: `dmrc_load` of dmrc.c (not under src/), the per-user settings
file read back as a key file, empty when the user has none. -/
def dmrc_load (store : List (String × KeyFile)) (username : Option String) : KeyFile :=
  match username with
  | none => []
  | some name => (hash_lookup store name).getD []

/-- Modelled from the spec: `dmrc_save` of dmrc.c (not under src/), the per-user settings
file rewritten with the key file. -/
def dmrc_save (store : List (String × KeyFile)) (file : KeyFile) (username : Option String) :
    List (String × KeyFile) :=
  match username with
  | none => store
  | some name => hash_insert store name file

/-- Modelled from the spec: `session_start` of session.c (not under src/) launches the
command of the session as a ChildProcess under the identity of the session. -/
def session_start (s : Supervisor) (session : Session) (create_pipe : Bool) (os : StartOS) :
    StartResult × Supervisor :=
  match session.user, session.command with
  | some user, some command =>
    child_process_start s session.process user (some user.home_directory) command
      create_pipe os
  | _, _ => (StartResult.returned false, s)

/-- Dereferences a PAM session pointer. -/
def get_pam (w : World) (session : Option Nat) : Option PAMSession :=
  session.bind (fun i => w.pam_sessions[i]?)

/-- Stores the result of a PAM call on session `i` and records its effects. -/
def pam_update (w : World) (i : Nat) (r : PAMSession × List PamEffect) : World :=
  { w with pam_sessions := w.pam_sessions.set i r.1
           events := w.events ++ r.2.map (Event.pam i) }

/-- The call `pam_session_end (session)` of a callback; nothing for a NULL session. -/
def call_pam_session_end (w : World) (session : Option Nat) : World :=
  match session with
  | none => w
  | some i =>
    match w.pam_sessions[i]? with
    | none => w
    | some ps => pam_update w i (pam_session_end ps)

/-- The call `pam_session_authorize (session)` of a callback. -/
def call_pam_session_authorize (w : World) (session : Option Nat) : World :=
  match session with
  | none => w
  | some i =>
    match w.pam_sessions[i]? with
    | none => w
    | some ps => pam_update w i (pam_session_authorize w.passwd_file ps)

/-- The call `pam_session_get_username (session)` of a callback; NULL for a NULL session. -/
def call_pam_session_get_username (w : World) (session : Option Nat) :
    Option String × World :=
  match session with
  | none => (none, w)
  | some i =>
    match w.pam_sessions[i]? with
    | none => (none, w)
    | some ps =>
      ((pam_session_get_username ps).1,
        { w with pam_sessions := w.pam_sessions.set i (pam_session_get_username ps).2 })

/-- The call `child_process_set_env (CHILD_PROCESS (session), name, value)`. -/
def call_set_env (w : World) (process : Nat) (name : String) (value : Option String) :
    World :=
  match w.supervisor.heap[process]? with
  | none => w
  | some p =>
    { w with supervisor :=
        { w.supervisor with
          heap := w.supervisor.heap.set process (child_process_set_env p name value) } }

/-- The call `session_start (session, create_pipe)` of a callback: the call is recorded,
and when `fork` returns 0 the image is the child and the callback does not continue. -/
def call_session_start (w : World) (session : Session) (create_pipe : Bool) (os : StartOS) :
    Bool × World :=
  let r := session_start w.supervisor session create_pipe os
  let w1 : World :=
    { w with supervisor := r.2
             events := w.events ++ [Event.session_start session.process create_pipe] }
  match r.1 with
  | StartResult.returned result => (result, w1)
  | StartResult.child actions => (false, { w1 with halted := some (Halt.forked_child actions) })

/-- Embeds `start_ck_session`: no ConsoleKit session unless the daemon runs as root. -/
def start_ck_session (h : Host) (w : World) (session_type : String) (user : User)
    (os : CallOS) : Option String × World :=
  if h.uid ≠ 0 then (none, w)
  else
    match w.display.xserver with
    | none => (none, { w with halted := some Halt.null_dereference })
    | some x =>
      match w.xservers[x]? with
      | none => (none, { w with halted := some Halt.null_dereference })
      | some server =>
        let device :=
          if xserver_get_vt server ≥ 0 then some ("/dev/tty" ++ toString (xserver_get_vt server))
          else none
        let a := xserver_get_address server
        (os.ck_cookie,
          { w with xservers := w.xservers.set x a.2
                   events := w.events ++
                     [Event.ck_open_session session_type user.uid a.1 device] })

/-- Embeds `end_ck_session`: nothing for a NULL cookie. -/
def end_ck_session (w : World) (cookie : Option String) : World :=
  match cookie with
  | none => w
  | some c => { w with events := w.events ++ [Event.ck_close_session c] }

/-- Embeds `set_env_from_pam_session` for the session process `process`. -/
def set_env_from_pam_session (w : World) (process : Nat) (pam_session : Option Nat) : World :=
  match get_pam w pam_session with
  | none => w
  | some ps =>
    match pam_session_get_envlist w.passwd_file ps with
    | none => w
    | some pam_env =>
      pam_env.foldl
        (fun acc entry =>
          match split_first_equals entry.toList with
          | some (name, value) => call_set_env acc process (String.mk name) (some (String.mk value))
          | none => acc)
        w

/-- Embeds `set_env_from_keyfile`. -/
def set_env_from_keyfile (w : World) (process : Nat) (name : String) (key_file : KeyFile)
    (section_name key : String) : World :=
  match g_key_file_get_string key_file section_name key with
  | none => w
  | some value => call_set_env w process name (some value)

/-- The command line `start_user_session` gives the session: the `Exec` value, run through
the session wrapper when one is configured. -/
def wrapped_command (wrapper : Option String) (exec : String) : String :=
  match wrapper with
  | some wr => wr ++ " '" ++ exec ++ "'"
  | none => exec

/-- The update `start_user_session` makes to the loaded settings: the session is stored,
and a requested language that differs from the stored one is stored and resets `Langlist`
and `LCMess`. -/
def updated_dmrc (dmrc0 : KeyFile) (session : Option String) (language : Option String) :
    KeyFile :=
  let dmrc1 :=
    match session with
    | some name => g_key_file_set_string dmrc0 "Desktop" "Session" name
    | none => dmrc0
  let old_language := g_key_file_get_string dmrc1 "Desktop" "Language"
  match language with
  | some l =>
    if old_language ≠ some l then
      g_key_file_remove_key
        (g_key_file_remove_key (g_key_file_set_string dmrc1 "Desktop" "Language" l)
          "Desktop" "Langlist")
        "Desktop" "LCMess"
    else dmrc1
  | none => dmrc1

/-- The environment `start_user_session` gives the session process: its calls from
`child_process_set_env (.., "DISPLAY", ..)` to `set_env_from_pam_session`, in order. -/
def user_session_env (w : World) (process : Nat) (address : String) (session : Option String)
    (dmrc_file : KeyFile) : World :=
  let w4 := call_set_env w process "DISPLAY" (some address)
  let w5 :=
    match w4.display.user_ck_cookie with
    | some cookie => call_set_env w4 process "XDG_SESSION_COOKIE" (some cookie)
    | none => w4
  let w6 := call_set_env w5 process "DESKTOP_SESSION" session
  let w7 := call_set_env w6 process "GDMSESSION" session
  let w8 := set_env_from_keyfile w7 process "LANG" dmrc_file "Desktop" "Language"
  let w9 := set_env_from_keyfile w8 process "LANGUAGE" dmrc_file "Desktop" "Langlist"
  let w10 := set_env_from_keyfile w9 process "LC_MESSAGES" dmrc_file "Desktop" "LCMess"
  let w11 := set_env_from_keyfile w10 process "GDM_KEYBOARD_LAYOUT" dmrc_file "Desktop" "Layout"
  set_env_from_pam_session w11 process w11.display.user_pam_session

/-- The end of `start_user_session`, from the emission of `start-session` on: the session
process is started now when no greeter runs or the session supports transitions, and the
settings are saved. -/
def launch_user_session (w : World) (user_session : Session) (dmrc_file : KeyFile)
    (username : Option String) (os : CallOS) : Bool × World :=
  let w13 : World :=
    { w with events := w.events ++ [Event.emit_start_session user_session.process] }
  let started : Bool × World :=
    if w13.display.greeter_session.isNone || w13.display.supports_transitions then
      call_session_start w13 user_session false os.start
    else (true, w13)
  if started.2.halted.isSome then started
  else
    (started.1,
      { started.2 with
        dmrc := dmrc_save started.2.dmrc dmrc_file username
        events := started.2.events ++ [Event.dmrc_save username] })

/-- Embeds `start_user_session`.  `pam_session_get_username` is evaluated once: its later
evaluations in the C function return the same name and change nothing more. -/
def start_user_session (h : Host) (w : World) (session : Option String)
    (language : Option String) (os : CallOS) : Bool × World :=
  let u := call_pam_session_get_username w w.display.user_pam_session
  let username := u.1
  let w1 : World :=
    { u.2 with display := { u.2.display with login_count := u.2.display.login_count + 1 } }
  let dmrc_file := updated_dmrc (dmrc_load w1.dmrc username) session language
  match hash_lookup h.xsessions (printf_s session) with
  | none => (false, w1)
  | some session_desktop_file =>
    let supports_transitions :=
      g_key_file_get_boolean session_desktop_file "Desktop Entry"
        "X-LightDM-Supports-Transitions"
    match g_key_file_get_string session_desktop_file "Desktop Entry" "Exec" with
    | none => (false, w1)
    | some exec =>
      let session_command := wrapped_command w1.display.session_wrapper exec
      match user_get_by_name h.users username with
      | none => (false, w1)
      | some user =>
        let ck := start_ck_session h w1 "" user os
        if ck.2.halted.isSome then (false, ck.2)
        else
          let process := ck.2.supervisor.heap.length
          let user_session : Session :=
            { process := process, user := some user, command := some session_command }
          let w2 : World :=
            { ck.2 with
              display :=
                { ck.2.display with
                  user_ck_cookie := ck.1
                  supports_transitions := supports_transitions
                  user_session := some user_session }
              supervisor :=
                { ck.2.supervisor with heap := ck.2.supervisor.heap ++ [{}] } }
          match w2.display.xserver.bind (fun x => (w2.xservers[x]?).map (fun v => (x, v))) with
          | none => (false, { w2 with halted := some Halt.null_dereference })
          | some (x, server) =>
            let a := xserver_get_address server
            let w3 : World := { w2 with xservers := w2.xservers.set x a.2 }
            launch_user_session (user_session_env w3 process a.1 session dmrc_file)
              user_session dmrc_file username os

/-- The session `greeter_start_session_cb` starts: the requested one, or the default
session of the Display when the request names the empty string. -/
def effective_session (display : DisplayPrivate) (session : String) : Option String :=
  if session = "" then display.default_session else some session

/-- The language `greeter_start_session_cb` passes on: NULL for the empty string. -/
def effective_language (language : String) : Option String :=
  if language = "" then none else some language

/-- Embeds `greeter_start_session_cb`; `greeter` is the emitting Greeter. -/
def greeter_start_session_cb (h : Host) (w : World) (greeter : Greeter)
    (session language : String) (os : CallOS) : World :=
  let w1 : World := { w with display := { w.display with user_pam_session := greeter.pam_session } }
  if w1.display.user_pam_session.isNone ||
      !pam_session_get_in_session (get_pam w1 w1.display.user_pam_session) then w1
  else
    let r := start_user_session h w1 (effective_session w.display session)
      (effective_language language) os
    if r.2.halted.isSome then r.2
    else if r.2.display.supports_transitions then
      { r.2 with display := { r.2.display with user_session_timer := os.timer }
                 events := r.2.events ++ [Event.timeout_add USER_SESSION_TIMEOUT] }
    else
      { r.2 with events := r.2.events ++
          [Event.greeter_quit (r.2.display.greeter_session.map (fun g => g.session.process))] }

/-- Embeds `session_timeout_cb`. -/
def session_timeout_cb (w : World) : World :=
  { w with display := { w.display with user_session_timer := 0 }
           events := w.events ++
             [Event.greeter_quit (w.display.greeter_session.map (fun g => g.session.process))] }

/-- Embeds `greeter_quit_cb`, the handler of the signal `quit` of the greeter. -/
def greeter_quit_cb (w : World) (os : CallOS) : World :=
  let w1 : World :=
    { w with events := w.events ++
        [Event.emit_end_greeter (w.display.greeter_session.map (fun g => g.session.process))] }
  let w2 := call_pam_session_end w1 w1.display.greeter_pam_session
  let w3 : World :=
    { w2 with display := { w2.display with greeter_pam_session := none, greeter_session := none } }
  let w4 := end_ck_session w3 w3.display.greeter_ck_cookie
  let w5 : World := { w4 with display := { w4.display with greeter_ck_cookie := none } }
  match w5.display.user_session with
  | some user_session =>
    if child_process_get_pid w5.supervisor (some user_session.process) = 0 then
      (call_session_start w5 user_session false os.start).2
    else w5
  | none => w5

/-- Embeds `start_greeter`. -/
def start_greeter (h : Host) (w : World) (os : CallOS) : Bool × World :=
  let w0 : World := { w with events := w.events ++ [Event.load_theme w.display.greeter_theme] }
  match w0.display.greeter_theme.bind (fun name => hash_lookup h.themes name) with
  | none => (false, w0)
  | some command =>
    let looked_up : Option (Option User) :=
      match w0.display.greeter_user with
      | some name => (user_get_by_name h.users (some name)).map some
      | none => some h.current_user
    match looked_up with
    | none => (false, w0)
    | some none => (false, { w0 with halted := some Halt.null_dereference })
    | some (some user) =>
      let pam := w0.pam_sessions.length
      let w1 : World :=
        { w0 with
          display :=
            { w0.display with
              greeter_count := w0.display.greeter_count + 1
              greeter_pam_session := some pam }
          pam_sessions := w0.pam_sessions ++ [pam_session_new w0.display.pam_service (some user.name)] }
      let w2 := call_pam_session_authorize w1 (some pam)
      let ck := start_ck_session h w2 "LoginWindow" user os
      if ck.2.halted.isSome then (false, ck.2)
      else
        let process := ck.2.supervisor.heap.length
        let greeter : Greeter :=
          { session := { process := process, user := some user, command := some command }
            theme := ck.2.display.greeter_theme
            count := ck.2.display.greeter_count - 1
            default_user := ck.2.display.default_user
            timeout := ck.2.display.timeout
            default_session := ck.2.display.default_session }
        let w3 : World :=
          { ck.2 with
            display := { ck.2.display with greeter_ck_cookie := ck.1, greeter_session := some greeter }
            supervisor := { ck.2.supervisor with heap := ck.2.supervisor.heap ++ [{}] } }
        match w3.display.xserver.bind (fun x => (w3.xservers[x]?).map (fun v => (x, v))) with
        | none => (false, { w3 with halted := some Halt.null_dereference })
        | some (x, server) =>
          let a := xserver_get_address server
          let w4 : World := { w3 with xservers := w3.xservers.set x a.2 }
          let w5 := call_set_env w4 process "DISPLAY" (some a.1)
          let w6 :=
            match w5.display.greeter_ck_cookie with
            | some cookie => call_set_env w5 process "XDG_SESSION_COOKIE" (some cookie)
            | none => w5
          let w7 := set_env_from_pam_session w6 process w6.display.greeter_pam_session
          let w8 : World := { w7 with events := w7.events ++ [Event.emit_start_greeter process] }
          call_session_start w8 greeter.session true os.start

/-- Embeds `default_session_authentication_result_cb`; `session` is the emitting PAM
session. -/
def default_session_authentication_result_cb (h : Host) (w : World) (session : Nat)
    (result : Int) (os : CallOS) : World :=
  if result = PAM_SUCCESS then
    (start_user_session h (call_pam_session_authorize w (some session))
      w.display.default_session none os).2
  else (start_greeter h w os).2

/-- Runs the handlers connected to `authentication-result` of PAM session `session` for
every emission of that signal among the effects `fx`. -/
def deliver_authentication_result (h : Host) (w : World) (session : Nat)
    (handlers : List PamCallback) (fx : List PamEffect) (os : CallOS) : World :=
  fx.foldl
    (fun acc effect =>
      match effect with
      | PamEffect.emit_authentication_result result =>
        handlers.foldl
          (fun acc1 handler =>
            match handler with
            | PamCallback.default_session_authentication_result_cb =>
              if acc1.halted.isSome then acc1
              else default_session_authentication_result_cb h acc1 session result os
            | _ => acc1)
          acc
      | _ => acc)
    w

/-- The call `pam_session_cancel (session)` of a callback, with the handlers of the result
it emits. -/
def call_pam_session_cancel (h : Host) (w : World) (session : Nat) (os : CallOS) : World :=
  match w.pam_sessions[session]? with
  | none => w
  | some ps =>
    let r := pam_session_cancel w.passwd_file ps
    deliver_authentication_result h (pam_update w session r) session
      r.1.authentication_result_handlers r.2 os

/-- Embeds `default_session_pam_message_cb`; `session` is the emitting PAM session. -/
def default_session_pam_message_cb (h : Host) (w : World) (session : Nat) (os : CallOS) :
    World :=
  call_pam_session_cancel h w session os

/-- Runs the handlers connected to `got-messages` and `authentication-result` of PAM
session `session` for the emissions among the effects `fx`, in order. -/
def deliver_pam_signals (h : Host) (w : World) (session : Nat) (ps : PAMSession)
    (fx : List PamEffect) (os : CallOS) : World :=
  fx.foldl
    (fun acc effect =>
      match effect with
      | PamEffect.emit_got_messages _ _ =>
        ps.got_messages_handlers.foldl
          (fun acc1 handler =>
            match handler with
            | PamCallback.default_session_pam_message_cb =>
              if acc1.halted.isSome then acc1
              else default_session_pam_message_cb h acc1 session os
            | _ => acc1)
          acc
      | PamEffect.emit_authentication_result _ =>
        deliver_authentication_result h acc session ps.authentication_result_handlers
          [effect] os
      | _ => acc)
    w

/-- The idle callback `notify_messages_cb` of PAM session `session` run by the main loop,
with the handlers of the signal it emits. -/
def run_notify_messages_cb (h : Host) (w : World) (session : Nat) (os : CallOS) : World :=
  match w.pam_sessions[session]? with
  | none => w
  | some ps =>
    let r := notify_messages_cb ps
    deliver_pam_signals h (pam_update w session r) session r.1 r.2 os

/-- Embeds `start_autologin_session`. -/
def start_autologin_session (h : Host) (w : World) (os : CallOS) : Bool × World :=
  let w1 := call_pam_session_end w w.display.user_pam_session
  let session := w1.pam_sessions.length
  let ps : PAMSession :=
    { pam_session_new w1.display.pam_autologin_service w1.display.default_user with
      got_messages_handlers := [PamCallback.default_session_pam_message_cb]
      authentication_result_handlers := [PamCallback.default_session_authentication_result_cb] }
  let w2 : World :=
    { w1 with display := { w1.display with user_pam_session := some session }
              pam_sessions := w1.pam_sessions ++ [ps] }
  let r := pam_session_start w2.passwd_file h.passwd_data ps os.thread_ok
  (r.1, deliver_pam_signals h (pam_update w2 session (r.2.1, r.2.2)) session r.2.1 r.2.2 os)

/-- The call `xserver_disconnect_clients (display->priv->xserver)` of a callback, made only
when the Display has an X server: the server is marked not ready, and SIGHUP is sent to its
process when it has one. -/
def display_disconnect_clients (w : World) : World :=
  match w.display.xserver with
  | none => w
  | some x =>
    match w.xservers[x]? with
    | none => { w with halted := some Halt.null_dereference }
    | some server =>
      { w with xservers := w.xservers.set x (xserver_disconnect_clients server).1
               events := w.events ++
                 (match (xserver_disconnect_clients server).2 with
                  | some pid => [Event.kill pid SIGHUP]
                  | none => []) }

/-- Embeds `end_user_session`. -/
def end_user_session (w : World) (clean_exit : Bool) : World :=
  let w1 : World :=
    { w with events := w.events ++
        [Event.emit_end_session (w.display.user_session.map (fun s => s.process))] }
  let w2 : World :=
    if w1.display.user_session_timer ≠ 0 then
      { w1 with display := { w1.display with user_session_timer := 0 }
                events := w1.events ++ [Event.source_remove w1.display.user_session_timer] }
    else w1
  let w3 : World := { w2 with display := { w2.display with user_session := none } }
  let w4 := call_pam_session_end w3 w3.display.user_pam_session
  let w5 : World := { w4 with display := { w4.display with user_pam_session := none } }
  let w6 := end_ck_session w5 w5.display.user_ck_cookie
  let w7 : World := { w6 with display := { w6.display with user_ck_cookie := none } }
  display_disconnect_clients w7

/-- Embeds `user_session_exited_cb`, the handler of `exited` of the user session. -/
def user_session_exited_cb (w : World) (status : Int) : World :=
  end_user_session w (decide (status = 0))

/-- Embeds `user_session_terminated_cb`, the handler of `terminated` of the user session. -/
def user_session_terminated_cb (w : World) (signum : Int) : World :=
  end_user_session w false

/-- Embeds `xserver_ready_cb`; `xserver` is the emitting X server. -/
def xserver_ready_cb (h : Host) (w : World) (xserver : Nat) (os : CallOS) : World :=
  match w.xservers[xserver]? with
  | none => { w with halted := some Halt.null_dereference }
  | some server =>
    if xserver_get_server_type server = XServerType.XSERVER_TYPE_LOCAL_TERMINAL then w
    else if w.display.default_user.isSome ∧ w.display.timeout = 0 ∧ w.display.login_count = 0 then
      let r := start_autologin_session h w os
      if r.1 then r.2
      else if r.2.halted.isSome then r.2
      else (start_greeter h r.2 os).2
    else (start_greeter h w os).2

/-! ## Helper definitions for the Display theorems and concrete scenarios -/

/-- `w2` is `w1` with other environment overlays on the ChildProcess instances: the same
pid fields in the heap, everything else equal. -/
def env_changed (w1 w2 : World) : Prop :=
  ∃ heap : List ChildProcess,
    heap.map (fun p => p.pid) = w1.supervisor.heap.map (fun p => p.pid) ∧
    w2 = { w1 with supervisor := { w1.supervisor with heap := heap } }

/-- The ConsoleKit call of `start_ck_session`, made only when the daemon runs as root. -/
def ck_events (h : Host) (session_type : String) (user : User) (server : XServer) :
    List Event :=
  if h.uid ≠ 0 then []
  else
    [Event.ck_open_session session_type user.uid (xserver_get_address server).1
      (if xserver_get_vt server ≥ 0 then some ("/dev/tty" ++ toString (xserver_get_vt server))
        else none)]

/-- Recognises a call of `session_start`. -/
def is_session_start : Event → Bool
  | Event.session_start _ _ => true
  | _ => false

/-- The events `pam_session_end (session)` adds in world `w`. -/
def pam_end_events (w : World) (session : Option Nat) : List Event :=
  match session with
  | none => []
  | some i =>
    match w.pam_sessions[i]? with
    | none => []
    | some ps => (pam_session_end ps).2.map (Event.pam i)

/-- The events `end_ck_session (cookie)` adds. -/
def ck_close_events (cookie : Option String) : List Event :=
  match cookie with
  | none => []
  | some c => [Event.ck_close_session c]

/-- An identity of the identity source used in the concrete scenarios. -/
def alice : User := ⟨"alice", 1000, 1000, "Alice", "/home/alice", "/bin/sh"⟩

/-- Results of outside calls used in the concrete scenarios: no ConsoleKit cookie, a fork
that returns pid 4242, timer id 7, a thread that starts. -/
def call_os : CallOS :=
  ⟨none,
    ⟨1000, some (5, 6), some (7, 8), some ["gnome-session"], 4242,
      ⟨1000, 3, true, true, true, true, true, 4, true⟩⟩,
    7, true⟩

/-- A host running the daemon unprivileged, with one user, one session descriptor that
names a command and declares no transition support, one greeter theme, and a passwd file
in which alice has a non-empty password. -/
def login_host : Host :=
  { uid := 1000, users := [alice], current_user := some alice,
    xsessions := [("gnome", [(("Desktop Entry", "Exec"), "gnome-session")])],
    themes := [("default", "lightdm-greeter")],
    passwd_data :=
      some "root:x:0:0:root:/root:/bin/sh\nalice:secret:1000:1000:Alice:/home/alice:/bin/sh\n" }

/-- The greeter of the concrete scenarios: process 0 of the heap, driving PAM session 1. -/
def login_greeter : Greeter :=
  { session := { process := 0, user := some alice, command := some "lightdm-greeter" },
    theme := some "default", pam_session := some 1 }

/-- A Display whose greeter is running (pid 3000) and has authorized alice: PAM session 0 is
the greeter's own, PAM session 1 the login session, in session. -/
def greeter_world : World :=
  { display :=
      { pam_service := "lightdm", pam_autologin_service := "lightdm-autologin",
        xserver := some 0, greeter_count := 1, greeter_theme := some "default",
        greeter_session := some login_greeter, greeter_pam_session := some 0,
        default_session := some "gnome" },
    supervisor :=
      { heap := [{ env := [("DISPLAY", ":0")], user := some alice, pid := 3000 }],
        processes := [(3000, 0)], watches := [(3000, 0)] },
    pam_sessions :=
      [{ service := "lightdm", username := some "alice", in_session := true },
       { service := "lightdm", username := some "alice", in_session := true }],
    xservers := [{ display_number := 0, pid := 2000, ready := true }] }

/-- A Display whose user session is running (pid 4242) next to the greeter, with both
tracking cookies and the guard timer set. -/
def session_world : World :=
  { display :=
      { pam_service := "lightdm", pam_autologin_service := "lightdm-autologin",
        xserver := some 0, greeter_count := 1, login_count := 1,
        greeter_theme := some "default",
        greeter_session := some login_greeter, greeter_pam_session := some 0,
        greeter_ck_cookie := some "ck-greeter", supports_transitions := true,
        user_session := some { process := 1, user := some alice, command := some "gnome-session" },
        user_session_timer := 7, user_pam_session := some 1, user_ck_cookie := some "ck-user",
        default_session := some "gnome" },
    supervisor :=
      { heap := [{ user := some alice, pid := 3000 }, { user := some alice, pid := 4242 }],
        processes := [(3000, 0), (4242, 1)], watches := [(3000, 0), (4242, 1)] },
    pam_sessions :=
      [{ service := "lightdm", username := some "alice", in_session := true },
       { service := "lightdm", username := some "alice", in_session := true }],
    xservers := [{ display_number := 0, pid := 2000, ready := true }] }

/-- A Display in passwd-file mode configured to log alice in automatically through a PAM
service other than `lightdm-autologin`, before its X server is ready. -/
def autologin_world : World :=
  { display :=
      { pam_service := "lightdm", pam_autologin_service := "lightdm", xserver := some 0,
        greeter_theme := some "default", default_user := some "alice",
        default_session := some "gnome" },
    xservers := [{ display_number := 0, pid := 2000 }],
    passwd_file := some "/etc/lightdm/passwd" }

/-- The world of `autologin_world` in real-PAM mode after the X server became ready and the
authentication worker has published one prompt. -/
def real_pam_prompt_world : World :=
  { (xserver_ready_cb login_host { autologin_world with passwd_file := none } 0 call_os) with
    pam_sessions :=
      [{ service := "lightdm", username := some "alice", authentication_thread := true,
         num_messages := 1, messages := some [⟨PAM_PROMPT_ECHO_OFF, "Password:"⟩],
         authentication_response_queue := some [],
         pam_handle := some { user := some "alice" },
         got_messages_handlers := [PamCallback.default_session_pam_message_cb],
         authentication_result_handlers :=
           [PamCallback.default_session_authentication_result_cb] }] }

/-- A PAM session of the real-PAM mode whose worker has published one prompt and is blocked
in `pam_conv_cb` on the empty response queue. -/
def waiting_session : PAMSession :=
  { service := "lightdm", username := some "alice", authentication_thread := true,
    num_messages := 1, messages := some [⟨PAM_PROMPT_ECHO_OFF, "Password:"⟩],
    authentication_response_queue := some [], pam_handle := some { user := some "alice" } }

/-- A PAM session that is in session, with no authentication running. -/
def authorized_session : PAMSession :=
  { service := "lightdm", username := some "alice", in_session := true }

/-- The session of the passwd-file mode for alice after `pam_session_start` sent the
password prompt. -/
def prompted_session : PAMSession :=
  (pam_session_start (some "/etc/lightdm/passwd") login_host.passwd_data
    (pam_session_new "lightdm" (some "alice")) true).2.1

/-- Recognises the emission of `got-messages`. -/
def is_got_messages : PamEffect → Bool
  | PamEffect.emit_got_messages _ _ => true
  | _ => false

/-- The session of `prompted_session` after a wrong answer: `authentication-result` was
emitted with PAM_AUTH_ERR. -/
def rejected_session : PAMSession :=
  (pam_session_respond (some "/etc/lightdm/passwd") login_host.passwd_data login_host.users
    prompted_session "wrong").1

/-- A remote X server, not started. -/
def remote_server : XServer :=
  { type := XServerType.XSERVER_TYPE_REMOTE, hostname := some "xhost", display_number := 1 }

/-- The state of xserver.c with the one remote X server. -/
def remote_xstate : XState := { xservers := [remote_server] }

/-- The events `xserver_disconnect_clients` of the Display's X server adds in world `w`. -/
def disconnect_events (w : World) : List Event :=
  match w.display.xserver.bind (fun x => w.xservers[x]?) with
  | some server => if server.pid ≠ 0 then [Event.kill server.pid SIGHUP] else []
  | none => []

/-- The PAM sessions after `pam_session_end (session)` in world `w`. -/
def pam_sessions_after_end (w : World) (session : Option Nat) : List PAMSession :=
  match session with
  | none => w.pam_sessions
  | some i =>
    match w.pam_sessions[i]? with
    | none => w.pam_sessions
    | some ps => w.pam_sessions.set i (pam_session_end ps).1

/-- The ready flag of server `i`; FALSE when there is no such server. -/
def ready_of (x : XState) (i : Nat) : Bool :=
  match x.xservers[i]? with
  | some server => server.ready
  | none => false

/-- The type of server `i`. -/
def type_of (x : XState) (i : Nat) : Option XServerType :=
  (x.xservers[i]?).map (fun server => server.type)

/-- The `ready` emissions of server `i` so far, plus one while the server is not ready. -/
def ready_budget (x : XState) (i : Nat) : Nat :=
  ready_emissions x.effects i + (if ready_of x i then 0 else 1)

/-- The number of `xserver_start` calls on server `i` whose connection test succeeds. -/
def connect_calls (ops : List XOp) (i : Nat) : Nat :=
  ops.countP (fun op =>
    match op with
    | XOp.start j os => decide (j = i) && os.connect_ok
    | _ => false)

/-- One local X server that was not started. -/
def local_xstate : XState :=
  { xservers := [{ command := some "X", display_number := 0 }] }

/-- Results for `xserver_start` of a local server: the spawn yields pid 2000. -/
def spawn_os : XStartOS := ⟨true, true, true, some 2000⟩

/-- The runtime of a session on which nothing runs: no worker thread, nothing queued on the
main loop. -/
def idle_runtime (rt : PamRuntime) : Prop :=
  rt.session.authentication_thread = false ∧ rt.worker = Worker.absent ∧ rt.idle = []

instance (rt : PamRuntime) : Decidable (idle_runtime rt) := by
  unfold idle_runtime
  infer_instance

/-- How the worker and the idle queue of a session fit together: there is a worker exactly
while the thread field is set, and never in passwd-file mode; nothing is queued without a
worker; the queue holds `notify_messages_cb` entries only, followed, once `authenticate_cb`
has returned, by the one `notify_auth_complete_cb`. -/
def worker_consistent (passwd_file : Option String) (rt : PamRuntime) : Prop :=
  (rt.worker = Worker.absent ↔ rt.session.authentication_thread = false) ∧
  (rt.worker = Worker.absent → rt.idle = []) ∧
  (passwd_file.isSome → rt.worker = Worker.absent) ∧
  (rt.worker = Worker.finished →
    rt.idle = List.replicate (rt.idle.length - 1) IdleCallback.notify_messages_cb ++
      [IdleCallback.notify_auth_complete_cb]) ∧
  (rt.worker ≠ Worker.finished →
    rt.idle = List.replicate rt.idle.length IdleCallback.notify_messages_cb)

instance (passwd_file : Option String) (rt : PamRuntime) :
    Decidable (worker_consistent passwd_file rt) := by
  unfold worker_consistent
  infer_instance

/-- The runtime of a new PAM session for alice. -/
def new_runtime : PamRuntime := { session := pam_session_new "lightdm" (some "alice") }

/-- The steps that take a new session in real-PAM mode to a worker blocked in `pam_conv_cb`
with its `notify_messages_cb` queued and not yet run. -/
def prompt_pending_ops : List PamOp :=
  [PamOp.start true, PamOp.worker_begin { user := some "alice" },
    PamOp.worker_converse [⟨PAM_PROMPT_ECHO_OFF, "Password:"⟩]]

/-- The value the environment overlay of ChildProcess `process` gives `name`. -/
def process_env_lookup (s : Supervisor) (process : Nat) (name : String) : Option String :=
  (s.heap[process]?).bind (fun p => hash_lookup p.env name)

/-- One step of the loop of `set_env_from_pam_session`, read for the variable `name`: an
entry `name=value` replaces the value so far. -/
def pam_env_entry (name : String) (acc : Option String) (entry : String) : Option String :=
  match split_first_equals entry.toList with
  | some (n, v) => if String.mk n = name then some (String.mk v) else acc
  | none => acc

/-- The environment list `set_env_from_pam_session` reads from a PAM session: empty when
`pam_session_get_envlist` returns NULL. -/
def session_pam_env (passwd_file : Option String) (ps : PAMSession) : List String :=
  (pam_session_get_envlist passwd_file ps).getD []

/-- The world of `greeter_world` in real-PAM mode where the PAM environment of the login
session defines DESKTOP_SESSION. -/
def pam_env_world : World :=
  { greeter_world with
    pam_sessions :=
      [{ service := "lightdm", username := some "alice", in_session := true },
       { service := "lightdm", username := some "alice", in_session := true,
         pam_handle := some { user := some "alice", envlist := ["DESKTOP_SESSION=kde"] } }] }

/-- Recognises the emission of `authentication-started` by a PAM session: the mark that
`pam_session_start` ran. -/
def is_authentication_started : Event → Bool
  | Event.pam _ PamEffect.emit_authentication_started => true
  | _ => false

/-- Recognises the first act of `start_greeter`, the loading of the greeter theme. -/
def is_load_theme : Event → Bool
  | Event.load_theme _ => true
  | _ => false

/-- The events world `w1` has beyond those of `w`. -/
def new_events (w w1 : World) : List Event := w1.events.drop w.events.length

/-- World `w1` has the events of `w` followed by events that all satisfy `p`. -/
def events_grow (p : Event → Bool) (w w1 : World) : Prop :=
  ∃ rest, w1.events = w.events ++ rest ∧ rest.all p = true

/-- A Display whose X server is a local terminal (an XDMCP query to a remote manager),
configured to log alice in automatically. -/
def terminal_world : World :=
  { autologin_world with
    xservers := [{ type := XServerType.XSERVER_TYPE_LOCAL_TERMINAL, hostname := some "xhost",
                   display_number := 0, pid := 2000 }] }

/-- Recognises a call of `signal ()` in the child. -/
def is_signal : ChildAction → Bool
  | ChildAction.signal _ _ => true
  | _ => false

/-- A supervisor with one instance that was never started. -/
def idle_supervisor : Supervisor := { heap := [{}] }

/-- Results for `child_process_start` in which `g_shell_parse_argv` fails. -/
def bad_argv_os : StartOS :=
  ⟨1000, some (5, 6), some (7, 8), none, 4242, ⟨1000, 3, true, true, true, true, true, 4, true⟩⟩

/-- What `child_process_set_env (.., name, value)` does to the variable `k`: the variable
`name` takes the value, or is removed for NULL; other variables keep theirs. -/
def env_after_set (k name : String) (value acc : Option String) : Option String :=
  if k = name then value else acc

/-- What a setting that is made only for a non-NULL value (`set_env_from_keyfile`, the
tracking cookie) does to the variable `k`. -/
def env_after_optional (k name : String) (value acc : Option String) : Option String :=
  match value with
  | some v => if k = name then some v else acc
  | none => acc

/-- The value of the variable `k` in the overlay of the user session after the settings
`start_user_session` makes before `set_env_from_pam_session`, in order, from the value
`base` the overlay had before. -/
def user_env_before_pam (k address : String) (cookie session : Option String)
    (dmrc_file : KeyFile) (base : Option String) : Option String :=
  env_after_optional k "GDM_KEYBOARD_LAYOUT" (g_key_file_get_string dmrc_file "Desktop" "Layout")
    (env_after_optional k "LC_MESSAGES" (g_key_file_get_string dmrc_file "Desktop" "LCMess")
      (env_after_optional k "LANGUAGE" (g_key_file_get_string dmrc_file "Desktop" "Langlist")
        (env_after_optional k "LANG" (g_key_file_get_string dmrc_file "Desktop" "Language")
          (env_after_set k "GDMSESSION" session
            (env_after_set k "DESKTOP_SESSION" session
              (env_after_optional k "XDG_SESSION_COOKIE" cookie
                (env_after_set k "DISPLAY" (some address) base)))))))

/-- The world of `greeter_world` in real-PAM mode where the PAM environment of the login
session defines DISPLAY, LANG and a variable whose value holds an equals sign, and has one
entry without an equals sign. -/
def pam_override_world : World :=
  { greeter_world with
    pam_sessions :=
      [{ service := "lightdm", username := some "alice", in_session := true },
       { service := "lightdm", username := some "alice", in_session := true,
         pam_handle := some { user := some "alice",
                              envlist := ["DISPLAY=:9", "LANG=en_US.UTF-8",
                                          "XMODIFIERS=@im=ibus", "BROKEN"] } }] }

/-- The identity `start_greeter` runs the greeter as: the configured greeter user, or the
user of the daemon when none is configured. -/
def greeter_identity (h : Host) (d : DisplayPrivate) : Option User :=
  match d.greeter_user with
  | some name => user_get_by_name h.users (some name)
  | none => h.current_user

/-- The world of `pam_env_world` at the point where `greeter_start_session_cb` has stored
the login session of the greeter as the user PAM session of the Display. -/
def login_world : World :=
  { pam_env_world with
    display := { pam_env_world.display with user_pam_session := some 1 } }

/-- The host of `login_host` with the daemon running as root. -/
def root_host : Host := { login_host with uid := 0 }

/-- The outside calls of `call_os` where ConsoleKit opens a session with cookie `ck-1`. -/
def ck_os : CallOS := { call_os with ck_cookie := some "ck-1" }

/-- The value of one upper-case hexadecimal digit, `none` for any other character. -/
def hex_value (c : Char) : Option Nat :=
  if '0' ≤ c ∧ c ≤ '9' then some (c.toNat - 48)
  else if 'A' ≤ c ∧ c ≤ 'F' then some (c.toNat - 55)
  else none

/-- Reads a text of upper-case hexadecimal digit pairs back into bytes, most significant
digit first; `none` when the text is not made of such pairs. -/
def cookie_decode : List Char → Option (List Nat)
  | [] => some []
  | [_] => none
  | hi :: lo :: rest =>
    match hex_value hi, hex_value lo, cookie_decode rest with
    | some a, some b, some bytes => some ((16 * a + b) :: bytes)
    | _, _, _ => none

/-- Recognises the launch of an X server process. -/
def is_spawn : XEffect → Bool
  | XEffect.spawn _ => true
  | _ => false

/-- A local-terminal X server with every optional part of the command line set. -/
def terminal_server : XServer :=
  { type := XServerType.XSERVER_TYPE_LOCAL_TERMINAL, command := some "X", display_number := 1,
    authorization := true, authorization_path := some "/tmp/xauth", port := 177,
    hostname := some "xdmcp.example.com", authentication_name := "XDM-AUTHENTICATION-1",
    authentication_data := [0, 171, 9, 255], vt := 7 }

/-- The state of a local seat: the field `stopping` of `SeatXLocalPrivate`, the active
display kept by the generic seat, and the calls made into the generic seat so far. -/
structure SeatXLocal where
  stopping : Bool := false
  active_display : Option Nat := none
  events : List String := []
  deriving DecidableEq, Repr

/-- Modelled from the spec: `seat_get_active_display` returns the Display that is visible,
NULL when there is none. -/
def seat_get_active_display (seat : SeatXLocal) : Option Nat := seat.active_display

/-- Modelled from the spec: `seat_switch_to_greeter` provisions a replacement greeter
Display and activates it; `fresh` is the new Display. -/
def seat_switch_to_greeter (seat : SeatXLocal) (fresh : Nat) : SeatXLocal :=
  { seat with active_display := some fresh
              events := seat.events ++ ["seat_switch_to_greeter"] }

/-- Modelled from the spec: the `stop` of the generic seat asks every Display to stop;
their removals arrive later as calls of `display_removed`. -/
def seat_parent_stop (seat : SeatXLocal) : SeatXLocal :=
  { seat with events := seat.events ++ ["seat_stop"] }

/-- Embeds `seat_xlocal_display_removed`; `fresh` is the Display a replacement would be. -/
def seat_xlocal_display_removed (seat : SeatXLocal) (display : Nat) (fresh : Nat) :
    SeatXLocal :=
  if !seat.stopping && decide (some display = seat_get_active_display seat) then
    seat_switch_to_greeter seat fresh
  else seat

/-- Embeds `seat_xlocal_stop`. -/
def seat_xlocal_stop (seat : SeatXLocal) : SeatXLocal :=
  seat_parent_stop { seat with stopping := true }

/-- What happens to a local seat: a Display is removed, the seat is stopped, or the generic
seat makes another Display the active one. -/
inductive SeatOp where
  | display_removed (display : Nat) (fresh : Nat)
  | stop
  | set_active (display : Option Nat)
  deriving DecidableEq, Repr

/-- One step of a local seat. -/
def seat_step (seat : SeatXLocal) (op : SeatOp) : SeatXLocal :=
  match op with
  | SeatOp.display_removed display fresh => seat_xlocal_display_removed seat display fresh
  | SeatOp.stop => seat_xlocal_stop seat
  | SeatOp.set_active display => { seat with active_display := display }

/-- The number of replacement greeters a seat has provisioned. -/
def replacements (seat : SeatXLocal) : Nat :=
  (seat.events.filter (fun e => decide (e = "seat_switch_to_greeter"))).length

/-- Two instances are started and `fork` returns pid 4242 both times (the first child has
exited and was reaped, its watch callback is still to be dispatched); then the watch
callback of the first child runs. -/
def pid_reuse_ops : List Op :=
  [Op.start 0 alice none "xterm" false
      ⟨0, none, none, some ["xterm"], 4242, ⟨0, 3, true, true, true, true, true, 4, true⟩⟩,
   Op.start 1 alice none "xterm" false
      ⟨0, none, none, some ["xterm"], 4242, ⟨0, 3, true, true, true, true, true, 4, true⟩⟩,
   Op.watch 4242 (WaitStatus.exited 0) 0]

/-! ## Theorems -/

theorem run_child_setup_no_execvp (process : ChildProcess) (os : ChildOS) :
    ∀ a ∈ run_child_setup process os, is_execvp a = false := by
  intro a ha
  simp only [run_child_setup, List.mem_append, List.mem_map, List.mem_cons,
    List.mem_singleton, List.not_mem_nil, or_false] at ha
  rcases ha with (((h | h | h) | ⟨e, _, h⟩) | (h | h | h | h | h | h)) <;> subst h <;> rfl

theorem run_child_exec_has_execvp (process : ChildProcess) (argv : List String) (os : ChildOS) :
    ChildAction.execvp argv ∈ run_child_exec process argv os := by
  unfold run_child_exec
  cases os.execvp_ok <;> simp

/-- C2: in the forked child with a target user and uid 0, the trace of `run_child_process`
is the set-up, then `initgroups`, `setgid`, `setuid`, `chdir (home)` consecutively and in
that order up to and including the first one that fails; when all four succeed the log
redirection and `execvp` follow, and when one fails the next and last action is
`_exit (EXIT_FAILURE)`, so that `execvp` is reached exactly when all four succeeded. -/
theorem run_child_process_privilege_order (process : ChildProcess) (user : User)
    (argv : List String) (os : ChildOS)
    (huser : process.user = some user) (hroot : os.uid = 0) :
    (leading_successes os = 4 →
      run_child_process process argv os =
        run_child_setup process os ++ privilege_calls user ++ run_child_exec process argv os) ∧
    (leading_successes os < 4 →
      run_child_process process argv os =
        run_child_setup process os ++ (privilege_calls user).take (leading_successes os + 1)
          ++ [ChildAction.exit EXIT_FAILURE]) ∧
    ((∃ a ∈ run_child_process process argv os, is_execvp a = true) ↔
      (os.initgroups_ok = true ∧ os.setgid_ok = true ∧ os.setuid_ok = true ∧
        os.chdir_ok = true)) ∧
    (ChildAction.execvp argv ∈ run_child_process process argv os ↔
      leading_successes os = 4) := by
  have hsetup := run_child_setup_no_execvp process os
  have hexec := run_child_exec_has_execvp process argv os
  have hexec2 : ∃ a ∈ run_child_exec process argv os, is_execvp a = true :=
    ⟨_, hexec, rfl⟩
  have hsetup2 : ChildAction.execvp argv ∉ run_child_setup process os := by
    intro h
    have := hsetup _ h
    simp [is_execvp] at this
  have hsetup3 : ¬ ∃ a ∈ run_child_setup process os, is_execvp a = true := by
    rintro ⟨a, ha, h⟩
    rw [hsetup a ha] at h
    exact Bool.false_ne_true h
  have e1 : ∀ n g, is_execvp (ChildAction.initgroups n g) = false := fun _ _ => rfl
  have e2 : ∀ g, is_execvp (ChildAction.setgid g) = false := fun _ => rfl
  have e3 : ∀ u, is_execvp (ChildAction.setuid u) = false := fun _ => rfl
  have e4 : ∀ d, is_execvp (ChildAction.chdir d) = false := fun _ => rfl
  have e5 : ∀ c, is_execvp (ChildAction.exit c) = false := fun _ => rfl
  rcases hi : os.initgroups_ok <;> rcases hg : os.setgid_ok <;> rcases hs : os.setuid_ok <;>
    rcases hc : os.chdir_ok <;>
    simp [run_child_process, run_child_user, huser, hroot, hi, hg, hs, hc, leading_successes,
      privilege_calls, hsetup2, hexec, List.takeWhile, or_imp, forall_and, e1, e2, e3, e4,
      e5] <;>
    first
    | exact hsetup
    | exact ⟨ChildAction.execvp argv, by simp [hexec], rfl⟩

/-- The privilege sequence at a concrete child: all four calls succeed and `execvp` follows. -/
theorem run_child_process_privilege_order_witness :
    run_child_process
        { user := some ⟨"alice", 1000, 1000, "", "/home/alice", "/bin/sh"⟩ }
        ["/usr/bin/session"] ⟨0, 3, true, true, true, true, true, 4, true⟩ =
      run_child_setup { user := some ⟨"alice", 1000, 1000, "", "/home/alice", "/bin/sh"⟩ }
          ⟨0, 3, true, true, true, true, true, 4, true⟩ ++
        privilege_calls ⟨"alice", 1000, 1000, "", "/home/alice", "/bin/sh"⟩ ++
        run_child_exec { user := some ⟨"alice", 1000, 1000, "", "/home/alice", "/bin/sh"⟩ }
          ["/usr/bin/session"] ⟨0, 3, true, true, true, true, true, 4, true⟩ :=
  (run_child_process_privilege_order
    { user := some ⟨"alice", 1000, 1000, "", "/home/alice", "/bin/sh"⟩ }
    ⟨"alice", 1000, 1000, "", "/home/alice", "/bin/sh"⟩ ["/usr/bin/session"]
    ⟨0, 3, true, true, true, true, true, 4, true⟩ rfl rfl).1 (by decide)

/-- C3: `child_process_start` on an instance whose pid is non-zero returns FALSE and leaves
the whole supervisor state as it was: the instance (pid, user, environment, channels), the
registry, the child watches and the effect list (so no fork happened). -/
theorem child_process_start_running_rejected (s : Supervisor) (process : Nat)
    (p : ChildProcess) (user : User) (working_dir : Option String) (command : String)
    (create_pipe : Bool) (os : StartOS)
    (hp : s.heap[process]? = some p) (hpid : p.pid ≠ 0) :
    child_process_start s process user working_dir command create_pipe os =
      (StartResult.returned false, s) := by
  simp [child_process_start, hp, hpid]

/-- A running instance (pid 4242) is started again, with a fork that would succeed. -/
theorem child_process_start_running_rejected_witness :
    child_process_start
        { heap := [{ pid := 4242 }], processes := [(4242, 0)], watches := [(4242, 0)] } 0
        ⟨"alice", 1000, 1000, "", "/home/alice", "/bin/sh"⟩ none "/usr/bin/session" true
        ⟨0, some (5, 6), some (7, 8), some ["/usr/bin/session"], 4343,
          ⟨0, 3, true, true, true, true, true, 4, true⟩⟩ =
      (StartResult.returned false,
        { heap := [{ pid := 4242 }], processes := [(4242, 0)], watches := [(4242, 0)] }) :=
  child_process_start_running_rejected _ 0 { pid := 4242 } _ none _ true _ rfl (by decide)

theorem child_process_signal_all (heap : List ChildProcess) (signum : Nat) :
    ∀ (l : List (Int × Nat)) (s : Supervisor), s.heap = heap →
      (∀ e ∈ l, e.1 ≠ 0 ∧ (heap[e.2]?).map (fun p => p.pid) = some e.1) →
      l.foldl (fun acc e => child_process_signal acc e.2 signum) s =
        { s with effects := s.effects ++ l.map (fun e => Effect.kill e.1 signum) } := by
  intro l
  induction l with
  | nil => intro s _ _; simp
  | cons e l ih =>
    intro s hs hl
    obtain ⟨hne, hlook⟩ := hl e (List.mem_cons_self _ _)
    have hstep : child_process_signal s e.2 signum =
        { s with effects := s.effects ++ [Effect.kill e.1 signum] } := by
      rw [← hs] at hlook
      unfold child_process_signal
      cases hq : s.heap[e.2]? with
      | none => simp [hq] at hlook
      | some p =>
        simp only [hq, Option.map_some', Option.some.injEq] at hlook
        simp [hlook, hne]
    have hrest := ih { s with effects := s.effects ++ [Effect.kill e.1 signum] } hs
      (fun x hx => hl x (List.mem_cons_of_mem _ hx))
    rw [List.foldl_cons, hstep, hrest]
    simp

/-- C5: on a supervisor whose registry maps each registered pid to the instance with that
pid (the invariant of the registry), `child_process_stop_all` sets `stopping`; with an empty
registry it exits the daemon with `EXIT_SUCCESS` and sends nothing; with a registry of
N >= 1 entries it adds exactly one `kill (pid, SIGTERM)` per registered pid (N in all, the
pids pairwise distinct) and returns without exiting. -/
theorem child_process_stop_all_spec (s : Supervisor) (hreg : registry_ok s) :
    (child_process_stop_all s).1.stopping = true ∧
    (s.processes = [] →
      child_process_stop_all s = ({ s with stopping := true }, some EXIT_SUCCESS)) ∧
    (s.processes ≠ [] →
      child_process_stop_all s =
        ({ s with stopping := true
                  effects := s.effects ++ s.processes.map (fun e => Effect.kill e.1 SIGTERM) },
          none) ∧
      ((child_process_stop_all s).1.effects.drop s.effects.length).length =
        s.processes.length ∧
      (s.processes.map Prod.fst).Nodup) := by
  have hfold := child_process_signal_all s.heap SIGTERM s.processes
    { s with stopping := true } rfl hreg.2
  refine ⟨?_, ?_, ?_⟩
  · unfold child_process_stop_all
    cases hproc : s.processes with
    | nil => simp
    | cons e l =>
      rw [hproc] at hfold
      simp only [List.length_cons, beq_iff_eq, Nat.add_one_ne_zero, ↓reduceIte]
      rw [hfold]
  · intro hproc
    simp [child_process_stop_all, hproc]
  · intro hproc
    have hlen : (s.processes.length == 0) = false := by
      cases hq : s.processes with
      | nil => exact absurd hq hproc
      | cons e l => rfl
    have heq : child_process_stop_all s =
        ({ s with stopping := true
                  effects := s.effects ++ s.processes.map (fun e => Effect.kill e.1 SIGTERM) },
          none) := by
      simp only [child_process_stop_all, hlen, Bool.false_eq_true, ↓reduceIte]
      rw [hfold]
    refine ⟨heq, ?_, hreg.1⟩
    rw [heq]
    simp

/-- A shutdown with two registered children: two SIGTERM, no exit. -/
theorem child_process_stop_all_spec_witness :
    child_process_stop_all
        { heap := [{ pid := 4242 }, { pid := 0 }, { pid := 4343 }],
          processes := [(4242, 0), (4343, 2)] } =
      ({ heap := [{ pid := 4242 }, { pid := 0 }, { pid := 4343 }],
         processes := [(4242, 0), (4343, 2)], stopping := true,
         effects := [Effect.kill 4242 SIGTERM, Effect.kill 4343 SIGTERM] }, none) :=
  ((child_process_stop_all_spec
    { heap := [{ pid := 4242 }, { pid := 0 }, { pid := 4343 }],
      processes := [(4242, 0), (4343, 2)] }
    ⟨by decide, by decide⟩).2.2 (by decide)).1

/-- C6: an exit-watch callback ends the daemon (with `EXIT_SUCCESS`) exactly when
`stopping` is set and the registry is empty once the callback has removed its pid; the
flag `stopping` is changed neither by `child_process_start` nor by the callback, so over
any run of starts and callbacks from a state where it is clear the daemon never exits. -/
theorem child_process_watch_cb_exit_iff (s : Supervisor) :
    (∀ pid status process,
      (child_process_watch_cb s pid status process).1.processes = hash_remove s.processes pid ∧
      ((child_process_watch_cb s pid status process).2 = some EXIT_SUCCESS ↔
        (s.stopping = true ∧
          (child_process_watch_cb s pid status process).1.processes.length = 0)) ∧
      ((child_process_watch_cb s pid status process).2 = none ↔
        ¬ (s.stopping = true ∧
          (child_process_watch_cb s pid status process).1.processes.length = 0))) ∧
    (∀ ops, (run s ops).stopping = s.stopping) ∧
    (∀ ops op, (step (run s ops) op).2 = none ∨ s.stopping = true) := by
  have hcb : ∀ (t : Supervisor) pid status process,
      (child_process_watch_cb t pid status process).1.stopping = t.stopping := by
    intro t pid status process
    unfold child_process_watch_cb
    simp only
    split <;> rfl
  have hlaunch : ∀ (t : Supervisor) process p fx a b os,
      (child_process_launch t process p fx a b os).2.stopping = t.stopping := by
    intro t process p fx a b os
    unfold child_process_launch
    split
    · rfl
    · split
      · rfl
      · split <;> rfl
  have hstart : ∀ (t : Supervisor) process user wd command cp os,
      (child_process_start t process user wd command cp os).2.stopping = t.stopping := by
    intro t process user wd command cp os
    unfold child_process_start
    split
    · rfl
    · split
      · rfl
      · simp only
        split
        · split
          · exact hlaunch _ _ _ _ _ _ _
          · rfl
        · exact hlaunch _ _ _ _ _ _ _
  have hstep : ∀ (t : Supervisor) op, (step t op).1.stopping = t.stopping := by
    intro t op
    cases op with
    | start process user wd command cp os => exact hstart _ _ _ _ _ _ _
    | watch pid status process => exact hcb _ _ _ _
  have hrun : ∀ ops (t : Supervisor), (run t ops).stopping = t.stopping := by
    intro ops
    induction ops with
    | nil => intro t; rfl
    | cons op ops ih =>
      intro t
      unfold run
      split
      · rw [ih, hstep]
      · exact hstep _ _
  refine ⟨?_, fun ops => hrun ops s, ?_⟩
  · intro pid status process
    unfold child_process_watch_cb
    cases hst : s.stopping <;> cases hl : (hash_remove s.processes pid) <;>
      simp [hst, hl]
  · intro ops op
    cases hst : s.stopping with
    | true => exact Or.inr rfl
    | false =>
      left
      cases op with
      | start process user wd command cp os => rfl
      | watch pid status process =>
        have h := hrun ops s
        rw [hst] at h
        simp [step, child_process_watch_cb, h]


theorem set_same_of_lookup {α : Type} (l : List α) (i : Nat) (a : α) (h : l[i]? = some a) :
    l.set i a = l := by
  apply List.ext_getElem?
  intro j
  rw [List.getElem?_set]
  split
  · next hij =>
    subst hij
    have hlt : i < l.length := by
      by_contra hc
      rw [List.getElem?_eq_none (by omega)] at h
      exact Option.noConfusion h
    simp [hlt, h]
  · rfl


theorem launch_summary (s : Supervisor) (process : Nat) (p : ChildProcess) (fx : List Effect)
    (a b : Int) (os : StartOS) (hp : (heap_pids s)[process]? = some 0) (hpid : p.pid = 0) :
    (heap_pids (child_process_launch s process p fx a b os).2 = heap_pids s ∧
      (child_process_launch s process p fx a b os).2.processes = s.processes ∧
      (child_process_launch s process p fx a b os).2.watches = s.watches) ∨
    (os.fork ≠ 0 ∧
      heap_pids (child_process_launch s process p fx a b os).2 =
        (heap_pids s).set process os.fork ∧
      (child_process_launch s process p fx a b os).2.processes =
        hash_insert s.processes os.fork process ∧
      (child_process_launch s process p fx a b os).2.watches =
        s.watches ++ [(os.fork, process)]) := by
  have hsame : (s.heap.set process p).map (fun q => q.pid) = heap_pids s := by
    rw [List.map_set, hpid]
    exact set_same_of_lookup _ _ _ hp
  unfold child_process_launch
  split
  · left; exact ⟨hsame, rfl, rfl⟩
  · split
    · left; exact ⟨hsame, rfl, rfl⟩
    · split
      · left; exact ⟨hsame, rfl, rfl⟩
      · next h1 h2 =>
        right
        refine ⟨h2, ?_, rfl, rfl⟩
        simp [heap_pids, List.map_set]

theorem start_summary (s : Supervisor) (process : Nat) (user : User) (wd : Option String)
    (command : String) (cp : Bool) (os : StartOS) :
    (heap_pids (child_process_start s process user wd command cp os).2 = heap_pids s ∧
      (child_process_start s process user wd command cp os).2.processes = s.processes ∧
      (child_process_start s process user wd command cp os).2.watches = s.watches) ∨
    (os.fork ≠ 0 ∧ (heap_pids s)[process]? = some 0 ∧
      heap_pids (child_process_start s process user wd command cp os).2 =
        (heap_pids s).set process os.fork ∧
      (child_process_start s process user wd command cp os).2.processes =
        hash_insert s.processes os.fork process ∧
      (child_process_start s process user wd command cp os).2.watches =
        s.watches ++ [(os.fork, process)]) := by
  unfold child_process_start
  split
  · left; exact ⟨rfl, rfl, rfl⟩
  · next p0 hp0 =>
    split
    · left; exact ⟨rfl, rfl, rfl⟩
    · next hpid =>
      have hpid0 : p0.pid = 0 := by simpa using hpid
      have hp : (heap_pids s)[process]? = some 0 := by
        simp [heap_pids, hp0, hpid0]
      have hsame : ∀ q : ChildProcess, q.pid = 0 →
          (s.heap.set process q).map (fun q => q.pid) = heap_pids s := by
        intro q hq
        rw [List.map_set, hq]
        exact set_same_of_lookup _ _ _ hp
      simp only
      split
      · split
        · refine Or.imp id (fun h => ⟨h.1, hp, h.2⟩)
            (launch_summary _ _ _ _ _ _ _ hp ?_)
          simp [child_process_set_env, hpid0]
        · left; exact ⟨hsame _ hpid0, rfl, rfl⟩
      · exact Or.imp id (fun h => ⟨h.1, hp, h.2⟩)
          (launch_summary _ _ _ _ _ _ _ hp hpid0)

theorem lt_length_of_lookup {α : Type} {l : List α} {i : Nat} {a : α} (h : l[i]? = some a) :
    i < l.length := by
  by_contra hc
  rw [List.getElem?_eq_none (by omega)] at h
  exact Option.noConfusion h

theorem consistent_insert (pids : List Int) (procs watches : List (Int × Nat))
    (fork : Int) (process : Nat) (h : consistent pids procs watches) (hf : fork ≠ 0)
    (hp : pids[process]? = some 0) (hfresh : ∀ e ∈ watches, e.1 ≠ fork) :
    consistent (pids.set process fork) (hash_insert procs fork process)
      (watches ++ [(fork, process)]) := by
  obtain ⟨hk, he, hw, hn, hs⟩ := h
  have hlt : process < pids.length := lt_length_of_lookup hp
  have hany : procs.any (fun e => decide (e.1 = fork)) = false := by
    rw [Bool.eq_false_iff]
    intro hc
    rw [List.any_eq_true] at hc
    obtain ⟨e, hmem, heq⟩ := hc
    exact hfresh e ((hw e).2 hmem) (by simpa using heq)
  have hins : hash_insert procs fork process = procs ++ [(fork, process)] := by
    simp [hash_insert, hany]
  rw [hins]
  refine ⟨?_, ?_, ?_, ?_, ?_⟩
  · rw [List.map_append, List.nodup_append]
    refine ⟨hk, by simp, ?_⟩
    intro k hk1 hk2
    simp only [List.map_cons, List.map_nil, List.mem_singleton] at hk2
    subst hk2
    rw [List.mem_map] at hk1
    obtain ⟨e, hmem, heq⟩ := hk1
    exact hfresh e ((hw e).2 hmem) heq
  · intro e hmem
    rw [List.mem_append, List.mem_singleton] at hmem
    rcases hmem with hmem | rfl
    · obtain ⟨h1, h2⟩ := he e hmem
      refine ⟨h1, ?_⟩
      have hne : process ≠ e.2 := by
        intro hc
        rw [← hc, hp] at h2
        exact h1 (Option.some.inj h2).symm
      rw [List.getElem?_set_ne hne]
      exact h2
    · exact ⟨hf, List.getElem?_set_self hlt⟩
  · intro e
    simp only [List.mem_append, hw e]
  · rw [List.nodup_append]
    refine ⟨hn, by simp, ?_⟩
    intro e h1 h2
    rw [List.mem_singleton] at h2
    subst h2
    exact hfresh _ h1 rfl
  · have h0 : pids[process] = 0 := by
      have := List.getElem?_eq_getElem hlt
      rw [hp] at this
      exact (Option.some.inj this).symm
    rw [List.length_append, List.countP_set _ _ _ _ hlt, hs]
    simp [h0, hf]

theorem consistent_remove (pids : List Int) (procs watches : List (Int × Nat))
    (pid : Int) (process : Nat) (h : consistent pids procs watches)
    (hmem : (pid, process) ∈ watches) :
    consistent (pids.set process 0) (hash_remove procs pid) (watches.erase (pid, process)) := by
  obtain ⟨hk, he, hw, hn, hs⟩ := h
  have hproc : (pid, process) ∈ procs := (hw _).1 hmem
  obtain ⟨hpid, hlook⟩ := he _ hproc
  simp only at hpid hlook
  have hlt : process < pids.length := lt_length_of_lookup hlook
  have huniq : ∀ e ∈ procs, e.1 = pid → e = (pid, process) := by
    intro e hmem' heq
    exact List.inj_on_of_nodup_map hk hmem' hproc heq
  have hfilter : ∀ e, e ∈ hash_remove procs pid ↔ e ∈ procs ∧ e ≠ (pid, process) := by
    intro e
    simp only [hash_remove, List.mem_filter, decide_eq_true_eq]
    constructor
    · rintro ⟨h1, h2⟩
      exact ⟨h1, fun hc => h2 (by rw [hc])⟩
    · rintro ⟨h1, h2⟩
      exact ⟨h1, fun hc => h2 (huniq e h1 hc)⟩
  refine ⟨?_, ?_, ?_, ?_, ?_⟩
  · exact hk.sublist ((List.filter_sublist _).map Prod.fst)
  · intro e hmem'
    obtain ⟨h1, h2⟩ := (hfilter e).1 hmem'
    obtain ⟨h3, h4⟩ := he e h1
    refine ⟨h3, ?_⟩
    have hne : process ≠ e.2 := by
      intro hc
      rw [← hc, hlook] at h4
      exact h2 (huniq e h1 (Option.some.inj h4).symm)
    rw [List.getElem?_set_ne hne]
    exact h4
  · intro e
    rw [hn.mem_erase_iff, hfilter, hw e, and_comm]
  · exact hn.erase _
  · have h0 : pids[process] = pid := by
      have := List.getElem?_eq_getElem hlt
      rw [hlook] at this
      exact (Option.some.inj this).symm
    have hcount : procs.countP (fun e => decide (e.1 = pid)) = 1 := by
      have h1 : (procs.map Prod.fst).count pid = 1 :=
        List.count_eq_one_of_mem hk (List.mem_map_of_mem Prod.fst hproc)
      rw [List.count, List.countP_map] at h1
      rw [← h1]
      apply List.countP_congr
      intro e _
      simp
    have hsplit := List.length_eq_countP_add_countP (fun e : Int × Nat => decide (e.1 = pid)) procs
    have hrem : (hash_remove procs pid).length =
        procs.countP (fun e => decide ¬ (decide (e.1 = pid)) = true) := by
      rw [hash_remove, List.countP_eq_length_filter]
      congr 1
      apply List.filter_congr
      intro e _
      simp
    rw [List.countP_set _ _ _ _ hlt, ← hs, hrem]
    simp only [h0, hpid, ne_eq, not_false_eq_true, decide_True, ↓reduceIte, not_true_eq_false,
      decide_False, Bool.false_eq_true, Nat.add_zero]
    rw [hcount] at hsplit
    omega

theorem watch_summary (s : Supervisor) (pid : Int) (status : WaitStatus) (process : Nat) :
    heap_pids (child_process_watch_cb s pid status process).1 = (heap_pids s).set process 0 ∧
    (child_process_watch_cb s pid status process).1.processes = hash_remove s.processes pid ∧
    (child_process_watch_cb s pid status process).1.watches = s.watches := by
  have hheap : heap_pids (child_process_watch_cb s pid status process).1 =
      (heap_pids s).set process 0 := by
    unfold child_process_watch_cb heap_pids
    cases hq : s.heap[process]? with
    | none =>
      have hlen : s.heap.length ≤ process := by
        by_contra hc
        rw [List.getElem?_eq_getElem (by omega)] at hq
        exact Option.noConfusion hq
      have : (s.heap.map (fun p => p.pid)).set process 0 = s.heap.map (fun p => p.pid) :=
        List.set_eq_of_length_le (by simpa using hlen)
      rw [this]
      simp only
      split <;> rfl
    | some p =>
      simp only
      split <;> simp [List.map_set]
  refine ⟨hheap, ?_, ?_⟩
  · unfold child_process_watch_cb
    simp only
    split <;> rfl
  · unfold child_process_watch_cb
    simp only
    split <;> rfl

theorem consistent_step (s : Supervisor) (op : Op)
    (h : consistent (heap_pids s) s.processes s.watches) (hen : enabled s op = true) :
    consistent (heap_pids (step s op).1) (step s op).1.processes (step s op).1.watches := by
  cases op with
  | start process user wd command cp os =>
    simp only [step]
    rcases start_summary s process user wd command cp os with ⟨h1, h2, h3⟩ | ⟨h0, hp, h1, h2, h3⟩
    · rw [h1, h2, h3]; exact h
    · rw [h1, h2, h3]
      refine consistent_insert _ _ _ _ _ h h0 hp ?_
      intro e hmem hc
      simp only [enabled, Bool.not_eq_true', List.any_eq_false, decide_eq_true_eq] at hen
      exact hen e hmem hc
  | watch pid status process =>
    obtain ⟨h1, h2, h3⟩ := watch_summary s pid status process
    have hmem : (pid, process) ∈ s.watches := by
      simpa [enabled] using hen
    have := consistent_remove _ _ _ pid process h hmem
    simp only [step]
    show consistent (heap_pids (child_process_watch_cb s pid status process).1)
      (child_process_watch_cb s pid status process).1.processes
      ((child_process_watch_cb s pid status process).1.watches.erase (pid, process))
    rw [h1, h2, h3]
    exact this

theorem consistent_run (ops : List Op) :
    ∀ s : Supervisor, consistent (heap_pids s) s.processes s.watches →
      valid_run s ops = true →
      consistent (heap_pids (run s ops)) (run s ops).processes (run s ops).watches := by
  induction ops with
  | nil => intro s h _; exact h
  | cons op ops ih =>
    intro s h hv
    simp only [valid_run, Bool.and_eq_true] at hv
    obtain ⟨hen, hrest⟩ := hv
    have hstep := consistent_step s op h hen
    unfold run
    cases hq : (step s op).2 with
    | none =>
      rw [hq] at hrest
      exact ih _ hstep hrest
    | some code => exact hstep

theorem consistent_fresh (s : Supervisor) (h : fresh s = true) :
    consistent (heap_pids s) s.processes s.watches := by
  simp only [fresh, Bool.and_eq_true, List.isEmpty_iff, List.all_eq_true,
    decide_eq_true_eq] at h
  obtain ⟨⟨hp, hw⟩, hall⟩ := h
  rw [hp, hw]
  refine ⟨by simp, by simp, by simp, by simp, ?_⟩
  symm
  rw [List.length_nil, List.countP_eq_zero]
  intro pid hmem
  simp only [heap_pids, List.mem_map] at hmem
  obtain ⟨p, hp1, hp2⟩ := hmem
  simp [← hp2, hall p hp1]

/-- C4: over every sequence of `child_process_start` calls and exit-watch callbacks from
a supervisor in which nothing was started yet, in which `fork` never returns a pid whose
child watch is still pending and a watch callback runs only for a pending watch, the size
of the registry equals the number of instances whose pid is non-zero, no pid is registered
twice, and every entry maps a non-zero pid to the instance whose pid field is that key. -/
theorem registry_matches_live_children (s0 : Supervisor) (ops : List Op)
    (h0 : fresh s0 = true) (hv : valid_run s0 ops = true) :
    (run s0 ops).processes.length = live_count (run s0 ops) ∧ registry_ok (run s0 ops) := by
  obtain ⟨hk, he, _, _, hs⟩ := consistent_run ops s0 (consistent_fresh s0 h0) hv
  refine ⟨?_, hk, ?_⟩
  · rw [hs, live_count, heap_pids, List.countP_map]
    rfl
  · intro e hmem
    have := he e hmem
    simpa [heap_pids] using this

/-- Two children are started and the first one exits: one entry, one live instance. -/
theorem registry_matches_live_children_witness :
    (run { heap := [{}, {}] }
      [Op.start 0 ⟨"alice", 1000, 1000, "", "/home/alice", "/bin/sh"⟩ none "xterm" false
          ⟨0, none, none, some ["xterm"], 4242, ⟨0, 3, true, true, true, true, true, 4, true⟩⟩,
       Op.start 1 ⟨"alice", 1000, 1000, "", "/home/alice", "/bin/sh"⟩ none "xterm" false
          ⟨0, none, none, some ["xterm"], 4343, ⟨0, 3, true, true, true, true, true, 4, true⟩⟩,
       Op.watch 4242 (WaitStatus.exited 0) 0]).processes.length =
      live_count (run { heap := [{}, {}] }
      [Op.start 0 ⟨"alice", 1000, 1000, "", "/home/alice", "/bin/sh"⟩ none "xterm" false
          ⟨0, none, none, some ["xterm"], 4242, ⟨0, 3, true, true, true, true, true, 4, true⟩⟩,
       Op.start 1 ⟨"alice", 1000, 1000, "", "/home/alice", "/bin/sh"⟩ none "xterm" false
          ⟨0, none, none, some ["xterm"], 4343, ⟨0, 3, true, true, true, true, true, 4, true⟩⟩,
       Op.watch 4242 (WaitStatus.exited 0) 0]) :=
  (registry_matches_live_children _ _ (by decide) (by decide)).1

/-- C4, counterexample: two instances are started and `fork` returns the pid 4242 for the
second while the watch callback of the first, which had that pid, is still pending.  Both
calls return TRUE and the callback that then runs is one of a pending watch, yet afterwards
the registry is empty while instance 1 has the pid 4242: the size of the registry is 0 and
the number of instances with a non-zero pid is 1. -/
theorem registry_pid_reuse_counterexample :
    fresh { heap := [{}, {}] } = true ∧
    (4242, 0) ∈ (run { heap := [{}, {}] } (pid_reuse_ops.take 2)).watches ∧
    child_process_get_pid (run { heap := [{}, {}] } pid_reuse_ops) (some 1) = 4242 ∧
    (run { heap := [{}, {}] } pid_reuse_ops).processes = [] ∧
    live_count (run { heap := [{}, {}] } pid_reuse_ops) = 1 ∧
    (run { heap := [{}, {}] } pid_reuse_ops).processes.length ≠
      live_count (run { heap := [{}, {}] } pid_reuse_ops) := by
  refine ⟨?_, ?_, ?_, ?_, ?_, ?_⟩ <;> decide

theorem env_changed_refl (w : World) : env_changed w w :=
  ⟨w.supervisor.heap, rfl, rfl⟩

theorem env_changed_trans {w1 w2 w3 : World} (h12 : env_changed w1 w2)
    (h23 : env_changed w2 w3) : env_changed w1 w3 := by
  obtain ⟨heap1, hp1, rfl⟩ := h12
  obtain ⟨heap2, hp2, rfl⟩ := h23
  exact ⟨heap2, by simpa using hp2.trans hp1, rfl⟩

theorem call_set_env_env_changed (w : World) (process : Nat) (name : String)
    (value : Option String) : env_changed w (call_set_env w process name value) := by
  unfold call_set_env
  cases hq : w.supervisor.heap[process]? with
  | none => exact env_changed_refl w
  | some p =>
    refine ⟨_, ?_, rfl⟩
    rw [List.map_set]
    have hpid : (child_process_set_env p name value).pid = p.pid := by
      cases value <;> rfl
    rw [hpid]
    apply List.ext_getElem?
    intro j
    rw [List.getElem?_set]
    split
    · next hij =>
      subst hij
      split
      · simp [hq]
      · next hlt =>
        rw [List.getElem?_eq_none (by simpa using hlt)]
    · rfl

theorem set_env_from_keyfile_env_changed (w : World) (process : Nat) (name : String)
    (key_file : KeyFile) (section_name key : String) :
    env_changed w (set_env_from_keyfile w process name key_file section_name key) := by
  unfold set_env_from_keyfile
  split
  · exact env_changed_refl w
  · exact call_set_env_env_changed _ _ _ _

theorem pam_env_fold_env_changed (process : Nat) (pam_env : List String) :
    ∀ w : World, env_changed w
      (pam_env.foldl
        (fun acc entry =>
          match split_first_equals entry.toList with
          | some (name, value) => call_set_env acc process (String.mk name) (some (String.mk value))
          | none => acc)
        w) := by
  induction pam_env with
  | nil => intro w; exact env_changed_refl w
  | cons entry rest ih =>
    intro w
    rw [List.foldl_cons]
    refine env_changed_trans ?_ (ih _)
    split
    · exact call_set_env_env_changed _ _ _ _
    · exact env_changed_refl w

theorem set_env_from_pam_session_env_changed (w : World) (process : Nat)
    (pam_session : Option Nat) :
    env_changed w (set_env_from_pam_session w process pam_session) := by
  unfold set_env_from_pam_session
  split
  · exact env_changed_refl w
  · split
    · exact env_changed_refl w
    · exact pam_env_fold_env_changed _ _ _

theorem user_session_env_env_changed (w : World) (process : Nat) (address : String)
    (session : Option String) (dmrc_file : KeyFile) :
    env_changed w (user_session_env w process address session dmrc_file) := by
  unfold user_session_env
  simp only
  refine env_changed_trans ?_ (set_env_from_pam_session_env_changed _ _ _)
  refine env_changed_trans ?_ (set_env_from_keyfile_env_changed _ _ _ _ _ _)
  refine env_changed_trans ?_ (set_env_from_keyfile_env_changed _ _ _ _ _ _)
  refine env_changed_trans ?_ (set_env_from_keyfile_env_changed _ _ _ _ _ _)
  refine env_changed_trans ?_ (set_env_from_keyfile_env_changed _ _ _ _ _ _)
  refine env_changed_trans ?_ (call_set_env_env_changed _ _ _ _)
  refine env_changed_trans ?_ (call_set_env_env_changed _ _ _ _)
  refine env_changed_trans (call_set_env_env_changed w process "DISPLAY" (some address)) ?_
  split
  · exact call_set_env_env_changed _ _ _ _
  · exact env_changed_refl _

theorem start_user_session_built (h : Host) (w : World) (session language : Option String)
    (os : CallOS) (i : Nat) (ps : PAMSession) (desktop : KeyFile) (exec : String) (user : User)
    (x : Nat) (server : XServer)
    (hhalt : w.halted = none)
    (hptr : w.display.user_pam_session = some i) (hps : w.pam_sessions[i]? = some ps)
    (hdesc : hash_lookup h.xsessions (printf_s session) = some desktop)
    (hexec : g_key_file_get_string desktop "Desktop Entry" "Exec" = some exec)
    (huser : user_get_by_name h.users (pam_session_get_username ps).1 = some user)
    (hx : w.display.xserver = some x) (hserver : w.xservers[x]? = some server) :
    ∃ wenv : World,
      start_user_session h w session language os =
        launch_user_session wenv
          ⟨w.supervisor.heap.length, some user,
            some (wrapped_command w.display.session_wrapper exec)⟩
          (updated_dmrc (dmrc_load w.dmrc (pam_session_get_username ps).1) session language)
          (pam_session_get_username ps).1 os ∧
      wenv.halted = none ∧
      wenv.display =
        { w.display with
          login_count := w.display.login_count + 1
          user_ck_cookie := if h.uid ≠ 0 then none else os.ck_cookie
          supports_transitions :=
            g_key_file_get_boolean desktop "Desktop Entry" "X-LightDM-Supports-Transitions"
          user_session :=
            some ⟨w.supervisor.heap.length, some user,
              some (wrapped_command w.display.session_wrapper exec)⟩ } ∧
      wenv.events = w.events ++ ck_events h "" user server ∧
      wenv.dmrc = w.dmrc ∧
      wenv.passwd_file = w.passwd_file ∧
      wenv.supervisor.processes = w.supervisor.processes ∧
      wenv.supervisor.watches = w.supervisor.watches ∧
      wenv.supervisor.effects = w.supervisor.effects ∧
      wenv.supervisor.stopping = w.supervisor.stopping ∧
      wenv.supervisor.heap.map (fun p => p.pid) =
        w.supervisor.heap.map (fun p => p.pid) ++ [0] := by
  by_cases huid : h.uid ≠ 0
  · obtain ⟨heap, hpids, henv⟩ := user_session_env_env_changed
      { w with
        display :=
          { w.display with
            login_count := w.display.login_count + 1
            user_ck_cookie := none
            supports_transitions :=
              g_key_file_get_boolean desktop "Desktop Entry" "X-LightDM-Supports-Transitions"
            user_session :=
              some ⟨w.supervisor.heap.length, some user,
                some (wrapped_command w.display.session_wrapper exec)⟩ }
        pam_sessions := w.pam_sessions.set i (pam_session_get_username ps).2
        supervisor := { w.supervisor with heap := w.supervisor.heap ++ [{}] }
        xservers := w.xservers.set x (xserver_get_address server).2 }
      w.supervisor.heap.length (xserver_get_address server).1 session
      (updated_dmrc (dmrc_load w.dmrc (pam_session_get_username ps).1) session language)
    refine ⟨user_session_env
        { w with
          display :=
            { w.display with
              login_count := w.display.login_count + 1
              user_ck_cookie := none
              supports_transitions :=
                g_key_file_get_boolean desktop "Desktop Entry" "X-LightDM-Supports-Transitions"
              user_session :=
                some ⟨w.supervisor.heap.length, some user,
                  some (wrapped_command w.display.session_wrapper exec)⟩ }
          pam_sessions := w.pam_sessions.set i (pam_session_get_username ps).2
          supervisor := { w.supervisor with heap := w.supervisor.heap ++ [{}] }
          xservers := w.xservers.set x (xserver_get_address server).2 }
        w.supervisor.heap.length (xserver_get_address server).1 session
        (updated_dmrc (dmrc_load w.dmrc (pam_session_get_username ps).1) session language), ?_, ?_⟩
    · simp [start_user_session, call_pam_session_get_username, hptr, hps, hdesc, hexec,
        huser, start_ck_session, huid, hhalt, hx, hserver, wrapped_command]
    · rw [henv]
      simp [hhalt, huid, ck_events, hpids]
  · obtain ⟨heap, hpids, henv⟩ := user_session_env_env_changed
      { w with
        display :=
          { w.display with
            login_count := w.display.login_count + 1
            user_ck_cookie := os.ck_cookie
            supports_transitions :=
              g_key_file_get_boolean desktop "Desktop Entry" "X-LightDM-Supports-Transitions"
            user_session :=
              some ⟨w.supervisor.heap.length, some user,
                some (wrapped_command w.display.session_wrapper exec)⟩ }
        pam_sessions := w.pam_sessions.set i (pam_session_get_username ps).2
        supervisor := { w.supervisor with heap := w.supervisor.heap ++ [{}] }
        xservers := (w.xservers.set x (xserver_get_address server).2).set x
          (xserver_get_address (xserver_get_address server).2).2
        events := w.events ++ ck_events h "" user server }
      w.supervisor.heap.length (xserver_get_address (xserver_get_address server).2).1 session
      (updated_dmrc (dmrc_load w.dmrc (pam_session_get_username ps).1) session language)
    have huid0 : h.uid = 0 := by simpa using huid
    have hlt : x < w.xservers.length := by
      by_contra hc
      rw [List.getElem?_eq_none (by omega)] at hserver
      exact Option.noConfusion hserver
    refine ⟨user_session_env
        { w with
          display :=
            { w.display with
              login_count := w.display.login_count + 1
              user_ck_cookie := os.ck_cookie
              supports_transitions :=
                g_key_file_get_boolean desktop "Desktop Entry" "X-LightDM-Supports-Transitions"
              user_session :=
                some ⟨w.supervisor.heap.length, some user,
                  some (wrapped_command w.display.session_wrapper exec)⟩ }
          pam_sessions := w.pam_sessions.set i (pam_session_get_username ps).2
          supervisor := { w.supervisor with heap := w.supervisor.heap ++ [{}] }
          xservers := (w.xservers.set x (xserver_get_address server).2).set x
            (xserver_get_address (xserver_get_address server).2).2
          events := w.events ++ ck_events h "" user server }
        w.supervisor.heap.length (xserver_get_address (xserver_get_address server).2).1 session
        (updated_dmrc (dmrc_load w.dmrc (pam_session_get_username ps).1) session language), ?_, ?_⟩
    · simp [start_user_session, call_pam_session_get_username, hptr, hps, hdesc, hexec,
        huser, start_ck_session, huid0, hhalt, hx, hserver, wrapped_command,
        List.getElem?_set_self hlt, ck_events]
    · rw [henv]
      simp [hhalt, huid, hpids]

theorem call_pam_session_end_display (w : World) (session : Option Nat) :
    (call_pam_session_end w session).display = w.display := by
  unfold call_pam_session_end
  split
  · rfl
  · split <;> rfl

theorem call_pam_session_end_supervisor (w : World) (session : Option Nat) :
    (call_pam_session_end w session).supervisor = w.supervisor := by
  unfold call_pam_session_end
  split
  · rfl
  · split <;> rfl

theorem call_pam_session_end_halted (w : World) (session : Option Nat) :
    (call_pam_session_end w session).halted = w.halted := by
  unfold call_pam_session_end
  split
  · rfl
  · split <;> rfl

theorem call_pam_session_end_events (w : World) (session : Option Nat) :
    (call_pam_session_end w session).events = w.events ++ pam_end_events w session := by
  cases session with
  | none => simp [call_pam_session_end, pam_end_events]
  | some i =>
    cases hq : w.pam_sessions[i]? with
    | none => simp [call_pam_session_end, pam_end_events, hq]
    | some ps => simp [call_pam_session_end, pam_end_events, hq, pam_update]

theorem pam_end_events_no_session_start (w : World) (session : Option Nat) :
    (pam_end_events w session).filter is_session_start = [] := by
  unfold pam_end_events
  split
  · rfl
  · split
    · rfl
    · rw [List.filter_eq_nil_iff]
      intro e he
      rw [List.mem_map] at he
      obtain ⟨fx, _, rfl⟩ := he
      simp [is_session_start]

theorem end_ck_session_display (w : World) (cookie : Option String) :
    (end_ck_session w cookie).display = w.display := by
  unfold end_ck_session
  split <;> rfl

theorem end_ck_session_supervisor (w : World) (cookie : Option String) :
    (end_ck_session w cookie).supervisor = w.supervisor := by
  unfold end_ck_session
  split <;> rfl

theorem end_ck_session_halted (w : World) (cookie : Option String) :
    (end_ck_session w cookie).halted = w.halted := by
  unfold end_ck_session
  split <;> rfl

theorem end_ck_session_events (w : World) (cookie : Option String) :
    (end_ck_session w cookie).events = w.events ++ ck_close_events cookie := by
  unfold end_ck_session ck_close_events
  split
  · simp
  · rfl

theorem ck_close_events_no_session_start (cookie : Option String) :
    (ck_close_events cookie).filter is_session_start = [] := by
  unfold ck_close_events
  split <;> rfl

theorem call_session_start_events (w : World) (session : Session) (create_pipe : Bool)
    (os : StartOS) :
    (call_session_start w session create_pipe os).2.events =
      w.events ++ [Event.session_start session.process create_pipe] := by
  unfold call_session_start
  simp only
  split <;> rfl

theorem call_session_start_supervisor (w : World) (session : Session) (create_pipe : Bool)
    (os : StartOS) :
    (call_session_start w session create_pipe os).2.supervisor =
      (session_start w.supervisor session create_pipe os).2 := by
  unfold call_session_start
  simp only
  split <;> rfl

theorem call_session_start_display (w : World) (session : Session) (create_pipe : Bool)
    (os : StartOS) :
    (call_session_start w session create_pipe os).2.display = w.display := by
  unfold call_session_start
  simp only
  split <;> rfl

theorem ck_events_no_session_start (h : Host) (session_type : String) (user : User)
    (server : XServer) : (ck_events h session_type user server).filter is_session_start = [] := by
  unfold ck_events
  split <;> rfl

theorem child_process_start_forks (s : Supervisor) (process : Nat) (user : User)
    (wd : Option String) (command : String) (os : StartOS) (argv : List String)
    (hp : (s.heap.map (fun p => p.pid))[process]? = some 0)
    (hargv : os.argv = some argv) (hfork : 0 < os.fork) :
    (child_process_start s process user wd command false os).1 = StartResult.returned true ∧
    child_process_get_pid (child_process_start s process user wd command false os).2
      (some process) = os.fork ∧
    (child_process_start s process user wd command false os).2.processes =
      hash_insert s.processes os.fork process ∧
    Effect.fork os.fork ∈ (child_process_start s process user wd command false os).2.effects := by
  rw [List.getElem?_map] at hp
  cases hq : s.heap[process]? with
  | none => simp [hq] at hp
  | some p =>
    have hpid : p.pid = 0 := by simpa [hq] using hp
    have hlt : process < s.heap.length := by
      by_contra hc
      rw [List.getElem?_eq_none (by omega)] at hq
      exact Option.noConfusion hq
    have h1 : ¬ os.fork < 0 := by omega
    have h2 : ¬ os.fork = 0 := by omega
    simp [child_process_start, hq, hpid, child_process_launch, hargv, h1, h2,
      child_process_get_pid, List.getElem?_set_self hlt]

theorem greeter_quit_cb_starts_waiting (w : World) (os : CallOS) (us : Session)
    (hus : w.display.user_session = some us)
    (hpid : child_process_get_pid w.supervisor (some us.process) = 0) :
    (greeter_quit_cb w os).events =
      w.events ++
        [Event.emit_end_greeter (w.display.greeter_session.map (fun g => g.session.process))]
        ++ (pam_end_events
              { w with events := w.events ++
                  [Event.emit_end_greeter
                    (w.display.greeter_session.map (fun g => g.session.process))] }
              w.display.greeter_pam_session ++
            ck_close_events w.display.greeter_ck_cookie)
        ++ [Event.session_start us.process false] ∧
    (greeter_quit_cb w os).supervisor = (session_start w.supervisor us false os.start).2 ∧
    (greeter_quit_cb w os).display.greeter_session = none := by
  simp [greeter_quit_cb, call_pam_session_end_display, call_pam_session_end_supervisor,
    call_pam_session_end_events, end_ck_session_display, end_ck_session_supervisor,
    end_ck_session_events, call_session_start_events, call_session_start_supervisor,
    call_session_start_display, hus, hpid]

theorem launch_user_session_now (wenv : World) (us : Session) (dmrc_file : KeyFile)
    (username : Option String) (os : CallOS)
    (hnow : (wenv.display.greeter_session.isNone || wenv.display.supports_transitions) = true) :
    (launch_user_session wenv us dmrc_file username os).2.events.filter is_session_start =
      wenv.events.filter is_session_start ++ [Event.session_start us.process false] ∧
    (launch_user_session wenv us dmrc_file username os).2.supervisor =
      (session_start wenv.supervisor us false os.start).2 ∧
    (launch_user_session wenv us dmrc_file username os).2.display = wenv.display := by
  unfold launch_user_session
  simp only [hnow, ↓reduceIte]
  split <;>
    simp [call_session_start_events, call_session_start_supervisor, call_session_start_display,
      List.filter_append, is_session_start]

/-- C9: for an authorized login (the greeter's PAM session is in session) to a session whose
descriptor loads and names a command, for a user the identity source resolves, on a Display
with its X server: when the descriptor declares no transition support and a greeter runs,
`greeter_start_session_cb` creates the user session without calling `session_start` (no
fork, the pid of the session stays 0) and its last act is to ask the greeter to quit; the
handler `greeter_quit_cb` then emits `end-greeter`, releases the greeter and calls
`session_start` for the user session exactly once, as its last act (and a successful fork
sets the pid).  When the descriptor declares transition support, or no greeter runs, the
one `session_start` happens inside `greeter_start_session_cb` itself. -/
theorem user_session_waits_for_greeter_quit (h : Host) (w : World) (greeter : Greeter)
    (session language : String) (os os2 : CallOS) (i : Nat) (ps : PAMSession)
    (desktop : KeyFile) (exec : String) (user : User) (x : Nat) (server : XServer)
    (hhalt : w.halted = none)
    (hptr : greeter.pam_session = some i) (hps : w.pam_sessions[i]? = some ps)
    (hin : ps.in_session = true)
    (hdesc : hash_lookup h.xsessions (printf_s (effective_session w.display session)) =
      some desktop)
    (hexec : g_key_file_get_string desktop "Desktop Entry" "Exec" = some exec)
    (huser : user_get_by_name h.users (pam_session_get_username ps).1 = some user)
    (hx : w.display.xserver = some x) (hserver : w.xservers[x]? = some server) :
    (g_key_file_get_boolean desktop "Desktop Entry" "X-LightDM-Supports-Transitions" = false →
      ∀ g, w.display.greeter_session = some g →
        (greeter_start_session_cb h w greeter session language os).halted = none ∧
        (greeter_start_session_cb h w greeter session language os).events.filter
            is_session_start = w.events.filter is_session_start ∧
        (greeter_start_session_cb h w greeter session language os).supervisor.effects =
          w.supervisor.effects ∧
        (greeter_start_session_cb h w greeter session language os).display.user_session =
          some ⟨w.supervisor.heap.length, some user,
            some (wrapped_command w.display.session_wrapper exec)⟩ ∧
        child_process_get_pid
            (greeter_start_session_cb h w greeter session language os).supervisor
            (some w.supervisor.heap.length) = 0 ∧
        (greeter_start_session_cb h w greeter session language os).events.getLast? =
          some (Event.greeter_quit (some g.session.process)) ∧
        (greeter_quit_cb (greeter_start_session_cb h w greeter session language os)
            os2).events.filter is_session_start =
          w.events.filter is_session_start ++
            [Event.session_start w.supervisor.heap.length false] ∧
        (∃ mid : List Event,
          (greeter_quit_cb (greeter_start_session_cb h w greeter session language os)
              os2).events =
            (greeter_start_session_cb h w greeter session language os).events ++
              [Event.emit_end_greeter (some g.session.process)] ++ mid ++
              [Event.session_start w.supervisor.heap.length false]) ∧
        (greeter_quit_cb (greeter_start_session_cb h w greeter session language os)
            os2).display.greeter_session = none ∧
        (∀ argv, os2.start.argv = some argv → 0 < os2.start.fork →
          child_process_get_pid
            (greeter_quit_cb (greeter_start_session_cb h w greeter session language os)
              os2).supervisor (some w.supervisor.heap.length) = os2.start.fork)) ∧
    ((g_key_file_get_boolean desktop "Desktop Entry" "X-LightDM-Supports-Transitions" = true ∨
        w.display.greeter_session = none) →
      (greeter_start_session_cb h w greeter session language os).events.filter
          is_session_start =
        w.events.filter is_session_start ++
          [Event.session_start w.supervisor.heap.length false] ∧
      (∀ argv, os.start.argv = some argv → 0 < os.start.fork →
        child_process_get_pid
          (greeter_start_session_cb h w greeter session language os).supervisor
          (some w.supervisor.heap.length) = os.start.fork)) := by
  -- the request passes the authorization guard
  have hguard : greeter_start_session_cb h w greeter session language os =
      (let r := start_user_session h
          { w with display := { w.display with user_pam_session := greeter.pam_session } }
          (effective_session w.display session) (effective_language language) os
       if r.2.halted.isSome then r.2
       else if r.2.display.supports_transitions then
         { r.2 with display := { r.2.display with user_session_timer := os.timer }
                    events := r.2.events ++ [Event.timeout_add USER_SESSION_TIMEOUT] }
       else
         { r.2 with events := r.2.events ++
             [Event.greeter_quit (r.2.display.greeter_session.map (fun g => g.session.process))] }) := by
    simp [greeter_start_session_cb, hptr, get_pam, hps, pam_session_get_in_session, hin]
  obtain ⟨wenv, hstart, hwhalt, hwdisp, hwev, hwdmrc, _, hwproc, hwwatch, hwfx, _, hwpids⟩ :=
    start_user_session_built h
      { w with display := { w.display with user_pam_session := greeter.pam_session } }
      (effective_session w.display session) (effective_language language) os i ps desktop exec
      user x server hhalt hptr hps hdesc hexec huser hx hserver
  simp only at hstart hwhalt hwdisp hwev hwdmrc hwproc hwwatch hwfx hwpids
  have hpid0 : (wenv.supervisor.heap.map (fun p => p.pid))[w.supervisor.heap.length]? =
      some 0 := by
    rw [hwpids]
    simp
  have hck := ck_events_no_session_start h "" user server
  constructor
  · intro hsup g hg
    have hlaunch : launch_user_session wenv
        ⟨w.supervisor.heap.length, some user,
          some (wrapped_command w.display.session_wrapper exec)⟩
        (updated_dmrc (dmrc_load w.dmrc (pam_session_get_username ps).1)
          (effective_session w.display session) (effective_language language))
        (pam_session_get_username ps).1 os =
        (true,
          { wenv with
            dmrc := dmrc_save wenv.dmrc
              (updated_dmrc (dmrc_load w.dmrc (pam_session_get_username ps).1)
                (effective_session w.display session) (effective_language language))
              (pam_session_get_username ps).1
            events := wenv.events ++
              [Event.emit_start_session w.supervisor.heap.length,
               Event.dmrc_save (pam_session_get_username ps).1] }) := by
      simp [launch_user_session, hwdisp, hg, hsup, hwhalt]
    obtain ⟨W1, hW1⟩ : ∃ W1 : World, W1 =
        { wenv with
          dmrc := dmrc_save wenv.dmrc
            (updated_dmrc (dmrc_load w.dmrc (pam_session_get_username ps).1)
              (effective_session w.display session) (effective_language language))
            (pam_session_get_username ps).1
          events := wenv.events ++
            [Event.emit_start_session w.supervisor.heap.length,
             Event.dmrc_save (pam_session_get_username ps).1,
             Event.greeter_quit (some g.session.process)] } := ⟨_, rfl⟩
    have hw1 : greeter_start_session_cb h w greeter session language os = W1 := by
      rw [hguard, hW1]
      simp only [hstart, hlaunch]
      simp [hwhalt, hwdisp, hsup, hg]
    have hW1d : W1.display = wenv.display := by rw [hW1]
    have hW1s : W1.supervisor = wenv.supervisor := by rw [hW1]
    have hW1h : W1.halted = none := by rw [hW1]; exact hwhalt
    have hW1e : W1.events = w.events ++ ck_events h "" user server ++
        [Event.emit_start_session w.supervisor.heap.length,
         Event.dmrc_save (pam_session_get_username ps).1,
         Event.greeter_quit (some g.session.process)] := by rw [hW1, ← hwev]
    have hpidw : child_process_get_pid W1.supervisor (some w.supervisor.heap.length) = 0 := by
      rw [hW1s]
      rw [List.getElem?_map] at hpid0
      unfold child_process_get_pid
      cases hq : wenv.supervisor.heap[w.supervisor.heap.length]? with
      | none => simp [hq] at hpid0
      | some p => simpa [hq] using hpid0
    have hus : W1.display.user_session =
        some ⟨w.supervisor.heap.length, some user,
          some (wrapped_command w.display.session_wrapper exec)⟩ := by
      rw [hW1d, hwdisp]
    have hgs : W1.display.greeter_session = some g := by
      rw [hW1d, hwdisp]
      exact hg
    obtain ⟨hqev, hqsup, hqg⟩ := greeter_quit_cb_starts_waiting W1 os2 _ hus hpidw
    rw [hw1]
    refine ⟨hW1h, ?_, by rw [hW1s, hwfx], hus, hpidw, by simp [hW1e], ?_, ?_, hqg, ?_⟩
    · simp [hW1e, List.filter_append, hck, is_session_start]
    · rw [hqev]
      simp [hW1e, List.filter_append, hck, is_session_start, pam_end_events_no_session_start,
        ck_close_events_no_session_start]
    · refine ⟨pam_end_events
          { W1 with events := W1.events ++
              [Event.emit_end_greeter (W1.display.greeter_session.map (fun g => g.session.process))] }
          W1.display.greeter_pam_session ++ ck_close_events W1.display.greeter_ck_cookie, ?_⟩
      rw [hqev, hgs]
      rfl
    · intro argv hargv hfork
      rw [hqsup, hW1s]
      exact (child_process_start_forks wenv.supervisor w.supervisor.heap.length user
        (some user.home_directory) (wrapped_command w.display.session_wrapper exec) os2.start
        argv hpid0 hargv hfork).2.1
  · intro hcond
    have hnow : (wenv.display.greeter_session.isNone || wenv.display.supports_transitions) =
        true := by
      rcases hcond with hc | hc
      · simp [hwdisp, hc]
      · simp [hwdisp, hc]
    obtain ⟨hlev, hlsup, _⟩ := launch_user_session_now wenv
      ⟨w.supervisor.heap.length, some user,
        some (wrapped_command w.display.session_wrapper exec)⟩
      (updated_dmrc (dmrc_load w.dmrc (pam_session_get_username ps).1)
        (effective_session w.display session) (effective_language language))
      (pam_session_get_username ps).1 os hnow
    rw [hguard]
    simp only [hstart]
    generalize launch_user_session wenv
      ⟨w.supervisor.heap.length, some user,
        some (wrapped_command w.display.session_wrapper exec)⟩
      (updated_dmrc (dmrc_load w.dmrc (pam_session_get_username ps).1)
        (effective_session w.display session) (effective_language language))
      (pam_session_get_username ps).1 os = R at hlev hlsup
    have hev : R.2.events.filter is_session_start =
        w.events.filter is_session_start ++
          [Event.session_start w.supervisor.heap.length false] := by
      rw [hlev, hwev]
      simp [List.filter_append, hck]
    have hpid : ∀ argv, os.start.argv = some argv → 0 < os.start.fork →
        child_process_get_pid R.2.supervisor (some w.supervisor.heap.length) =
          os.start.fork := by
      intro argv hargv hfork
      rw [hlsup]
      exact (child_process_start_forks wenv.supervisor w.supervisor.heap.length user
        (some user.home_directory) (wrapped_command w.display.session_wrapper exec) os.start
        argv hpid0 hargv hfork).2.1
    split
    · exact ⟨hev, hpid⟩
    · split
      · exact ⟨by simpa [List.filter_append, is_session_start] using hev, hpid⟩
      · exact ⟨by simpa [List.filter_append, is_session_start] using hev, hpid⟩

/-- C1: when the greeter that asks for a session has no PAM session, or its PAM session is
not in session, `greeter_start_session_cb` only records the greeter's PAM session pointer in
`user_pam_session`: the supervisor is unchanged (no session instance is created, nothing is
forked), the Display keeps its user session and `login_count`, no settings file is written,
and no event is added (no `greeter_quit`, no `session_start`, no `dmrc_save`). -/
theorem greeter_start_session_cb_unauthorized (h : Host) (w : World) (greeter : Greeter)
    (session language : String) (os : CallOS)
    (hun : greeter.pam_session = none ∨
      pam_session_get_in_session (get_pam w greeter.pam_session) = false) :
    greeter_start_session_cb h w greeter session language os =
      { w with display := { w.display with user_pam_session := greeter.pam_session } } ∧
    (greeter_start_session_cb h w greeter session language os).supervisor = w.supervisor ∧
    (greeter_start_session_cb h w greeter session language os).display.user_session =
      w.display.user_session ∧
    (greeter_start_session_cb h w greeter session language os).display.login_count =
      w.display.login_count ∧
    (greeter_start_session_cb h w greeter session language os).dmrc = w.dmrc ∧
    (greeter_start_session_cb h w greeter session language os).events = w.events := by
  have hw : greeter_start_session_cb h w greeter session language os =
      { w with display := { w.display with user_pam_session := greeter.pam_session } } := by
    unfold greeter_start_session_cb
    rcases hun with hnone | hnot
    · simp [hnone]
    · have : pam_session_get_in_session
          (get_pam { w with display := { w.display with user_pam_session := greeter.pam_session } }
            greeter.pam_session) = false := hnot
      simp [this]
  rw [hw]
  exact ⟨rfl, rfl, rfl, rfl, rfl, rfl⟩

/-- A login request from a greeter whose PAM session is not in session is dropped. -/
theorem greeter_start_session_cb_unauthorized_witness :
    greeter_start_session_cb login_host
        { greeter_world with
          pam_sessions :=
            [{ service := "lightdm", username := some "alice", in_session := true },
             { service := "lightdm", username := some "alice", in_session := false }] }
        login_greeter "gnome" "" call_os =
      { greeter_world with
        display := { greeter_world.display with user_pam_session := some 1 }
        pam_sessions :=
          [{ service := "lightdm", username := some "alice", in_session := true },
           { service := "lightdm", username := some "alice", in_session := false }] } :=
  (greeter_start_session_cb_unauthorized login_host _ login_greeter "gnome" "" call_os
    (Or.inr (by decide))).1

/-- C10 at the failing input: in passwd-file mode, with an autologin service other than
`lightdm-autologin` and a default user who has a password, the X server's ready event makes
the autologin conversation emit a prompt, and that is all: `pam_session_cancel` emits no
result, `start_greeter` is not invoked (no theme is loaded, no greeter exists), no user
session exists and no process was started. -/
theorem autologin_prompt_passwd_file_starts_no_greeter :
    (xserver_ready_cb login_host autologin_world 0 call_os).events =
      [Event.pam 0 PamEffect.emit_authentication_started,
       Event.pam 0 (PamEffect.emit_got_messages 1 (some [⟨PAM_PROMPT_ECHO_OFF, "Password:"⟩]))] ∧
    (xserver_ready_cb login_host autologin_world 0 call_os).display.greeter_session = none ∧
    (xserver_ready_cb login_host autologin_world 0 call_os).display.greeter_count = 0 ∧
    (xserver_ready_cb login_host autologin_world 0 call_os).display.user_session = none ∧
    (xserver_ready_cb login_host autologin_world 0 call_os).supervisor = {} ∧
    (xserver_ready_cb login_host autologin_world 0 call_os).halted = none := by
  decide

/-- The same prompt in real-PAM mode: `pam_session_cancel` emits the result, the greeter is
started (its theme is loaded, its process launched) and no user session exists. -/
theorem autologin_prompt_real_pam_starts_greeter :
    Event.load_theme (some "default") ∈
      (run_notify_messages_cb login_host real_pam_prompt_world 0 call_os).events ∧
    (run_notify_messages_cb login_host real_pam_prompt_world 0 call_os).display.greeter_session
      ≠ none ∧
    (run_notify_messages_cb login_host real_pam_prompt_world 0 call_os).display.user_session
      = none ∧
    (run_notify_messages_cb login_host real_pam_prompt_world 0 call_os).events.filter
      is_session_start = [Event.session_start 0 true] := by
  decide

/-- A login to the session `gnome`, which declares no transition support, while the greeter
runs: the only `session_start` of the user session is the one made by `greeter_quit_cb`. -/
theorem user_session_waits_for_greeter_quit_witness :
    (greeter_quit_cb (greeter_start_session_cb login_host greeter_world login_greeter
        "gnome" "" call_os) call_os).events.filter is_session_start =
      greeter_world.events.filter is_session_start ++
        [Event.session_start greeter_world.supervisor.heap.length false] :=
  ((user_session_waits_for_greeter_quit login_host greeter_world login_greeter "gnome" ""
    call_os call_os 1 { service := "lightdm", username := some "alice", in_session := true }
    [(("Desktop Entry", "Exec"), "gnome-session")] "gnome-session" alice 0
    { display_number := 0, pid := 2000, ready := true }
    (by decide) (by decide) (by decide) (by decide) (by decide) (by decide) (by decide)
    (by decide) (by decide)).1 (by decide) login_greeter (by decide)).2.2.2.2.2.2.1

/-- C13: for a PAM session with no authentication thread, `pam_session_end` of a session
that is in session closes the PAM session, deletes the credentials, clears `in_session` and
emits `ended` once, and a second `pam_session_end` changes nothing and emits nothing; for a
session that is not in session it makes no PAM call, changes nothing and emits nothing. -/
theorem pam_session_end_reverses_once (ps : PAMSession)
    (hthread : ps.authentication_thread = false) :
    (ps.in_session = true →
      pam_session_end ps =
        ({ ps with in_session := false },
          [PamEffect.pam_close_session, PamEffect.pam_setcred_delete, PamEffect.emit_ended]) ∧
      (pam_session_end ps).2.count PamEffect.emit_ended = 1 ∧
      pam_session_end (pam_session_end ps).1 = ((pam_session_end ps).1, [])) ∧
    (ps.in_session = false → pam_session_end ps = (ps, [])) := by
  constructor
  · intro hin
    simp [pam_session_end, hthread, hin]
  · intro hin
    simp [pam_session_end, hthread, hin]

theorem pam_session_end_reverses_once_witness :
    authorized_session.authentication_thread = false ∧
    authorized_session.in_session = true ∧
    (pam_session_end authorized_session).2 =
      [PamEffect.pam_close_session, PamEffect.pam_setcred_delete, PamEffect.emit_ended] ∧
    pam_session_end (pam_session_end authorized_session).1 =
      ((pam_session_end authorized_session).1, []) :=
  ⟨by decide, by decide,
    by rw [((pam_session_end_reverses_once authorized_session (by decide)).1 (by decide)).1],
    ((pam_session_end_reverses_once authorized_session (by decide)).1 (by decide)).2.2⟩

/-- C12: in real-PAM mode (no passwd file) `pam_session_cancel` changes nothing in the
session, so the cancel flag stays clear and nothing is pushed on the response queue, and it
emits `authentication-result` with PAM_CONV_ERR; a worker blocked in `pam_conv_cb` stays
blocked (for `waiting_session` the queue is still empty).  The flag and the aborted token are
set only in the passwd-file branch, where they make the callback return PAM_CONV_ERR. -/
theorem pam_session_cancel_real_pam_keeps_worker_blocked (ps : PAMSession) :
    pam_session_cancel none ps = (ps, [PamEffect.emit_authentication_result PAM_CONV_ERR]) ∧
    pam_conv_cb_resume (pam_session_cancel none ps).1 = pam_conv_cb_resume ps ∧
    pam_conv_cb_resume waiting_session = none ∧
    (pam_session_cancel none waiting_session).1.cancel = false ∧
    (pam_session_cancel none waiting_session).1.authentication_response_queue = some [] ∧
    pam_conv_cb_resume (pam_session_cancel none waiting_session).1 = none ∧
    (pam_session_cancel (some "/etc/lightdm/passwd") waiting_session).1.cancel = true ∧
    (pam_session_cancel (some "/etc/lightdm/passwd")
        waiting_session).1.authentication_response_queue = some [QueueItem.aborted] ∧
    (pam_conv_cb_resume (pam_session_cancel (some "/etc/lightdm/passwd")
        waiting_session).1).map (fun r => r.2.1) = some PAM_CONV_ERR := by
  refine ⟨rfl, rfl, ?_, ?_, ?_, ?_, ?_, ?_, ?_⟩ <;> decide

theorem pam_session_respond_known_user (file : String) (data : Option String)
    (users : List User) (ps : PAMSession) (username answer : String)
    (hname : ps.username = some username) :
    (pam_session_respond (some file) data users ps answer).2 =
      [PamEffect.emit_authentication_result
        (if (user_get_by_name users (some username)).isSome ∧
            get_password data username = some answer
          then PAM_SUCCESS else PAM_AUTH_ERR)] := by
  unfold pam_session_respond
  cases hm : ps.messages <;> simp [hname] <;> split <;> simp_all

/-- C14: in real-PAM mode a respond after `notify_auth_complete_cb` delivered the result is
rejected (nothing emitted, nothing changed), because that callback clears the thread; while
the thread is set a respond is queued, whatever was emitted before.  In passwd-file mode
`pam_session_respond` has no such guard: every call emits one event, a further
`authentication-result` or a further prompt, and with a known username it is always an
`authentication-result`. -/
theorem pam_session_respond_after_result (data : Option String) (users : List User)
    (ps : PAMSession) (resp : String) :
    pam_session_respond none data users (notify_auth_complete_cb ps).1 resp =
      ((notify_auth_complete_cb ps).1, []) ∧
    (∀ q, ps.authentication_thread = true → ps.authentication_response_queue = some q →
      pam_session_respond none data users ps resp =
        ({ ps with authentication_response_queue := some (q ++ [QueueItem.response resp]) },
          [])) ∧
    (∀ file, ∃ e, (pam_session_respond (some file) data users ps resp).2 = [e] ∧
      (is_authentication_result e = true ∨ is_got_messages e = true)) ∧
    (∀ file username, ps.username = some username →
      (pam_session_respond (some file) data users ps resp).2 =
        [PamEffect.emit_authentication_result
          (if (user_get_by_name users (some username)).isSome ∧
              get_password data username = some resp
            then PAM_SUCCESS else PAM_AUTH_ERR)]) := by
  refine ⟨?_, ?_, ?_, ?_⟩
  · have hthread : (notify_auth_complete_cb ps).1.authentication_thread = false := by
      unfold notify_auth_complete_cb pam_session_end
      by_cases hs : ps.stop = true <;> by_cases hi : ps.in_session = true <;> simp [hs, hi]
    simp [pam_session_respond, hthread]
  · intro q ht hq
    simp [pam_session_respond, ht, hq]
  · intro file
    cases hu : ps.username with
    | some username =>
      exact ⟨_, pam_session_respond_known_user file data users ps username resp hu,
        Or.inl rfl⟩
    | none =>
      unfold pam_session_respond send_message
      cases hm : ps.messages <;> simp [hu] <;> split <;> simp [is_authentication_result, is_got_messages]
  · intro file username hu
    exact pam_session_respond_known_user file data users ps username resp hu

/-- C14, counterexample: in passwd-file mode the session that emitted
`authentication-result` (PAM_AUTH_ERR, after a wrong answer) accepts a further respond and
emits a second `authentication-result`, now PAM_SUCCESS. -/
theorem pam_session_respond_after_result_counterexample :
    (pam_session_respond (some "/etc/lightdm/passwd") login_host.passwd_data login_host.users
        prompted_session "wrong").2 = [PamEffect.emit_authentication_result PAM_AUTH_ERR] ∧
    (pam_session_respond (some "/etc/lightdm/passwd") login_host.passwd_data login_host.users
        rejected_session "secret").2 = [PamEffect.emit_authentication_result PAM_SUCCESS] := by
  constructor <;> decide

/-- C20: for a remote X server that is not running, `xserver_start` changes neither the pid
(it stays 0) nor the server table and spawns nothing: its only effects are the optional
authorization file, the connection test and, when the test succeeds, one `ready` emission.
It returns the result of the test; on success `ready` is set, on failure `ready` is
unchanged and `ready` is not emitted. -/
theorem xserver_start_remote_tests_connection (x : XState) (i : Nat) (os : XStartOS)
    (server : XServer) (hx : x.xservers[i]? = some server)
    (htype : server.type = XServerType.XSERVER_TYPE_REMOTE) (hpid : server.pid = 0) :
    (xserver_start x i os).1 = os.connect_ok ∧
    (xserver_start x i os).2.servers = x.servers ∧
    (∃ s, (xserver_start x i os).2.xservers[i]? = some s ∧ s.pid = 0 ∧
      s.ready = (os.connect_ok || server.ready)) ∧
    (∀ j, j ≠ i → (xserver_start x i os).2.xservers[j]? = x.xservers[j]?) ∧
    (xserver_start x i os).2.effects =
      x.effects ++ (if server.authorization then [XEffect.xauth_write i] else []) ++
        [XEffect.xcb_connect (xserver_get_address server).1] ++
        (if os.connect_ok then [XEffect.emit_ready i] else []) ∧
    ready_emissions (xserver_start x i os).2.effects i =
      ready_emissions x.effects i + (if os.connect_ok then 1 else 0) := by
  have hlt : i < x.xservers.length := lt_length_of_lookup hx
  have haddr : (xserver_connect server i os).2.2 =
      (if server.authorization then [XEffect.xauth_write i] else []) ++
        [XEffect.xcb_connect (xserver_get_address server).1] := by
    unfold xserver_connect xserver_get_address
    cases ha : server.authorization <;> cases hadr : server.address <;> simp [ha, hadr]
  have hcpid : (xserver_connect server i os).2.1.pid = 0 := by
    unfold xserver_connect xserver_get_address
    cases ha : server.authorization <;> cases hadr : server.address <;> simp [ha, hadr, hpid]
  have hcready : (xserver_connect server i os).2.1.ready = server.ready := by
    unfold xserver_connect xserver_get_address
    cases ha : server.authorization <;> cases hadr : server.address <;> simp [ha, hadr]
  have hc1 : (xserver_connect server i os).1 = os.connect_ok := rfl
  have hne : ∀ e ∈ (xserver_connect server i os).2.2, e ≠ XEffect.emit_ready i := by
    intro e he
    rw [haddr] at he
    cases ha : server.authorization <;> simp [ha] at he <;> aesop
  have hcount : List.count (XEffect.emit_ready i) (xserver_connect server i os).2.2 = 0 :=
    List.count_eq_zero.mpr (fun hmem => hne _ hmem rfl)
  have hpid0 : ¬ server.pid ≠ 0 := by simp [hpid]
  cases hc : os.connect_ok
  · have hstart : xserver_start x i os =
        (false, { x with xservers := x.xservers.set i (xserver_connect server i os).2.1,
                         effects := x.effects ++ (xserver_connect server i os).2.2 }) := by
      simp [xserver_start, hx, htype, hpid, hc1, hc]
    rw [hstart]
    refine ⟨rfl, rfl, ⟨_, List.getElem?_set_self hlt, hcpid, by simp [hcready]⟩, ?_, ?_, ?_⟩
    · intro j hj
      exact List.getElem?_set_ne (Ne.symm hj)
    · simp [haddr]
    · simp [ready_emissions, List.count_append, hcount]
  · have hstart : xserver_start x i os =
        (true, { x with xservers :=
                          x.xservers.set i { (xserver_connect server i os).2.1 with ready := true },
                        effects := x.effects ++ (xserver_connect server i os).2.2 ++
                          [XEffect.emit_ready i] }) := by
      simp [xserver_start, hx, htype, hpid, hc1, hc]
    rw [hstart]
    refine ⟨rfl, rfl, ⟨_, List.getElem?_set_self hlt, hcpid, by simp⟩, ?_, ?_, ?_⟩
    · intro j hj
      exact List.getElem?_set_ne (Ne.symm hj)
    · simp [haddr]
    · simp [ready_emissions, List.count_append, hcount]

theorem xserver_start_remote_tests_connection_witness :
    remote_xstate.xservers[0]? = some remote_server ∧
    (xserver_start remote_xstate 0 ⟨true, true, true, none⟩).1 = true ∧
    (xserver_start remote_xstate 0 ⟨true, true, true, none⟩).2.servers = [] ∧
    (xserver_start remote_xstate 0 ⟨true, false, true, none⟩).1 = false :=
  ⟨by decide,
    (xserver_start_remote_tests_connection remote_xstate 0 ⟨true, true, true, none⟩ remote_server
      (by decide) (by decide) (by decide)).1,
    (xserver_start_remote_tests_connection remote_xstate 0 ⟨true, true, true, none⟩ remote_server
      (by decide) (by decide) (by decide)).2.1,
    by decide⟩

theorem call_pam_session_end_pam_sessions (w : World) (session : Option Nat) :
    (call_pam_session_end w session).pam_sessions = pam_sessions_after_end w session := by
  unfold call_pam_session_end pam_sessions_after_end pam_update
  cases session with
  | none => rfl
  | some i => cases hq : w.pam_sessions[i]? <;> simp [hq]

theorem call_pam_session_end_xservers (w : World) (session : Option Nat) :
    (call_pam_session_end w session).xservers = w.xservers := by
  unfold call_pam_session_end pam_update
  cases session with
  | none => rfl
  | some i => cases hq : w.pam_sessions[i]? <;> simp [hq]

theorem end_ck_session_xservers (w : World) (cookie : Option String) :
    (end_ck_session w cookie).xservers = w.xservers := by
  cases cookie <;> rfl

theorem end_ck_session_pam_sessions (w : World) (cookie : Option String) :
    (end_ck_session w cookie).pam_sessions = w.pam_sessions := by
  cases cookie <;> rfl

theorem display_disconnect_clients_display (w : World) :
    (display_disconnect_clients w).display = w.display := by
  unfold display_disconnect_clients
  cases w.display.xserver with
  | none => rfl
  | some x => cases hq : w.xservers[x]? <;> simp [hq]

theorem display_disconnect_clients_pam_sessions (w : World) :
    (display_disconnect_clients w).pam_sessions = w.pam_sessions := by
  unfold display_disconnect_clients
  cases w.display.xserver with
  | none => rfl
  | some x => cases hq : w.xservers[x]? <;> simp [hq]

theorem display_disconnect_clients_supervisor (w : World) :
    (display_disconnect_clients w).supervisor = w.supervisor := by
  unfold display_disconnect_clients
  cases w.display.xserver with
  | none => rfl
  | some x => cases hq : w.xservers[x]? <;> simp [hq]

theorem display_disconnect_clients_events (w : World) :
    (display_disconnect_clients w).events = w.events ++ disconnect_events w := by
  unfold display_disconnect_clients disconnect_events xserver_disconnect_clients
  cases hx : w.display.xserver with
  | none => simp
  | some x =>
    cases hq : w.xservers[x]? with
    | none => simp [hq]
    | some server => by_cases hp : server.pid = 0 <;> simp [hq, hp]

theorem display_disconnect_clients_xservers (w : World) (x : Nat) (server : XServer)
    (hx : w.display.xserver = some x) (hq : w.xservers[x]? = some server) :
    (display_disconnect_clients w).xservers = w.xservers.set x { server with ready := false } := by
  simp [display_disconnect_clients, xserver_disconnect_clients, hx, hq]

/-- What `end_user_session` does, with the PAM part read through `pam_session_end`. -/
theorem end_user_session_summary (w : World) (clean_exit : Bool) (status signum : Int) :
    user_session_exited_cb w status = end_user_session w clean_exit ∧
    user_session_terminated_cb w signum = end_user_session w clean_exit ∧
    (end_user_session w clean_exit).display =
      { w.display with user_session := none, user_session_timer := 0,
                       user_pam_session := none, user_ck_cookie := none } ∧
    (end_user_session w clean_exit).events =
      w.events ++ [Event.emit_end_session (w.display.user_session.map (fun s => s.process))] ++
        (if w.display.user_session_timer ≠ 0 then
          [Event.source_remove w.display.user_session_timer] else []) ++
        pam_end_events w w.display.user_pam_session ++
        ck_close_events w.display.user_ck_cookie ++ disconnect_events w ∧
    (end_user_session w clean_exit).pam_sessions =
      pam_sessions_after_end w w.display.user_pam_session ∧
    (end_user_session w clean_exit).supervisor = w.supervisor ∧
    (∀ x server, w.display.xserver = some x → w.xservers[x]? = some server →
      (end_user_session w clean_exit).xservers = w.xservers.set x { server with ready := false } ∧
      disconnect_events w = if server.pid ≠ 0 then [Event.kill server.pid SIGHUP] else []) := by
  refine ⟨rfl, rfl, ?_, ?_, ?_, ?_, ?_⟩
  · unfold end_user_session
    simp only [display_disconnect_clients_display, end_ck_session_display,
      call_pam_session_end_display]
    by_cases ht : w.display.user_session_timer = 0 <;> simp [ht]
  · unfold end_user_session
    simp only [display_disconnect_clients_events, end_ck_session_events,
      call_pam_session_end_events, call_pam_session_end_display]
    by_cases ht : w.display.user_session_timer = 0 <;>
      simp [ht, disconnect_events, pam_end_events, call_pam_session_end_xservers,
        end_ck_session_xservers, call_pam_session_end_display, end_ck_session_display]
  · unfold end_user_session
    simp only [display_disconnect_clients_pam_sessions, end_ck_session_pam_sessions,
      call_pam_session_end_pam_sessions]
    by_cases ht : w.display.user_session_timer = 0 <;> simp [ht, pam_sessions_after_end]
  · unfold end_user_session
    simp only [display_disconnect_clients_supervisor, end_ck_session_supervisor,
      call_pam_session_end_supervisor]
    by_cases ht : w.display.user_session_timer = 0 <;> simp [ht]
  · intro x server hx hq
    constructor
    · unfold end_user_session
      rw [display_disconnect_clients_xservers _ x server]
      · simp only [end_ck_session_xservers, call_pam_session_end_xservers]
        by_cases ht : w.display.user_session_timer = 0 <;> simp [ht]
      · simp only [end_ck_session_display, call_pam_session_end_display]
        by_cases ht : w.display.user_session_timer = 0 <;> simp [ht, hx]
      · simp only [end_ck_session_xservers, call_pam_session_end_xservers]
        by_cases ht : w.display.user_session_timer = 0 <;> simp [ht, hq]
    · simp [disconnect_events, hx, hq]

/-- C17: `end_user_session`, run by `user_session_exited_cb` for every exit status and by
`user_session_terminated_cb` for every signal, emits `end-session`, removes the guard timer
when one is pending, ends the user PAM session, closes the user tracking record and, when
the Display has an X server, calls `xserver_disconnect_clients` on it (the server is marked
not ready and its process is sent SIGHUP); afterwards the Display holds no user session, no
user PAM session, no user tracking cookie and no guard timer.  Ending the PAM session of a
running user session (in session, no authentication thread) is `pam_close_session`, then
`pam_setcred` with PAM_DELETE_CRED, then the signal `ended`, and leaves the PAM session out
of session; a PAM session that is neither in session nor authenticating is left as it is,
and one that is still authenticating is told to stop and sent the abort token. -/
theorem end_user_session_releases (w : World) (clean_exit : Bool) (status signum : Int) :
    user_session_exited_cb w status = end_user_session w clean_exit ∧
    user_session_terminated_cb w signum = end_user_session w clean_exit ∧
    (end_user_session w clean_exit).display =
      { w.display with user_session := none, user_session_timer := 0,
                       user_pam_session := none, user_ck_cookie := none } ∧
    (end_user_session w clean_exit).events =
      w.events ++ [Event.emit_end_session (w.display.user_session.map (fun s => s.process))] ++
        (if w.display.user_session_timer ≠ 0 then
          [Event.source_remove w.display.user_session_timer] else []) ++
        pam_end_events w w.display.user_pam_session ++
        ck_close_events w.display.user_ck_cookie ++ disconnect_events w ∧
    (end_user_session w clean_exit).pam_sessions =
      pam_sessions_after_end w w.display.user_pam_session ∧
    (end_user_session w clean_exit).supervisor = w.supervisor ∧
    (∀ x server, w.display.xserver = some x → w.xservers[x]? = some server →
      (end_user_session w clean_exit).xservers = w.xservers.set x { server with ready := false } ∧
      disconnect_events w = if server.pid ≠ 0 then [Event.kill server.pid SIGHUP] else []) ∧
    (∀ i ps, w.display.user_pam_session = some i → w.pam_sessions[i]? = some ps →
      (ps.authentication_thread = false → ps.in_session = true →
        (end_user_session w clean_exit).events =
          w.events ++
            [Event.emit_end_session (w.display.user_session.map (fun s => s.process))] ++
            (if w.display.user_session_timer ≠ 0 then
              [Event.source_remove w.display.user_session_timer] else []) ++
            [Event.pam i PamEffect.pam_close_session, Event.pam i PamEffect.pam_setcred_delete,
             Event.pam i PamEffect.emit_ended] ++
            ck_close_events w.display.user_ck_cookie ++ disconnect_events w ∧
        (end_user_session w clean_exit).pam_sessions =
          w.pam_sessions.set i { ps with in_session := false } ∧
        ((end_user_session w clean_exit).pam_sessions[i]?).map (fun s => s.in_session) =
          some false) ∧
      (ps.authentication_thread = false → ps.in_session = false →
        (end_user_session w clean_exit).events =
          w.events ++
            [Event.emit_end_session (w.display.user_session.map (fun s => s.process))] ++
            (if w.display.user_session_timer ≠ 0 then
              [Event.source_remove w.display.user_session_timer] else []) ++
            ck_close_events w.display.user_ck_cookie ++ disconnect_events w ∧
        (end_user_session w clean_exit).pam_sessions = w.pam_sessions) ∧
      (ps.authentication_thread = true →
        (end_user_session w clean_exit).events =
          w.events ++
            [Event.emit_end_session (w.display.user_session.map (fun s => s.process))] ++
            (if w.display.user_session_timer ≠ 0 then
              [Event.source_remove w.display.user_session_timer] else []) ++
            ck_close_events w.display.user_ck_cookie ++ disconnect_events w ∧
        (end_user_session w clean_exit).pam_sessions =
          w.pam_sessions.set i
            { ps with stop := true
                      authentication_response_queue :=
                        ps.authentication_response_queue.map
                          (fun q => q ++ [QueueItem.aborted]) })) := by
  obtain ⟨h1, h2, h3, h4, h5, h6, h7⟩ :=
    end_user_session_summary w clean_exit status signum
  refine ⟨h1, h2, h3, h4, h5, h6, h7, ?_⟩
  intro i ps hptr hps
  have hlt : i < w.pam_sessions.length := lt_length_of_lookup hps
  refine ⟨?_, ?_, ?_⟩
  · intro hthread hin
    have hend : pam_session_end ps =
        ({ ps with in_session := false },
          [PamEffect.pam_close_session, PamEffect.pam_setcred_delete,
           PamEffect.emit_ended]) := by
      simp [pam_session_end, hthread, hin]
    have he : pam_end_events w w.display.user_pam_session =
        [Event.pam i PamEffect.pam_close_session, Event.pam i PamEffect.pam_setcred_delete,
         Event.pam i PamEffect.emit_ended] := by
      simp [pam_end_events, hptr, hps, hend]
    have hs : pam_sessions_after_end w w.display.user_pam_session =
        w.pam_sessions.set i { ps with in_session := false } := by
      simp [pam_sessions_after_end, hptr, hps, hend]
    refine ⟨by rw [h4, he], by rw [h5, hs], ?_⟩
    rw [h5, hs, List.getElem?_set_self hlt]
    rfl
  · intro hthread hin
    have hend : pam_session_end ps = (ps, []) := by
      simp [pam_session_end, hthread, hin]
    have he : pam_end_events w w.display.user_pam_session = [] := by
      simp [pam_end_events, hptr, hps, hend]
    have hs : pam_sessions_after_end w w.display.user_pam_session = w.pam_sessions := by
      simp only [pam_sessions_after_end, hptr, hps, hend]
      exact set_same_of_lookup _ _ _ hps
    refine ⟨by rw [h4, he, List.append_nil], by rw [h5, hs]⟩
  · intro hthread
    have hend : pam_session_end ps =
        ({ ps with stop := true
                   authentication_response_queue :=
                     ps.authentication_response_queue.map
                       (fun q => q ++ [QueueItem.aborted]) }, []) := by
      simp [pam_session_end, hthread]
    have he : pam_end_events w w.display.user_pam_session = [] := by
      simp [pam_end_events, hptr, hps, hend]
    have hs : pam_sessions_after_end w w.display.user_pam_session =
        w.pam_sessions.set i
          { ps with stop := true
                    authentication_response_queue :=
                      ps.authentication_response_queue.map
                        (fun q => q ++ [QueueItem.aborted]) } := by
      simp [pam_sessions_after_end, hptr, hps, hend]
    refine ⟨by rw [h4, he, List.append_nil], by rw [h5, hs]⟩

/-- C17, witness: when the user session of `session_world` is killed, `end-session` is
emitted, the guard timer 7 is removed, the user PAM session 1 is closed, its credentials
are deleted and `ended` is emitted, the tracking record `ck-user` is closed and the X
server 2000 is sent SIGHUP; afterwards the Display holds no user session, PAM session 1 is
out of session and the X server is not ready. -/
theorem end_user_session_releases_witness :
    (user_session_terminated_cb session_world 9).events =
      [Event.emit_end_session (some 1), Event.source_remove 7,
       Event.pam 1 PamEffect.pam_close_session, Event.pam 1 PamEffect.pam_setcred_delete,
       Event.pam 1 PamEffect.emit_ended, Event.ck_close_session "ck-user",
       Event.kill 2000 SIGHUP] ∧
    (user_session_terminated_cb session_world 9).display.user_session = none ∧
    (user_session_terminated_cb session_world 9).display.user_pam_session = none ∧
    (user_session_terminated_cb session_world 9).display.user_ck_cookie = none ∧
    (user_session_terminated_cb session_world 9).display.user_session_timer = 0 ∧
    ((user_session_terminated_cb session_world 9).pam_sessions[1]?).map
      (fun s => s.in_session) = some false ∧
    ((user_session_terminated_cb session_world 9).xservers[0]?).map (fun s => s.ready) =
      some false := by
  have hc := end_user_session_releases session_world false 0 9
  have hp := (hc.2.2.2.2.2.2.2 1
    { service := "lightdm", username := some "alice", in_session := true } rfl rfl).1 rfl rfl
  refine ⟨?_, ?_, ?_, ?_, ?_, ?_, ?_⟩
  · rw [hc.2.1, hp.1]; decide
  · rw [hc.2.1, hc.2.2.1]
  · rw [hc.2.1, hc.2.2.1]
  · rw [hc.2.1, hc.2.2.1]
  · rw [hc.2.1, hc.2.2.1]
  · rw [hc.2.1]; exact hp.2.2
  · rw [hc.2.1, (hc.2.2.2.2.2.2.1 0 { display_number := 0, pid := 2000, ready := true }
      rfl rfl).1]
    decide

theorem ready_of_set (x : XState) (j i : Nat) (s : XServer) (servers : List (Int × Nat))
    (fx : List XEffect) (hj : j < x.xservers.length) :
    ready_of { xservers := x.xservers.set j s, servers := servers, effects := fx } i =
      if i = j then s.ready else ready_of x i := by
  unfold ready_of
  by_cases h : i = j
  · subst h
    simp [List.getElem?_set_self hj]
  · simp [h, List.getElem?_set_ne (Ne.symm h)]

theorem type_of_set (x : XState) (j i : Nat) (s : XServer) (servers : List (Int × Nat))
    (fx : List XEffect) (old : XServer) (hold : x.xservers[j]? = some old)
    (htype : s.type = old.type) :
    type_of { xservers := x.xservers.set j s, servers := servers, effects := fx } i =
      type_of x i := by
  unfold type_of
  by_cases h : i = j
  · subst h
    simp [List.getElem?_set_self (lt_length_of_lookup hold), hold, htype]
  · simp [List.getElem?_set_ne (Ne.symm h)]

theorem emit_count_append (fx new : List XEffect) (i : Nat) :
    ready_emissions (fx ++ new) i = ready_emissions fx i + ready_emissions new i := by
  simp [ready_emissions, List.count_append]

theorem xserver_connect_type (server : XServer) (i : Nat) (os : XStartOS) :
    (xserver_connect server i os).2.1.type = server.type := by
  unfold xserver_connect xserver_get_address
  cases ha : server.authorization <;> cases hadr : server.address <;> simp [ha, hadr]

theorem xserver_connect_ready (server : XServer) (i : Nat) (os : XStartOS) :
    (xserver_connect server i os).2.1.ready = server.ready := by
  unfold xserver_connect xserver_get_address
  cases ha : server.authorization <;> cases hadr : server.address <;> simp [ha, hadr]

theorem xserver_connect_emits (server : XServer) (i j : Nat) (os : XStartOS) :
    ready_emissions (xserver_connect server i os).2.2 j = 0 := by
  unfold xserver_connect xserver_get_address ready_emissions
  cases ha : server.authorization <;> cases hadr : server.address <;> simp [ha, hadr]

theorem ready_of_lookup (x : XState) (i : Nat) (server : XServer)
    (h : x.xservers[i]? = some server) : ready_of x i = server.ready := by
  simp [ready_of, h]

theorem type_of_lookup (x : XState) (i : Nat) (server : XServer)
    (h : x.xservers[i]? = some server) : type_of x i = some server.type := by
  simp [type_of, h]

/-- What one operation does: nothing, or one server `j` is rewritten and effects are
appended, in one of four ways: the ready flag is kept and `ready` is not emitted; the flag
rises from FALSE and `ready` is emitted once for `j`; a remote server passes its connection
test, the flag is set and `ready` is emitted once for `j`; or the operation is
`xserver_disconnect_clients` on `j` and the flag is cleared with no emission. -/
theorem xserver_step_summary (x : XState) (op : XOp) :
    xserver_step x op = x ∨
    ∃ j server s1 servers1 new,
      x.xservers[j]? = some server ∧
      xserver_step x op =
        { xservers := x.xservers.set j s1, servers := servers1, effects := x.effects ++ new } ∧
      s1.type = server.type ∧
      ((s1.ready = server.ready ∧ ∀ i, ready_emissions new i = 0) ∨
       (server.ready = false ∧ s1.ready = true ∧
         ∀ i, ready_emissions new i = if i = j then 1 else 0) ∨
       (server.type = XServerType.XSERVER_TYPE_REMOTE ∧
         (∃ os, op = XOp.start j os ∧ os.connect_ok = true) ∧ s1.ready = true ∧
         ∀ i, ready_emissions new i = if i = j then 1 else 0) ∨
       (op = XOp.disconnect_clients j ∧ s1.ready = false ∧ ∀ i, ready_emissions new i = 0)) := by
  cases op with
  | start j os =>
    simp only [xserver_step]
    unfold xserver_start
    cases hq : x.xservers[j]? with
    | none => exact Or.inl rfl
    | some server =>
      simp only
      split
      · exact Or.inl rfl
      · split
        · rename_i htype
          split
          · exact Or.inr ⟨j, server, _, _, _, hq, rfl, xserver_connect_type server j os,
              Or.inl ⟨xserver_connect_ready server j os, fun i => xserver_connect_emits server j i os⟩⟩
          · rename_i hc
            refine Or.inr ⟨j, server, { (xserver_connect server j os).2.1 with ready := true },
              x.servers, (xserver_connect server j os).2.2 ++ [XEffect.emit_ready j], hq,
              by rw [List.append_assoc], xserver_connect_type server j os,
              Or.inr (Or.inr (Or.inl ⟨htype, ⟨os, rfl, ?_⟩, rfl, ?_⟩))⟩
            · simpa [xserver_connect] using hc
            · intro i
              rw [emit_count_append, xserver_connect_emits]
              by_cases hi : i = j
              · subst hi
                simp [ready_emissions]
              · have hji : ¬ j = i := fun h => hi h.symm
                simp [ready_emissions, hi, hji]
        · split
          · refine Or.inr ⟨j, server, _, _, _, hq, rfl, ?_, Or.inl ⟨?_, ?_⟩⟩
            · split <;> rfl
            · split <;> rfl
            · intro i
              split <;> simp [ready_emissions]
          · split
            · refine Or.inr ⟨j, server, _, _, _, hq, by rw [List.append_assoc], ?_, Or.inl ⟨?_, ?_⟩⟩
              · split <;> rfl
              · split <;> rfl
              · intro i
                simp only [emit_count_append]
                split <;> simp [ready_emissions]
            · refine Or.inr ⟨j, server, _, _, _, hq, by rw [List.append_assoc], ?_, Or.inl ⟨?_, ?_⟩⟩
              · split <;> rfl
              · split <;> rfl
              · intro i
                simp only [emit_count_append]
                split <;> simp [ready_emissions]
  | handle_signal pid =>
    simp only [xserver_step, xserver_handle_signal]
    cases hl : hash_lookup x.servers pid with
    | none => exact Or.inl rfl
    | some j =>
      cases hq : x.xservers[j]? with
      | none => exact Or.inl (by simp [hq])
      | some server =>
        by_cases hr : server.ready = true
        · exact Or.inl (by simp [hq, hr])
        · refine Or.inr ⟨j, server, { server with ready := true }, x.servers,
            [XEffect.emit_ready j], hq, by simp [hq, hr], rfl,
            Or.inr (Or.inl ⟨by simpa using hr, rfl, ?_⟩)⟩
          intro i
          by_cases hi : i = j
          · subst hi
            simp [ready_emissions]
          · have hji : ¬ j = i := fun h => hi h.symm
            simp [ready_emissions, hi, hji]
  | disconnect_clients j =>
    simp only [xserver_step, call_xserver_disconnect_clients]
    cases hq : x.xservers[j]? with
    | none => exact Or.inl rfl
    | some server =>
      refine Or.inr ⟨j, server, _, _, _, hq, rfl, rfl, Or.inr (Or.inr (Or.inr ⟨rfl, rfl, ?_⟩))⟩
      intro i
      simp only [xserver_disconnect_clients]
      split <;> simp [ready_emissions]
  | process_exit j status =>
    simp only [xserver_step, xserver_watch_cb]
    cases hq : x.xservers[j]? with
    | none => exact Or.inl rfl
    | some server =>
      refine Or.inr ⟨j, server, _, _, _, hq, rfl, rfl, Or.inl ⟨rfl, ?_⟩⟩
      intro i
      simp [ready_emissions]

theorem xserver_step_type (x : XState) (op : XOp) (i : Nat) :
    type_of (xserver_step x op) i = type_of x i := by
  rcases xserver_step_summary x op with h | ⟨j, server, s1, servers1, new, hq, hstep, htype, _⟩
  · rw [h]
  · rw [hstep]
    exact type_of_set x j i s1 servers1 _ server hq htype

theorem xserver_step_ready_mono (x : XState) (op : XOp) (i : Nat)
    (hop : op ≠ XOp.disconnect_clients i) (hr : ready_of x i = true) :
    ready_of (xserver_step x op) i = true := by
  rcases xserver_step_summary x op with h | ⟨j, server, s1, servers1, new, hq, hstep, htype, hcase⟩
  · rw [h]
    exact hr
  · rw [hstep, ready_of_set x j i s1 servers1 _ (lt_length_of_lookup hq)]
    by_cases hi : i = j
    · subst hi
      simp only [if_true]
      rw [ready_of_lookup x i server hq] at hr
      rcases hcase with ⟨h1, _⟩ | ⟨_, h1, _⟩ | ⟨_, _, h1, _⟩ | ⟨h1, _⟩
      · rw [h1, hr]
      · exact h1
      · exact h1
      · exact absurd h1 hop
    · simp only [hi, if_false]
      exact hr

theorem disconnect_calls_cons (op : XOp) (ops : List XOp) (i : Nat) :
    disconnect_calls (op :: ops) i = disconnect_calls [op] i + disconnect_calls ops i := by
  unfold disconnect_calls
  rw [List.countP_cons, List.countP_cons, List.countP_nil]
  omega

theorem connect_calls_cons (op : XOp) (ops : List XOp) (i : Nat) :
    connect_calls (op :: ops) i = connect_calls [op] i + connect_calls ops i := by
  unfold connect_calls
  rw [List.countP_cons, List.countP_cons, List.countP_nil]
  omega

theorem xserver_step_budget (x : XState) (op : XOp) (i : Nat) :
    ready_budget (xserver_step x op) i ≤
      ready_budget x i + disconnect_calls [op] i + connect_calls [op] i ∧
    (type_of x i ≠ some XServerType.XSERVER_TYPE_REMOTE →
      ready_budget (xserver_step x op) i ≤ ready_budget x i + disconnect_calls [op] i) := by
  rcases xserver_step_summary x op with h | ⟨j, server, s1, servers1, new, hq, hstep, htype, hcase⟩
  · rw [h]
    exact ⟨by omega, fun _ => by omega⟩
  · rw [hstep]
    unfold ready_budget
    rw [ready_of_set x j i s1 servers1 _ (lt_length_of_lookup hq)]
    simp only [emit_count_append]
    by_cases hi : i = j
    · subst hi
      simp only [if_true]
      rw [ready_of_lookup x i server hq, type_of_lookup x i server hq]
      rcases hcase with ⟨h1, h2⟩ | ⟨h0, h1, h2⟩ | ⟨h0, ⟨os, hop, hos⟩, h1, h2⟩ | ⟨hop, h1, h2⟩
      · rw [h1, h2]
        exact ⟨by omega, fun _ => by omega⟩
      · rw [h0, h1, h2]
        simp only [if_true, Bool.false_eq_true, if_false]
        exact ⟨by omega, fun _ => by omega⟩
      · rw [h1, h2, hop]
        refine ⟨?_, fun hne => absurd (congrArg some h0) hne⟩
        cases hr : server.ready <;> simp [connect_calls, disconnect_calls, hos]
      · rw [h1, h2, hop]
        cases hr : server.ready <;> simp [connect_calls, disconnect_calls]
    · simp only [hi, if_false]
      have hnew : ready_emissions new i = 0 := by
        rcases hcase with ⟨_, h2⟩ | ⟨_, _, h2⟩ | ⟨_, _, _, h2⟩ | ⟨_, _, h2⟩
        · exact h2 i
        · simpa [hi] using h2 i
        · simpa [hi] using h2 i
        · exact h2 i
      rw [hnew]
      exact ⟨by omega, fun _ => by omega⟩

theorem xserver_run_type (ops : List XOp) (x : XState) (i : Nat) :
    type_of (xserver_run x ops) i = type_of x i := by
  induction ops generalizing x with
  | nil => rfl
  | cons op ops ih =>
    simp only [xserver_run]
    rw [ih, xserver_step_type]

theorem xserver_run_budget (ops : List XOp) (x : XState) (i : Nat) :
    ready_budget (xserver_run x ops) i ≤
      ready_budget x i + disconnect_calls ops i + connect_calls ops i := by
  induction ops generalizing x with
  | nil => simp only [xserver_run]; omega
  | cons op ops ih =>
    simp only [xserver_run]
    have h1 := ih (xserver_step x op)
    have h2 := (xserver_step_budget x op i).1
    rw [disconnect_calls_cons, connect_calls_cons]
    omega

theorem xserver_run_budget_local (ops : List XOp) (x : XState) (i : Nat)
    (hlocal : type_of x i ≠ some XServerType.XSERVER_TYPE_REMOTE) :
    ready_budget (xserver_run x ops) i ≤ ready_budget x i + disconnect_calls ops i := by
  induction ops generalizing x with
  | nil => simp only [xserver_run]; omega
  | cons op ops ih =>
    simp only [xserver_run]
    have h1 := ih (xserver_step x op) (by rw [xserver_step_type]; exact hlocal)
    have h2 := (xserver_step_budget x op i).2 hlocal
    rw [disconnect_calls_cons]
    omega

/-- C19: the ready flag of a server rises from FALSE to TRUE under `xserver_start`,
`xserver_handle_signal` and process exit and is never cleared by them, but
`xserver_disconnect_clients` clears it, after which the next ready signal emits `ready`
again.  For a local or local-terminal server, over every sequence of operations the number
of `ready` emissions (plus one while the server is not ready) grows by at most the number of
`xserver_disconnect_clients` calls on that server: a server that starts not ready emits
`ready` at most once more than it was told to disconnect its clients. -/
theorem xserver_ready_emissions_bound (x : XState) (i : Nat) (server : XServer)
    (hx : x.xservers[i]? = some server)
    (htype : server.type ≠ XServerType.XSERVER_TYPE_REMOTE) :
    (∀ op, op ≠ XOp.disconnect_clients i → ready_of x i = true →
      ready_of (xserver_step x op) i = true) ∧
    ready_of (xserver_step x (XOp.disconnect_clients i)) i = false ∧
    (∀ ops, ready_budget (xserver_run x ops) i ≤ ready_budget x i + disconnect_calls ops i) ∧
    (∀ ops, server.ready = false →
      ready_emissions (xserver_run x ops).effects i ≤
        ready_emissions x.effects i + 1 + disconnect_calls ops i) := by
  have hlocal : type_of x i ≠ some XServerType.XSERVER_TYPE_REMOTE := by
    rw [type_of_lookup x i server hx]
    exact fun h => htype (Option.some.inj h)
  refine ⟨fun op hop hr => xserver_step_ready_mono x op i hop hr, ?_,
    fun ops => xserver_run_budget_local ops x i hlocal, ?_⟩
  · simp only [xserver_step, call_xserver_disconnect_clients, hx]
    rw [ready_of_set x i i _ _ _ (lt_length_of_lookup hx)]
    simp [xserver_disconnect_clients]
  · intro ops hr
    have h := xserver_run_budget_local ops x i hlocal
    unfold ready_budget at h
    rw [ready_of_lookup x i server hx, hr] at h
    simp only [Bool.false_eq_true, if_false] at h
    omega

theorem xserver_ready_emissions_bound_witness :
    local_xstate.xservers[0]? = some { command := some "X", display_number := 0 } ∧
    ready_emissions
      (xserver_run local_xstate
        [XOp.start 0 spawn_os, XOp.handle_signal 2000, XOp.handle_signal 2000,
          XOp.process_exit 0 (WaitStatus.exited 0)]).effects 0 ≤ 1 :=
  ⟨by decide,
    (xserver_ready_emissions_bound local_xstate 0 { command := some "X", display_number := 0 }
      (by decide) (by decide)).2.2.2
      [XOp.start 0 spawn_os, XOp.handle_signal 2000, XOp.handle_signal 2000,
        XOp.process_exit 0 (WaitStatus.exited 0)] (by decide)⟩

/-- C19, counterexample: a local server is started and signals ready (the flag is TRUE and
`ready` was emitted once); `xserver_disconnect_clients` resets the flag to FALSE; the next
ready signal of the same process emits `ready` a second time. -/
theorem xserver_ready_reset_counterexample :
    ready_of (xserver_run local_xstate [XOp.start 0 spawn_os, XOp.handle_signal 2000]) 0 =
      true ∧
    ready_of (xserver_run local_xstate
      [XOp.start 0 spawn_os, XOp.handle_signal 2000, XOp.disconnect_clients 0]) 0 = false ∧
    ready_emissions (xserver_run local_xstate
      [XOp.start 0 spawn_os, XOp.handle_signal 2000, XOp.disconnect_clients 0,
        XOp.handle_signal 2000]).effects 0 = 2 := by
  refine ⟨?_, ?_, ?_⟩ <;> decide

theorem idle_runtime_consistent (passwd_file : Option String) (rt : PamRuntime)
    (h : idle_runtime rt) : worker_consistent passwd_file rt := by
  obtain ⟨h1, h2, h3⟩ := h
  refine ⟨by simp [h1, h2], fun _ => h3, fun _ => h2, ?_, ?_⟩
  · intro hf
    rw [h2] at hf
    cases hf
  · intro _
    simp [h3]

theorem pam_session_start_thread (passwd_file passwd_data : Option String) (ps : PAMSession)
    (thread_ok : Bool) :
    (pam_session_start passwd_file passwd_data ps thread_ok).2.1.authentication_thread =
      (ps.authentication_thread || (passwd_file.isNone && thread_ok)) := by
  unfold pam_session_start send_message
  cases ht : ps.authentication_thread
  · cases passwd_file with
    | none => simp
    | some f =>
      cases hu : ps.username with
      | none => simp [ht]
      | some u => simp only [Bool.false_eq_true, if_false]; split <;> simp [ht]
  · simp [ht]

theorem pam_session_start_no_result (passwd_data : Option String) (ps : PAMSession)
    (thread_ok : Bool) :
    (pam_session_start none passwd_data ps thread_ok).2.2.any is_authentication_result =
      false := by
  unfold pam_session_start
  cases ht : ps.authentication_thread <;> simp [is_authentication_result]

theorem pam_session_respond_thread (passwd_file passwd_data : Option String)
    (users : List User) (ps : PAMSession) (resp : String) :
    (pam_session_respond passwd_file passwd_data users ps resp).1.authentication_thread =
      ps.authentication_thread := by
  unfold pam_session_respond send_message
  cases passwd_file with
  | none => cases ht : ps.authentication_thread <;> simp [ht]
  | some f =>
    cases hm : ps.messages <;> cases hu : ps.username <;> simp [hu] <;> split <;> simp

theorem pam_session_cancel_thread (passwd_file : Option String) (ps : PAMSession) :
    (pam_session_cancel passwd_file ps).1.authentication_thread = ps.authentication_thread := by
  unfold pam_session_cancel
  cases passwd_file with
  | none => rfl
  | some f => cases ht : ps.authentication_thread <;> simp [ht]

theorem pam_conv_cb_resume_thread (ps : PAMSession) (r : PAMSession × Int × Option String)
    (h : pam_conv_cb_resume ps = some r) :
    r.1.authentication_thread = ps.authentication_thread := by
  unfold pam_conv_cb_resume at h
  split at h
  · simp only at h
    split at h <;> simp at h <;> rw [← h]
  · cases h

theorem notify_auth_complete_cb_thread (ps : PAMSession) :
    (notify_auth_complete_cb ps).1.authentication_thread = false := by
  unfold notify_auth_complete_cb pam_session_end
  by_cases hs : ps.stop = true <;> by_cases hi : ps.in_session = true <;> simp [hs, hi]

theorem all_messages_iff (idle : List IdleCallback) :
    idle = List.replicate idle.length IdleCallback.notify_messages_cb ↔
      ∀ c ∈ idle, c = IdleCallback.notify_messages_cb := by
  rw [List.eq_replicate_iff]
  simp

theorem messages_then_complete_iff (idle : List IdleCallback) :
    idle = List.replicate (idle.length - 1) IdleCallback.notify_messages_cb ++
        [IdleCallback.notify_auth_complete_cb] ↔
      ∃ k, idle = List.replicate k IdleCallback.notify_messages_cb ++
        [IdleCallback.notify_auth_complete_cb] := by
  constructor
  · intro h
    exact ⟨_, h⟩
  · rintro ⟨k, hk⟩
    have hl : idle.length - 1 = k := by
      rw [hk]
      simp
    rw [hl]
    exact hk

theorem worker_thread_set (passwd_file : Option String) (rt : PamRuntime)
    (h : worker_consistent passwd_file rt) (hw : rt.worker ≠ Worker.absent) :
    rt.session.authentication_thread = true ∧ passwd_file = none := by
  obtain ⟨habs, hidle, hpf, hfin, hmsg⟩ := h
  constructor
  · cases hc : rt.session.authentication_thread
    · exact absurd (habs.mpr hc) hw
    · rfl
  · cases hp : passwd_file with
    | none => rfl
    | some f => exact absurd (hpf (by simp [hp])) hw

theorem pam_step_consistent (passwd_file passwd_data : Option String) (users : List User)
    (rt : PamRuntime) (op : PamOp) (h : worker_consistent passwd_file rt) :
    worker_consistent passwd_file (pam_step passwd_file passwd_data users rt op) := by
  have h0 := h
  obtain ⟨habs, hidle, hpf, hfin, hmsg⟩ := h
  cases op with
  | start thread_ok =>
    have ht := pam_session_start_thread passwd_file passwd_data rt.session thread_ok
    simp only [pam_step]
    cases hthr : rt.session.authentication_thread
    · have hw : rt.worker = Worker.absent := habs.mpr hthr
      have hi : rt.idle = [] := hidle hw
      rw [hthr] at ht
      cases hnew : (pam_session_start passwd_file passwd_data rt.session
          thread_ok).2.1.authentication_thread
      · simp only [Bool.false_and, Bool.false_eq_true, if_false]
        refine ⟨?_, ?_, ?_, ?_, ?_⟩
        · simp [hw, hnew]
        · intro _; exact hi
        · intro _; exact hw
        · intro hf; simp [hw] at hf
        · intro _; simp [hi]
      · simp only [Bool.not_false, Bool.and_self, if_true]
        refine ⟨?_, ?_, ?_, ?_, ?_⟩
        · simp [hnew]
        · intro hc; simp at hc
        · intro hsome
          rw [hnew] at ht
          cases passwd_file <;> simp at hsome ht
        · intro hc; simp at hc
        · intro _; simp [hi]
    · rw [hthr] at ht
      simp only [Bool.true_or] at ht
      simp only [ht, Bool.not_true, Bool.and_false, Bool.false_eq_true, if_false]
      refine ⟨?_, hidle, hpf, hfin, hmsg⟩
      simp only [ht]
      rw [hthr] at habs
      exact habs
  | respond resp =>
    simp only [pam_step]
    refine ⟨?_, hidle, hpf, hfin, hmsg⟩
    simp only [pam_session_respond_thread]
    exact habs
  | cancel =>
    simp only [pam_step]
    refine ⟨?_, hidle, hpf, hfin, hmsg⟩
    simp only [pam_session_cancel_thread]
    exact habs
  | worker_begin handle =>
    simp only [pam_step]
    split
    · rename_i hw
      have hthr := (worker_thread_set passwd_file rt h0 (by simp [hw])).1
      have hnone := (worker_thread_set passwd_file rt h0 (by simp [hw])).2
      refine ⟨?_, ?_, ?_, ?_, ?_⟩
      · simp [authenticate_cb_begin, hthr]
      · intro hc; simp at hc
      · intro hsome; simp [hnone] at hsome
      · intro hc; simp at hc
      · intro _; exact hmsg (by simp [hw])
    · exact h0
  | worker_converse msg =>
    simp only [pam_step]
    split
    · rename_i hw
      have hthr := (worker_thread_set passwd_file rt h0 (by simp [hw])).1
      have hnone := (worker_thread_set passwd_file rt h0 (by simp [hw])).2
      refine ⟨?_, ?_, ?_, ?_, ?_⟩
      · simp [pam_conv_cb_publish, hthr]
      · intro hc; simp at hc
      · intro hsome; simp [hnone] at hsome
      · intro hc; simp at hc
      · intro _
        have hm := (all_messages_iff rt.idle).mp (hmsg (by simp [hw]))
        rw [all_messages_iff]
        intro c hc
        rcases List.mem_append.mp hc with hc | hc
        · exact hm c hc
        · simpa using hc
    · exact h0
  | worker_resume =>
    simp only [pam_step]
    split
    · rename_i hw
      have hthr := (worker_thread_set passwd_file rt h0 (by simp [hw])).1
      have hnone := (worker_thread_set passwd_file rt h0 (by simp [hw])).2
      cases hr : pam_conv_cb_resume rt.session with
      | none => exact h0
      | some r =>
        simp only
        refine ⟨?_, ?_, ?_, ?_, ?_⟩
        · simp [pam_conv_cb_resume_thread rt.session r hr, hthr]
        · intro hc; simp at hc
        · intro hsome; simp [hnone] at hsome
        · intro hc; simp at hc
        · intro _; exact hmsg (by simp [hw])
    · exact h0
  | worker_finish result =>
    simp only [pam_step]
    split
    · rename_i hw
      have hthr := (worker_thread_set passwd_file rt h0 (by simp [hw])).1
      have hnone := (worker_thread_set passwd_file rt h0 (by simp [hw])).2
      refine ⟨?_, ?_, ?_, ?_, ?_⟩
      · simp [authenticate_cb_finish, hthr]
      · intro hc; simp at hc
      · intro hsome; simp [hnone] at hsome
      · intro _
        rw [messages_then_complete_iff]
        exact ⟨rt.idle.length, by rw [← hmsg (by simp [hw])]⟩
      · intro hc; simp at hc
    · exact h0
  | dispatch_idle =>
    simp only [pam_step]
    cases hq : rt.idle with
    | nil =>
      simp only
      exact h0
    | cons c rest =>
      have hne : rt.worker ≠ Worker.absent := by
        intro hw
        have := hidle hw
        rw [hq] at this
        cases this
      cases c with
      | notify_messages_cb =>
        simp only [notify_messages_cb]
        refine ⟨habs, fun hw => absurd hw hne, hpf, ?_, ?_⟩
        · intro hf
          obtain ⟨k, hk⟩ := (messages_then_complete_iff rt.idle).mp (hfin hf)
          rw [hq] at hk
          rw [messages_then_complete_iff]
          cases k with
          | zero => simp at hk
          | succ k =>
            rw [List.replicate_succ, List.cons_append] at hk
            exact ⟨k, (List.cons.inj hk).2⟩
        · intro hf
          have hm := (all_messages_iff rt.idle).mp (hmsg hf)
          rw [all_messages_iff]
          intro c hc
          exact hm c (by rw [hq]; exact List.mem_cons_of_mem _ hc)
      | notify_auth_complete_cb =>
        have hf : rt.worker = Worker.finished := by
          by_contra hnf
          have hm := (all_messages_iff rt.idle).mp (hmsg hnf)
          have := hm IdleCallback.notify_auth_complete_cb (by rw [hq]; exact List.mem_cons_self _ _)
          cases this
        obtain ⟨k, hk⟩ := (messages_then_complete_iff rt.idle).mp (hfin hf)
        rw [hq] at hk
        have hrest : rest = [] := by
          cases k with
          | zero => simpa using hk
          | succ k =>
            rw [List.replicate_succ, List.cons_append] at hk
            cases (List.cons.inj hk).1
        refine ⟨?_, ?_, ?_, ?_, ?_⟩
        · simp [notify_auth_complete_cb_thread]
        · intro _; exact hrest
        · intro _; rfl
        · intro hc; simp at hc
        · intro _; simp [hrest]

theorem pam_run_consistent (passwd_file passwd_data : Option String) (users : List User)
    (ops : List PamOp) (rt : PamRuntime) (h : worker_consistent passwd_file rt) :
    worker_consistent passwd_file (pam_run passwd_file passwd_data users rt ops) := by
  induction ops generalizing rt with
  | nil => exact h
  | cons op ops ih =>
    simp only [pam_run]
    exact ih _ (pam_step_consistent passwd_file passwd_data users rt op h)

theorem pam_step_no_overtake (passwd_file passwd_data : Option String) (users : List User)
    (rt : PamRuntime) (op : PamOp) (h : worker_consistent passwd_file rt)
    (hop : passwd_file.isSome ∨ op ≠ PamOp.cancel) :
    result_overtakes_messages passwd_file passwd_data users rt op = false := by
  have h1 := pam_step_consistent passwd_file passwd_data users rt op h
  cases passwd_file with
  | some f =>
    have hw := h1.2.2.1 (by simp)
    have hi := h1.2.1 hw
    unfold result_overtakes_messages
    rw [hi]
    simp
  | none =>
    have hop1 : op ≠ PamOp.cancel := by
      rcases hop with hop | hop
      · simp at hop
      · exact hop
    unfold result_overtakes_messages
    cases op with
    | start thread_ok =>
      simp only [pam_step, List.drop_left, pam_session_start_no_result, Bool.false_and]
    | respond resp =>
      simp only [pam_step, List.drop_left, pam_session_respond]
      split <;> simp
    | cancel => exact absurd rfl hop1
    | worker_begin handle =>
      simp only [pam_step]
      split <;> simp
    | worker_converse msg =>
      simp only [pam_step]
      split <;> simp
    | worker_resume =>
      simp only [pam_step]
      split
      · split <;> simp
      · simp
    | worker_finish result =>
      simp only [pam_step]
      split <;> simp
    | dispatch_idle =>
      cases hq : rt.idle with
      | nil => simp [pam_step, hq]
      | cons c rest =>
        cases c with
        | notify_messages_cb =>
          simp [pam_step, hq, notify_messages_cb, is_authentication_result]
        | notify_auth_complete_cb =>
          have hrest : (pam_step none passwd_data users rt PamOp.dispatch_idle).idle = [] :=
            h1.2.1 (by simp [pam_step, hq])
          rw [hrest]
          simp

/-- C15: in real-PAM mode `pam_session_cancel` emits `authentication-result` at once, so
a cancel that arrives while the worker waits in `pam_conv_cb` with its `notify_messages_cb`
still queued emits the result before that `got-messages` notification is delivered (the
steps `prompt_pending_ops` followed by a cancel).  Every other step of every interleaving
of start, respond, cancel, the worker and the idle callbacks, from a session on which
nothing runs, emits no result while a `notify_messages_cb` is queued. -/
theorem cancel_result_overtakes_messages :
    result_overtakes_messages none none []
      (pam_run none none [] new_runtime prompt_pending_ops) PamOp.cancel = true ∧
    (pam_run none none [] new_runtime prompt_pending_ops).idle =
      [IdleCallback.notify_messages_cb] ∧
    (pam_step none none [] (pam_run none none [] new_runtime prompt_pending_ops)
      PamOp.cancel).emitted =
      [PamEffect.emit_authentication_started, PamEffect.thread_create,
        PamEffect.emit_authentication_result PAM_CONV_ERR] ∧
    (∀ (passwd_file passwd_data : Option String) (users : List User) (rt : PamRuntime)
        (ops : List PamOp) (op : PamOp),
      idle_runtime rt → (passwd_file.isSome ∨ op ≠ PamOp.cancel) →
      result_overtakes_messages passwd_file passwd_data users
        (pam_run passwd_file passwd_data users rt ops) op = false) := by
  refine ⟨by decide, by decide, by decide, ?_⟩
  intro passwd_file passwd_data users rt ops op hidle hop
  exact pam_step_no_overtake passwd_file passwd_data users _ op
    (pam_run_consistent passwd_file passwd_data users ops rt
      (idle_runtime_consistent passwd_file rt hidle)) hop

theorem find_map_replace_ne {κ ν : Type} [DecidableEq κ] (t : List (κ × ν)) (k k1 : κ) (v : ν)
    (hk : k1 ≠ k) :
    (t.map (fun e => if e.1 = k then (k, v) else e)).find? (fun e => decide (e.1 = k1)) =
      t.find? (fun e => decide (e.1 = k1)) := by
  induction t with
  | nil => rfl
  | cons e t ih =>
    rw [List.map_cons, List.find?_cons, List.find?_cons, ih]
    by_cases he : e.1 = k
    · have h1 : ¬ e.1 = k1 := fun h => hk (h.symm.trans he)
      have h2 : ¬ k = k1 := fun h => hk h.symm
      rw [if_pos he, decide_eq_false h2, decide_eq_false h1]
    · rw [if_neg he]

theorem find_map_replace_self {κ ν : Type} [DecidableEq κ] (t : List (κ × ν)) (k : κ) (v : ν)
    (hany : t.any (fun e => decide (e.1 = k)) = true) :
    (t.map (fun e => if e.1 = k then (k, v) else e)).find? (fun e => decide (e.1 = k)) =
      some (k, v) := by
  induction t with
  | nil => simp at hany
  | cons e t ih =>
    rw [List.map_cons, List.find?_cons]
    by_cases he : e.1 = k
    · rw [if_pos he, decide_eq_true rfl]
    · rw [if_neg he, decide_eq_false he]
      apply ih
      rw [List.any_cons, decide_eq_false he, Bool.false_or] at hany
      exact hany

theorem find_none_of_not_any {κ ν : Type} [DecidableEq κ] (t : List (κ × ν)) (k : κ)
    (hany : ¬ t.any (fun e => decide (e.1 = k)) = true) :
    t.find? (fun e => decide (e.1 = k)) = none := by
  induction t with
  | nil => rfl
  | cons e t ih =>
    rw [List.any_cons] at hany
    by_cases he : e.1 = k
    · rw [decide_eq_true he] at hany
      exact absurd rfl hany
    · rw [List.find?_cons, decide_eq_false he]
      apply ih
      rw [decide_eq_false he, Bool.false_or] at hany
      exact hany

theorem hash_lookup_insert {κ ν : Type} [DecidableEq κ] (t : List (κ × ν)) (k k1 : κ) (v : ν) :
    hash_lookup (hash_insert t k v) k1 = if k1 = k then some v else hash_lookup t k1 := by
  unfold hash_lookup hash_insert
  by_cases hany : t.any (fun e => decide (e.1 = k)) = true
  · rw [if_pos hany]
    by_cases hk : k1 = k
    · subst hk
      rw [if_pos rfl, find_map_replace_self t k1 v hany]
      rfl
    · rw [if_neg hk, find_map_replace_ne t k k1 v hk]
  · rw [if_neg hany, List.find?_append]
    by_cases hk : k1 = k
    · subst hk
      rw [if_pos rfl, find_none_of_not_any t k1 hany]
      simp
    · rw [if_neg hk]
      have h2 : ¬ k = k1 := fun h => hk h.symm
      cases hf : t.find? (fun e => decide (e.1 = k1)) <;> simp [h2]

theorem hash_lookup_remove_ne {κ ν : Type} [DecidableEq κ] (t : List (κ × ν)) (k k1 : κ)
    (hk : k1 ≠ k) : hash_lookup (hash_remove t k) k1 = hash_lookup t k1 := by
  unfold hash_lookup hash_remove
  congr 1
  induction t with
  | nil => rfl
  | cons e t ih =>
    rw [List.filter_cons, List.find?_cons]
    by_cases he : e.1 = k
    · have h1 : ¬ e.1 = k1 := fun h => hk (h.symm.trans he)
      have hd : decide (e.1 ≠ k) = false := decide_eq_false (fun h => h he)
      rw [hd, decide_eq_false h1]
      simpa using ih
    · have hd : decide (e.1 ≠ k) = true := decide_eq_true he
      rw [hd]
      simp only [if_true]
      rw [List.find?_cons, ih]

theorem call_set_env_heap_length (w : World) (process : Nat) (name : String)
    (value : Option String) :
    (call_set_env w process name value).supervisor.heap.length = w.supervisor.heap.length := by
  unfold call_set_env
  cases hq : w.supervisor.heap[process]? <;> simp

theorem call_set_env_lookup_ne (w : World) (process : Nat) (name : String)
    (value : Option String) (k1 : String) (hk : k1 ≠ name) :
    process_env_lookup (call_set_env w process name value).supervisor process k1 =
      process_env_lookup w.supervisor process k1 := by
  unfold call_set_env process_env_lookup
  cases hq : w.supervisor.heap[process]? with
  | none => simp [hq]
  | some p =>
    simp only [List.getElem?_set_self (lt_length_of_lookup hq), Option.bind_some]
    cases value with
    | none => exact hash_lookup_remove_ne p.env name k1 hk
    | some v =>
      show hash_lookup (hash_insert p.env name v) k1 = hash_lookup p.env k1
      rw [hash_lookup_insert, if_neg hk]

theorem call_set_env_lookup_self (w : World) (process : Nat) (name v : String)
    (hlt : process < w.supervisor.heap.length) :
    process_env_lookup (call_set_env w process name (some v)).supervisor process name =
      some v := by
  unfold call_set_env process_env_lookup
  cases hq : w.supervisor.heap[process]? with
  | none =>
    rw [List.getElem?_eq_none_iff] at hq
    omega
  | some p =>
    simp only [List.getElem?_set_self hlt, Option.bind_some, child_process_set_env]
    show hash_lookup (hash_insert p.env name v) name = some v
    rw [hash_lookup_insert, if_pos rfl]

theorem set_env_from_keyfile_heap_length (w : World) (process : Nat) (name : String)
    (key_file : KeyFile) (section_name key : String) :
    (set_env_from_keyfile w process name key_file section_name key).supervisor.heap.length =
      w.supervisor.heap.length := by
  unfold set_env_from_keyfile
  split
  · rfl
  · exact call_set_env_heap_length _ _ _ _

theorem set_env_from_keyfile_lookup_ne (w : World) (process : Nat) (name : String)
    (key_file : KeyFile) (section_name key : String) (k1 : String) (hk : k1 ≠ name) :
    process_env_lookup
        (set_env_from_keyfile w process name key_file section_name key).supervisor process k1 =
      process_env_lookup w.supervisor process k1 := by
  unfold set_env_from_keyfile
  split
  · rfl
  · exact call_set_env_lookup_ne _ _ _ _ _ hk

theorem pam_env_fold_lookup (process : Nat) (k1 : String) (pam_env : List String) :
    ∀ w : World, process < w.supervisor.heap.length →
      process_env_lookup
          (pam_env.foldl
            (fun acc entry =>
              match split_first_equals entry.toList with
              | some (name, value) =>
                call_set_env acc process (String.mk name) (some (String.mk value))
              | none => acc)
            w).supervisor process k1 =
        pam_env.foldl (pam_env_entry k1) (process_env_lookup w.supervisor process k1) := by
  induction pam_env with
  | nil => intro w _; rfl
  | cons entry rest ih =>
    intro w hlt
    rw [List.foldl_cons, List.foldl_cons]
    cases hs : split_first_equals entry.toList with
    | none =>
      simp only [pam_env_entry, hs]
      exact ih w hlt
    | some nv =>
      obtain ⟨n, v⟩ := nv
      simp only [pam_env_entry, hs]
      rw [ih _ (by rw [call_set_env_heap_length]; exact hlt)]
      by_cases hn : String.mk n = k1
      · subst hn
        rw [call_set_env_lookup_self _ _ _ _ hlt, if_pos rfl]
      · rw [call_set_env_lookup_ne _ _ _ _ _ (fun h => hn h.symm), if_neg hn]

theorem set_env_from_pam_session_lookup (w : World) (process : Nat) (i : Nat)
    (ps : PAMSession) (k1 : String) (hps : w.pam_sessions[i]? = some ps)
    (hlt : process < w.supervisor.heap.length) :
    process_env_lookup (set_env_from_pam_session w process (some i)).supervisor process k1 =
      (session_pam_env w.passwd_file ps).foldl (pam_env_entry k1)
        (process_env_lookup w.supervisor process k1) := by
  have hg : get_pam w (some i) = some ps := by simp [get_pam, hps]
  unfold set_env_from_pam_session session_pam_env
  rw [hg]
  cases he : pam_session_get_envlist w.passwd_file ps with
  | none => simp [he]
  | some pam_env =>
    simp only [he, Option.getD_some]
    exact pam_env_fold_lookup process k1 pam_env w hlt

theorem call_set_env_display (w : World) (process : Nat) (name : String)
    (value : Option String) : (call_set_env w process name value).display = w.display := by
  unfold call_set_env
  split <;> rfl

theorem call_set_env_pam_sessions (w : World) (process : Nat) (name : String)
    (value : Option String) :
    (call_set_env w process name value).pam_sessions = w.pam_sessions := by
  unfold call_set_env
  split <;> rfl

theorem call_set_env_passwd_file (w : World) (process : Nat) (name : String)
    (value : Option String) :
    (call_set_env w process name value).passwd_file = w.passwd_file := by
  unfold call_set_env
  split <;> rfl

theorem set_env_from_keyfile_display (w : World) (process : Nat) (name : String)
    (key_file : KeyFile) (section_name key : String) :
    (set_env_from_keyfile w process name key_file section_name key).display = w.display := by
  unfold set_env_from_keyfile
  split
  · rfl
  · exact call_set_env_display _ _ _ _

theorem set_env_from_keyfile_pam_sessions (w : World) (process : Nat) (name : String)
    (key_file : KeyFile) (section_name key : String) :
    (set_env_from_keyfile w process name key_file section_name key).pam_sessions =
      w.pam_sessions := by
  unfold set_env_from_keyfile
  split
  · rfl
  · exact call_set_env_pam_sessions _ _ _ _

theorem set_env_from_keyfile_passwd_file (w : World) (process : Nat) (name : String)
    (key_file : KeyFile) (section_name key : String) :
    (set_env_from_keyfile w process name key_file section_name key).passwd_file =
      w.passwd_file := by
  unfold set_env_from_keyfile
  split
  · rfl
  · exact call_set_env_passwd_file _ _ _ _

theorem user_session_env_tail_lookup (w5 : World) (process : Nat) (name : String)
    (dmrc_file : KeyFile) (i : Nat) (ps : PAMSession) (k1 : String)
    (hk : k1 = "DESKTOP_SESSION" ∨ k1 = "GDMSESSION")
    (hptr : w5.display.user_pam_session = some i) (hps : w5.pam_sessions[i]? = some ps)
    (hlt : process < w5.supervisor.heap.length) :
    process_env_lookup
        (set_env_from_pam_session
          (set_env_from_keyfile
            (set_env_from_keyfile
              (set_env_from_keyfile
                (set_env_from_keyfile
                  (call_set_env (call_set_env w5 process "DESKTOP_SESSION" (some name)) process
                    "GDMSESSION" (some name))
                  process "LANG" dmrc_file "Desktop" "Language")
                process "LANGUAGE" dmrc_file "Desktop" "Langlist")
              process "LC_MESSAGES" dmrc_file "Desktop" "LCMess")
            process "GDM_KEYBOARD_LAYOUT" dmrc_file "Desktop" "Layout")
          process (some i)).supervisor process k1 =
      (session_pam_env w5.passwd_file ps).foldl (pam_env_entry k1) (some name) := by
  have hne : k1 ≠ "LANG" ∧ k1 ≠ "LANGUAGE" ∧ k1 ≠ "LC_MESSAGES" ∧
      k1 ≠ "GDM_KEYBOARD_LAYOUT" := by
    rcases hk with hk | hk <;> subst hk <;> decide
  have hval : process_env_lookup
      (call_set_env (call_set_env w5 process "DESKTOP_SESSION" (some name)) process
        "GDMSESSION" (some name)).supervisor process k1 = some name := by
    rcases hk with hk | hk
    · subst hk
      rw [call_set_env_lookup_ne _ _ _ _ _ (by decide),
        call_set_env_lookup_self _ _ _ _ hlt]
    · subst hk
      rw [call_set_env_lookup_self _ _ _ _
        (by rw [call_set_env_heap_length]; exact hlt)]
  rw [set_env_from_pam_session_lookup _ process i ps k1
    (by simp only [set_env_from_keyfile_pam_sessions, call_set_env_pam_sessions]; exact hps)
    (by simp only [set_env_from_keyfile_heap_length, call_set_env_heap_length]; exact hlt)]
  simp only [set_env_from_keyfile_passwd_file, call_set_env_passwd_file]
  rw [set_env_from_keyfile_lookup_ne _ _ _ _ _ _ _ hne.2.2.2,
    set_env_from_keyfile_lookup_ne _ _ _ _ _ _ _ hne.2.2.1,
    set_env_from_keyfile_lookup_ne _ _ _ _ _ _ _ hne.2.1,
    set_env_from_keyfile_lookup_ne _ _ _ _ _ _ _ hne.1, hval]

theorem user_session_env_lookup (w : World) (process : Nat) (address name : String)
    (dmrc_file : KeyFile) (i : Nat) (ps : PAMSession) (k1 : String)
    (hk : k1 = "DESKTOP_SESSION" ∨ k1 = "GDMSESSION")
    (hptr : w.display.user_pam_session = some i) (hps : w.pam_sessions[i]? = some ps)
    (hlt : process < w.supervisor.heap.length) :
    process_env_lookup
        (user_session_env w process address (some name) dmrc_file).supervisor process k1 =
      (session_pam_env w.passwd_file ps).foldl (pam_env_entry k1) (some name) := by
  unfold user_session_env
  cases hck : w.display.user_ck_cookie with
  | none =>
    simp only [call_set_env_display, hck, set_env_from_keyfile_display, hptr]
    rw [user_session_env_tail_lookup _ process name dmrc_file i ps k1 hk
      (by rw [call_set_env_display]; exact hptr)
      (by rw [call_set_env_pam_sessions]; exact hps)
      (by rw [call_set_env_heap_length]; exact hlt), call_set_env_passwd_file]
  | some cookie =>
    simp only [call_set_env_display, hck, set_env_from_keyfile_display, hptr]
    rw [user_session_env_tail_lookup _ process name dmrc_file i ps k1 hk
      (by simp only [call_set_env_display]; exact hptr)
      (by simp only [call_set_env_pam_sessions]; exact hps)
      (by simp only [call_set_env_heap_length]; exact hlt)]
    simp only [call_set_env_passwd_file]

theorem start_user_session_env_form (h : Host) (w : World) (session language : Option String)
    (os : CallOS) (i : Nat) (ps : PAMSession) (desktop : KeyFile) (exec : String) (user : User)
    (x : Nat) (server : XServer)
    (hhalt : w.halted = none)
    (hptr : w.display.user_pam_session = some i) (hps : w.pam_sessions[i]? = some ps)
    (hdesc : hash_lookup h.xsessions (printf_s session) = some desktop)
    (hexec : g_key_file_get_string desktop "Desktop Entry" "Exec" = some exec)
    (huser : user_get_by_name h.users (pam_session_get_username ps).1 = some user)
    (hx : w.display.xserver = some x) (hserver : w.xservers[x]? = some server) :
    ∃ (w3 : World) (address : String),
      start_user_session h w session language os =
        launch_user_session
          (user_session_env w3 w.supervisor.heap.length address session
            (updated_dmrc (dmrc_load w.dmrc (pam_session_get_username ps).1) session language))
          ⟨w.supervisor.heap.length, some user,
            some (wrapped_command w.display.session_wrapper exec)⟩
          (updated_dmrc (dmrc_load w.dmrc (pam_session_get_username ps).1) session language)
          (pam_session_get_username ps).1 os ∧
      w3.supervisor.heap = w.supervisor.heap ++ [({} : ChildProcess)] ∧
      w3.pam_sessions = w.pam_sessions.set i (pam_session_get_username ps).2 ∧
      w3.display.user_pam_session = some i ∧
      w3.passwd_file = w.passwd_file ∧ w3.dmrc = w.dmrc ∧ w3.halted = none := by
  by_cases huid : h.uid ≠ 0
  · refine ⟨{ w with
          display :=
            { w.display with
              login_count := w.display.login_count + 1
              user_ck_cookie := none
              supports_transitions :=
                g_key_file_get_boolean desktop "Desktop Entry" "X-LightDM-Supports-Transitions"
              user_session :=
                some ⟨w.supervisor.heap.length, some user,
                  some (wrapped_command w.display.session_wrapper exec)⟩ }
          pam_sessions := w.pam_sessions.set i (pam_session_get_username ps).2
          supervisor := { w.supervisor with heap := w.supervisor.heap ++ [{}] }
          xservers := w.xservers.set x (xserver_get_address server).2 },
        (xserver_get_address server).1, ?_, rfl, rfl, hptr, rfl, rfl, hhalt⟩
    simp [start_user_session, call_pam_session_get_username, hptr, hps, hdesc, hexec,
      huser, start_ck_session, huid, hhalt, hx, hserver, wrapped_command]
  · have huid0 : h.uid = 0 := by simpa using huid
    have hlt : x < w.xservers.length := lt_length_of_lookup hserver
    refine ⟨{ w with
          display :=
            { w.display with
              login_count := w.display.login_count + 1
              user_ck_cookie := os.ck_cookie
              supports_transitions :=
                g_key_file_get_boolean desktop "Desktop Entry" "X-LightDM-Supports-Transitions"
              user_session :=
                some ⟨w.supervisor.heap.length, some user,
                  some (wrapped_command w.display.session_wrapper exec)⟩ }
          pam_sessions := w.pam_sessions.set i (pam_session_get_username ps).2
          supervisor := { w.supervisor with heap := w.supervisor.heap ++ [{}] }
          xservers := (w.xservers.set x (xserver_get_address server).2).set x
            (xserver_get_address (xserver_get_address server).2).2
          events := w.events ++ ck_events h "" user server },
        (xserver_get_address (xserver_get_address server).2).1, ?_, rfl, rfl, hptr, rfl, rfl,
        hhalt⟩
    simp [start_user_session, call_pam_session_get_username, hptr, hps, hdesc, hexec,
      huser, start_ck_session, huid0, hhalt, hx, hserver, wrapped_command,
      List.getElem?_set_self hlt, ck_events]

theorem session_pam_env_get_username (passwd_file : Option String) (ps : PAMSession) :
    session_pam_env passwd_file (pam_session_get_username ps).2 =
      session_pam_env passwd_file ps := by
  unfold session_pam_env pam_session_get_envlist pam_session_get_username
  cases passwd_file with
  | some f => rfl
  | none => cases hh : ps.pam_handle <;> simp [hh]

theorem child_process_launch_env (s : Supervisor) (process : Nat) (p : ChildProcess)
    (fx : List Effect) (a b : Int) (os : StartOS) (p0 : ChildProcess)
    (hp0 : s.heap[process]? = some p0) (henv : p.env = p0.env) (j : Nat) (k : String) :
    process_env_lookup (child_process_launch s process p fx a b os).2 j k =
      process_env_lookup s j k := by
  have hlt := lt_length_of_lookup hp0
  have hset : ∀ q : ChildProcess, q.env = p0.env →
      ((s.heap.set process q)[j]?).bind (fun r => hash_lookup r.env k) =
        (s.heap[j]?).bind (fun r => hash_lookup r.env k) := by
    intro q hq
    by_cases hj : j = process
    · subst hj
      rw [List.getElem?_set_self hlt, hp0]
      simp [hq]
    · rw [List.getElem?_set_ne (fun hc => hj hc.symm)]
  unfold child_process_launch process_env_lookup
  cases os.argv with
  | none => exact hset p henv
  | some argv =>
    simp only
    split
    · exact hset p henv
    · split
      · exact hset p henv
      · exact hset _ henv

theorem child_process_start_env (s : Supervisor) (process : Nat) (user : User)
    (wd : Option String) (command : String) (os : StartOS) (j : Nat) (k : String) :
    process_env_lookup (child_process_start s process user wd command false os).2 j k =
      process_env_lookup s j k := by
  unfold child_process_start
  cases hq : s.heap[process]? with
  | none => rfl
  | some p0 =>
    simp only
    split
    · rfl
    · simp only [Bool.false_eq_true, if_false]
      exact child_process_launch_env s process { p0 with user := some user } _ _ _ os p0 hq rfl j k

theorem child_process_start_returns (s : Supervisor) (process : Nat) (user : User)
    (wd : Option String) (command : String) (create_pipe : Bool) (os : StartOS)
    (hfork : os.fork ≠ 0) :
    ∃ b, (child_process_start s process user wd command create_pipe os).1 =
      StartResult.returned b := by
  have hl : ∀ p fx a b, ∃ r, (child_process_launch s process p fx a b os).1 =
      StartResult.returned r := by
    intro p fx a b
    unfold child_process_launch
    cases os.argv with
    | none => exact ⟨_, rfl⟩
    | some argv =>
      simp only [hfork, if_false]
      split
      · exact ⟨_, rfl⟩
      · exact ⟨_, rfl⟩
  unfold child_process_start
  cases hq : s.heap[process]? with
  | none => exact ⟨_, rfl⟩
  | some p0 =>
    simp only
    split
    · exact ⟨_, rfl⟩
    · split
      · split
        · exact hl _ _ _ _
        · exact ⟨_, rfl⟩
      · exact hl _ _ _ _

theorem call_session_start_returns (w : World) (us : Session) (create_pipe : Bool)
    (os : StartOS) (hfork : os.fork ≠ 0) :
    (call_session_start w us create_pipe os).2.halted = w.halted := by
  unfold call_session_start session_start
  cases hu : us.user with
  | none => rfl
  | some user =>
    cases hc : us.command with
    | none => rfl
    | some command =>
      obtain ⟨b, hb⟩ := child_process_start_returns w.supervisor us.process user
        (some user.home_directory) command create_pipe os hfork
      simp only [hb]

theorem call_session_start_env (w : World) (us : Session) (os : StartOS) (j : Nat)
    (k : String) :
    process_env_lookup (call_session_start w us false os).2.supervisor j k =
      process_env_lookup w.supervisor j k := by
  rw [call_session_start_supervisor]
  unfold session_start
  cases hu : us.user with
  | none => rfl
  | some user =>
    cases hc : us.command with
    | none => rfl
    | some command => exact child_process_start_env _ _ _ _ _ _ _ _

theorem call_session_start_dmrc (w : World) (us : Session) (create_pipe : Bool)
    (os : StartOS) : (call_session_start w us create_pipe os).2.dmrc = w.dmrc := by
  unfold call_session_start
  simp only
  split <;> rfl

theorem launch_user_session_saves (wenv : World) (us : Session) (dmrc_file : KeyFile)
    (username : Option String) (os : CallOS) (hhalt : wenv.halted = none)
    (hfork : os.start.fork ≠ 0) :
    (launch_user_session wenv us dmrc_file username os).2.halted = none ∧
    (launch_user_session wenv us dmrc_file username os).2.dmrc =
      dmrc_save wenv.dmrc dmrc_file username ∧
    (launch_user_session wenv us dmrc_file username os).2.display = wenv.display ∧
    (∀ j k, process_env_lookup
        (launch_user_session wenv us dmrc_file username os).2.supervisor j k =
      process_env_lookup wenv.supervisor j k) := by
  by_cases hnow : (wenv.display.greeter_session.isNone || wenv.display.supports_transitions) = true
  · have hh : (call_session_start
        { wenv with events := wenv.events ++ [Event.emit_start_session us.process] } us false
        os.start).2.halted = none :=
      (call_session_start_returns _ us false os.start hfork).trans hhalt
    unfold launch_user_session
    simp only [hnow, if_true, hh, Option.isSome_none, Bool.false_eq_true, if_false,
      call_session_start_dmrc, call_session_start_display, call_session_start_env]
    exact ⟨trivial, trivial, trivial, fun _ _ => trivial⟩
  · unfold launch_user_session
    simp [hnow, hhalt]

theorem updated_dmrc_session (dmrc0 : KeyFile) (name : String) (language : Option String) :
    g_key_file_get_string (updated_dmrc dmrc0 (some name) language) "Desktop" "Session" =
      some name := by
  have hset : g_key_file_get_string (g_key_file_set_string dmrc0 "Desktop" "Session" name)
      "Desktop" "Session" = some name := by
    unfold g_key_file_get_string g_key_file_set_string
    rw [hash_lookup_insert, if_pos rfl]
  unfold updated_dmrc
  simp only
  cases language with
  | none => exact hset
  | some l =>
    simp only
    split
    · unfold g_key_file_get_string g_key_file_remove_key g_key_file_set_string
      rw [hash_lookup_remove_ne _ _ _ (by decide), hash_lookup_remove_ne _ _ _ (by decide),
        hash_lookup_insert, if_neg (by decide)]
      exact hset
    · exact hset

theorem dmrc_load_save (store : List (String × KeyFile)) (file : KeyFile) (u : String) :
    dmrc_load (dmrc_save store file (some u)) (some u) = file := by
  unfold dmrc_load dmrc_save
  simp only
  rw [hash_lookup_insert, if_pos rfl]
  rfl

/-- C18: for an authorized start-session request in the daemon image (the greeter's PAM
session is in session) whose effective session, the requested name or the Display's
`default_session` for the empty string, has a descriptor that loads and names a command,
for a user the identity source resolves, on a Display with its X server: the environment
overlay of the user session process gives DESKTOP_SESSION and GDMSESSION the effective
session, as rewritten by the entries of the PAM environment, which
`set_env_from_pam_session` applies last (in passwd-file mode that environment is empty and
both equal the effective session); launching the process keeps the overlay, and the
settings file of the user is rewritten with Desktop/Session equal to the effective
session. -/
theorem start_session_desktop_session (h : Host) (w : World) (greeter : Greeter)
    (session language : String) (os : CallOS) (i : Nat) (ps : PAMSession)
    (desktop : KeyFile) (exec : String) (user : User) (x : Nat) (server : XServer)
    (name : String)
    (hhalt : w.halted = none)
    (hptr : greeter.pam_session = some i) (hps : w.pam_sessions[i]? = some ps)
    (hin : ps.in_session = true)
    (hname : effective_session w.display session = some name)
    (hdesc : hash_lookup h.xsessions name = some desktop)
    (hexec : g_key_file_get_string desktop "Desktop Entry" "Exec" = some exec)
    (huser : user_get_by_name h.users (pam_session_get_username ps).1 = some user)
    (hx : w.display.xserver = some x) (hserver : w.xservers[x]? = some server)
    (hfork : os.start.fork ≠ 0) :
    (some name = if session = "" then w.display.default_session else some session) ∧
    (greeter_start_session_cb h w greeter session language os).halted = none ∧
    (greeter_start_session_cb h w greeter session language os).display.user_session =
      some ⟨w.supervisor.heap.length, some user,
        some (wrapped_command w.display.session_wrapper exec)⟩ ∧
    process_env_lookup (greeter_start_session_cb h w greeter session language os).supervisor
        w.supervisor.heap.length "DESKTOP_SESSION" =
      (session_pam_env w.passwd_file ps).foldl (pam_env_entry "DESKTOP_SESSION") (some name) ∧
    process_env_lookup (greeter_start_session_cb h w greeter session language os).supervisor
        w.supervisor.heap.length "GDMSESSION" =
      (session_pam_env w.passwd_file ps).foldl (pam_env_entry "GDMSESSION") (some name) ∧
    (w.passwd_file.isSome →
      process_env_lookup (greeter_start_session_cb h w greeter session language os).supervisor
          w.supervisor.heap.length "DESKTOP_SESSION" = some name ∧
      process_env_lookup (greeter_start_session_cb h w greeter session language os).supervisor
          w.supervisor.heap.length "GDMSESSION" = some name) ∧
    (∀ os2 : StartOS,
      process_env_lookup
          (session_start (greeter_start_session_cb h w greeter session language os).supervisor
            ⟨w.supervisor.heap.length, some user,
              some (wrapped_command w.display.session_wrapper exec)⟩ false os2).2
          w.supervisor.heap.length "DESKTOP_SESSION" =
        process_env_lookup (greeter_start_session_cb h w greeter session language os).supervisor
          w.supervisor.heap.length "DESKTOP_SESSION") ∧
    g_key_file_get_string
        (dmrc_load (greeter_start_session_cb h w greeter session language os).dmrc
          (pam_session_get_username ps).1) "Desktop" "Session" = some name := by
  obtain ⟨w1, hw1⟩ : ∃ w1 : World, w1 =
      { w with display := { w.display with user_pam_session := greeter.pam_session } } :=
    ⟨_, rfl⟩
  have h1halt : w1.halted = none := by rw [hw1]; exact hhalt
  have h1ptr : w1.display.user_pam_session = some i := by rw [hw1]; exact hptr
  have h1ps : w1.pam_sessions[i]? = some ps := by rw [hw1]; exact hps
  have h1x : w1.display.xserver = some x := by rw [hw1]; exact hx
  have h1server : w1.xservers[x]? = some server := by rw [hw1]; exact hserver
  have h1heap : w1.supervisor.heap = w.supervisor.heap := by rw [hw1]
  have h1dmrc : w1.dmrc = w.dmrc := by rw [hw1]
  have h1pf : w1.passwd_file = w.passwd_file := by rw [hw1]
  have h1wrap : w1.display.session_wrapper = w.display.session_wrapper := by rw [hw1]
  have hdesc1 : hash_lookup h.xsessions (printf_s (some name)) = some desktop := hdesc
  -- the request passes the authorization guard
  have hguard : greeter_start_session_cb h w greeter session language os =
      (if (start_user_session h w1 (some name) (effective_language language) os).2.halted.isSome
        then (start_user_session h w1 (some name) (effective_language language) os).2
       else if (start_user_session h w1 (some name) (effective_language language)
          os).2.display.supports_transitions then
         { (start_user_session h w1 (some name) (effective_language language) os).2 with
           display :=
             { (start_user_session h w1 (some name) (effective_language language)
                 os).2.display with user_session_timer := os.timer }
           events := (start_user_session h w1 (some name) (effective_language language)
             os).2.events ++ [Event.timeout_add USER_SESSION_TIMEOUT] }
       else
         { (start_user_session h w1 (some name) (effective_language language) os).2 with
           events := (start_user_session h w1 (some name) (effective_language language)
               os).2.events ++
             [Event.greeter_quit
               ((start_user_session h w1 (some name) (effective_language language)
                 os).2.display.greeter_session.map (fun g => g.session.process))] }) := by
    rw [hw1]
    unfold greeter_start_session_cb
    simp [hptr, get_pam, hps, pam_session_get_in_session, hin, hname]
  -- the session is built: its environment, then the launch
  obtain ⟨w3, address, hstart, h3heap, h3pam, h3ptr, h3pf, h3dmrc, h3halt⟩ :=
    start_user_session_env_form h w1 (some name) (effective_language language) os i ps desktop
      exec user x server h1halt h1ptr h1ps hdesc1 hexec huser h1x h1server
  obtain ⟨wb, hstartb, hbhalt, hbdisplay, _⟩ :=
    start_user_session_built h w1 (some name) (effective_language language) os i ps desktop
      exec user x server h1halt h1ptr h1ps hdesc1 hexec huser h1x h1server
  have hlt3 : w1.supervisor.heap.length < w3.supervisor.heap.length := by
    rw [h3heap]; simp
  have h3ps : w3.pam_sessions[i]? = some (pam_session_get_username ps).2 := by
    rw [h3pam, List.getElem?_set_self (lt_length_of_lookup h1ps)]
  obtain ⟨heap, _, henv⟩ := user_session_env_env_changed w3 w1.supervisor.heap.length address
    (some name)
    (updated_dmrc (dmrc_load w1.dmrc (pam_session_get_username ps).1) (some name)
      (effective_language language))
  have hehalt : (user_session_env w3 w1.supervisor.heap.length address (some name)
      (updated_dmrc (dmrc_load w1.dmrc (pam_session_get_username ps).1) (some name)
        (effective_language language))).halted = none := by
    rw [henv]; exact h3halt
  have hedmrc : (user_session_env w3 w1.supervisor.heap.length address (some name)
      (updated_dmrc (dmrc_load w1.dmrc (pam_session_get_username ps).1) (some name)
        (effective_language language))).dmrc = w.dmrc := by
    rw [henv]; exact h3dmrc.trans h1dmrc
  have hlook : ∀ k1, (k1 = "DESKTOP_SESSION" ∨ k1 = "GDMSESSION") →
      process_env_lookup (start_user_session h w1 (some name) (effective_language language)
          os).2.supervisor w.supervisor.heap.length k1 =
        (session_pam_env w.passwd_file ps).foldl (pam_env_entry k1) (some name) := by
    intro k1 hk
    rw [hstart, (launch_user_session_saves _ _ _ _ os hehalt hfork).2.2.2, ← h1heap,
      user_session_env_lookup w3 _ address name _ i _ k1 hk h3ptr h3ps hlt3, h3pf, h1pf,
      session_pam_env_get_username]
  have hrhalt : (start_user_session h w1 (some name) (effective_language language)
      os).2.halted = none := by
    rw [hstart]
    exact (launch_user_session_saves _ _ _ _ os hehalt hfork).1
  have hrdmrc : (start_user_session h w1 (some name) (effective_language language)
      os).2.dmrc =
      dmrc_save w.dmrc
        (updated_dmrc (dmrc_load w.dmrc (pam_session_get_username ps).1) (some name)
          (effective_language language)) (pam_session_get_username ps).1 := by
    rw [hstart, (launch_user_session_saves _ _ _ _ os hehalt hfork).2.1, hedmrc, h1dmrc]
  have hrdisplay : (start_user_session h w1 (some name) (effective_language language)
      os).2.display.user_session =
      some ⟨w.supervisor.heap.length, some user,
        some (wrapped_command w.display.session_wrapper exec)⟩ := by
    rw [hstartb, (launch_user_session_saves _ _ _ _ os hbhalt hfork).2.2.1, hbdisplay, h1heap,
      h1wrap]
  -- the tail of the callback touches neither the supervisor nor the settings
  have hsup : (greeter_start_session_cb h w greeter session language os).supervisor =
      (start_user_session h w1 (some name) (effective_language language) os).2.supervisor := by
    rw [hguard]
    split
    · rfl
    · split <;> rfl
  have hdm : (greeter_start_session_cb h w greeter session language os).dmrc =
      (start_user_session h w1 (some name) (effective_language language) os).2.dmrc := by
    rw [hguard]
    split
    · rfl
    · split <;> rfl
  have hha : (greeter_start_session_cb h w greeter session language os).halted =
      (start_user_session h w1 (some name) (effective_language language) os).2.halted := by
    rw [hguard]
    split
    · rfl
    · split <;> rfl
  have hus : (greeter_start_session_cb h w greeter session language os).display.user_session =
      (start_user_session h w1 (some name) (effective_language language)
        os).2.display.user_session := by
    rw [hguard]
    split
    · rfl
    · split <;> rfl
  obtain ⟨u, hu⟩ : ∃ u, (pam_session_get_username ps).1 = some u := by
    cases hn : (pam_session_get_username ps).1 with
    | none => rw [hn] at huser; simp [user_get_by_name] at huser
    | some u => exact ⟨u, rfl⟩
  refine ⟨?_, hha.trans hrhalt, hus.trans hrdisplay, ?_, ?_, ?_, ?_, ?_⟩
  · rw [← hname]; rfl
  · rw [hsup]; exact hlook _ (Or.inl rfl)
  · rw [hsup]; exact hlook _ (Or.inr rfl)
  · intro hpf
    have hempty : session_pam_env w.passwd_file ps = [] := by
      unfold session_pam_env pam_session_get_envlist
      cases hq : w.passwd_file with
      | none => rw [hq] at hpf; simp at hpf
      | some f => rfl
    rw [hsup, hlook _ (Or.inl rfl), hlook _ (Or.inr rfl), hempty]
    exact ⟨rfl, rfl⟩
  · intro os2
    unfold session_start
    exact child_process_start_env _ _ _ _ _ _ _ _
  · rw [hdm, hrdmrc, hu, dmrc_load_save]
    exact updated_dmrc_session _ _ _

theorem start_session_desktop_session_witness :
    effective_session greeter_world.display "" = some "gnome" ∧
    process_env_lookup
        (greeter_start_session_cb login_host greeter_world login_greeter "" "" call_os).supervisor
        1 "DESKTOP_SESSION" = some "gnome" ∧
    g_key_file_get_string
        (dmrc_load
          (greeter_start_session_cb login_host greeter_world login_greeter "" "" call_os).dmrc
          (some "alice")) "Desktop" "Session" = some "gnome" :=
  ⟨by decide,
    (start_session_desktop_session login_host greeter_world login_greeter "" "" call_os 1
      { service := "lightdm", username := some "alice", in_session := true }
      [(("Desktop Entry", "Exec"), "gnome-session")] "gnome-session" alice 0
      { display_number := 0, pid := 2000, ready := true } "gnome"
      (by decide) (by decide) (by decide) (by decide) (by decide) (by decide) (by decide)
      (by decide) (by decide) (by decide) (by decide)).2.2.2.1.trans (by decide),
    (start_session_desktop_session login_host greeter_world login_greeter "" "" call_os 1
      { service := "lightdm", username := some "alice", in_session := true }
      [(("Desktop Entry", "Exec"), "gnome-session")] "gnome-session" alice 0
      { display_number := 0, pid := 2000, ready := true } "gnome"
      (by decide) (by decide) (by decide) (by decide) (by decide) (by decide) (by decide)
      (by decide) (by decide) (by decide) (by decide)).2.2.2.2.2.2.2⟩

/-- C18, counterexample: in real-PAM mode the PAM environment of the authorized login
session holds `DESKTOP_SESSION=kde`; the greeter requests the session `gnome`, which is the
effective session.  The user session is created and, when the greeter quits, launched
(pid 4242) with DESKTOP_SESSION equal to `kde`, while GDMSESSION is `gnome`. -/
theorem start_session_pam_env_counterexample :
    effective_session pam_env_world.display "gnome" = some "gnome" ∧
    (greeter_start_session_cb login_host pam_env_world login_greeter "gnome" ""
        call_os).display.user_session = some ⟨1, some alice, some "gnome-session"⟩ ∧
    process_env_lookup
        (greeter_start_session_cb login_host pam_env_world login_greeter "gnome" ""
          call_os).supervisor 1 "DESKTOP_SESSION" = some "kde" ∧
    process_env_lookup
        (greeter_start_session_cb login_host pam_env_world login_greeter "gnome" ""
          call_os).supervisor 1 "GDMSESSION" = some "gnome" ∧
    child_process_get_pid
        (greeter_quit_cb
          (greeter_start_session_cb login_host pam_env_world login_greeter "gnome" "" call_os)
          call_os).supervisor (some 1) = 4242 ∧
    process_env_lookup
        (greeter_quit_cb
          (greeter_start_session_cb login_host pam_env_world login_greeter "gnome" "" call_os)
          call_os).supervisor 1 "DESKTOP_SESSION" = some "kde" := by
  refine ⟨?_, ?_, ?_, ?_, ?_, ?_⟩ <;> decide

theorem events_grow_refl (p : Event → Bool) (w : World) : events_grow p w w :=
  ⟨[], by simp, rfl⟩

theorem events_grow_of_eq (p : Event → Bool) (w w1 : World) (h : w1.events = w.events) :
    events_grow p w w1 :=
  ⟨[], by simp [h], rfl⟩

theorem events_grow_trans {p : Event → Bool} {w1 w2 w3 : World}
    (h12 : events_grow p w1 w2) (h23 : events_grow p w2 w3) : events_grow p w1 w3 := by
  obtain ⟨r1, h1, a1⟩ := h12
  obtain ⟨r2, h2, a2⟩ := h23
  exact ⟨r1 ++ r2, by rw [h2, h1, List.append_assoc], by rw [List.all_append, a1, a2]; rfl⟩

theorem events_grow_weaken {p : Event → Bool} {w1 w2 : World} (h : events_grow p w1 w2) :
    events_grow (fun _ => true) w1 w2 := by
  obtain ⟨r, h1, _⟩ := h
  exact ⟨r, h1, by simp⟩

theorem events_grow_new_events {p : Event → Bool} {w w1 : World} (h : events_grow p w w1) :
    (new_events w w1).all p = true := by
  obtain ⟨r, h1, a⟩ := h
  unfold new_events
  rw [h1, List.drop_left]
  exact a

theorem env_changed_events {w1 w2 : World} (h : env_changed w1 w2) : w2.events = w1.events := by
  obtain ⟨heap, _, rfl⟩ := h
  rfl

theorem env_changed_halted {w1 w2 : World} (h : env_changed w1 w2) : w2.halted = w1.halted := by
  obtain ⟨heap, _, rfl⟩ := h
  rfl

theorem pam_update_grow (p : Event → Bool) (w : World) (i : Nat)
    (r : PAMSession × List PamEffect) (hp : ∀ e ∈ r.2, p (Event.pam i e) = true) :
    events_grow p w (pam_update w i r) := by
  refine ⟨r.2.map (Event.pam i), rfl, ?_⟩
  rw [List.all_eq_true]
  intro e he
  obtain ⟨f, hf, rfl⟩ := List.mem_map.mp he
  exact hp f hf

theorem call_pam_session_authorize_grow (w : World) (session : Option Nat) :
    events_grow (fun e => !is_authentication_started e) w
      (call_pam_session_authorize w session) := by
  unfold call_pam_session_authorize
  cases session with
  | none => exact events_grow_refl _ _
  | some i =>
    cases hq : w.pam_sessions[i]? with
    | none => simp only [hq]; exact events_grow_refl _ _
    | some ps =>
      simp only [hq]
      apply pam_update_grow
      intro e he
      unfold pam_session_authorize at he
      cases hf : w.passwd_file <;> simp [hf] at he <;> rcases he with he | he | he <;>
        simp_all [is_authentication_started]

theorem start_ck_session_grow (h : Host) (w : World) (session_type : String) (user : User)
    (os : CallOS) :
    events_grow (fun e => !is_authentication_started e) w
      (start_ck_session h w session_type user os).2 := by
  unfold start_ck_session
  split
  · exact events_grow_refl _ _
  · cases hx : w.display.xserver with
    | none => exact events_grow_of_eq _ _ _ rfl
    | some x =>
      cases hq : w.xservers[x]? with
      | none => simp only [hq]; exact events_grow_of_eq _ _ _ rfl
      | some server => simp only [hq]; exact ⟨_, rfl, by simp [is_authentication_started]⟩

theorem call_session_start_grow (w : World) (session : Session) (create_pipe : Bool)
    (os : StartOS) :
    events_grow (fun e => !is_authentication_started e) w
      (call_session_start w session create_pipe os).2 :=
  ⟨_, call_session_start_events w session create_pipe os, by simp [is_authentication_started]⟩

theorem call_set_env_grow (p : Event → Bool) (w : World) (process : Nat) (name : String)
    (value : Option String) : events_grow p w (call_set_env w process name value) :=
  events_grow_of_eq _ _ _ (env_changed_events (call_set_env_env_changed w process name value))

theorem set_env_from_pam_session_grow (p : Event → Bool) (w : World) (process : Nat)
    (pam_session : Option Nat) :
    events_grow p w (set_env_from_pam_session w process pam_session) :=
  events_grow_of_eq _ _ _
    (env_changed_events (set_env_from_pam_session_env_changed w process pam_session))

theorem start_greeter_grow (h : Host) (w : World) (os : CallOS) :
    events_grow (fun e => !is_authentication_started e)
      { w with events := w.events ++ [Event.load_theme w.display.greeter_theme] }
      (start_greeter h w os).2 := by
  unfold start_greeter
  simp only
  split
  · exact events_grow_refl _ _
  · split
    · exact events_grow_refl _ _
    · exact events_grow_of_eq _ _ _ rfl
    · split
      · refine events_grow_trans ?_ (start_ck_session_grow _ _ _ _ _)
        refine events_grow_trans ?_ (call_pam_session_authorize_grow _ _)
        exact events_grow_of_eq _ _ _ rfl
      · split
        · refine events_grow_trans ?_ (events_grow_of_eq _ _ _ rfl)
          refine events_grow_trans ?_ (start_ck_session_grow _ _ _ _ _)
          refine events_grow_trans ?_ (call_pam_session_authorize_grow _ _)
          exact events_grow_of_eq _ _ _ rfl
        · refine events_grow_trans ?_ (call_session_start_grow _ _ _ _)
          refine events_grow_trans ?_ ⟨[Event.emit_start_greeter _], rfl,
            by simp [is_authentication_started]⟩
          refine events_grow_trans ?_ (set_env_from_pam_session_grow _ _ _ _)
          have htail : ∀ w4 : World, events_grow (fun e => !is_authentication_started e)
              { w with events := w.events ++ [Event.load_theme w.display.greeter_theme] } w4 →
              ∀ process address, events_grow (fun e => !is_authentication_started e)
                { w with events := w.events ++ [Event.load_theme w.display.greeter_theme] }
                (match (call_set_env w4 process "DISPLAY" (some address)).display.greeter_ck_cookie with
                  | some cookie =>
                    call_set_env (call_set_env w4 process "DISPLAY" (some address)) process
                      "XDG_SESSION_COOKIE" (some cookie)
                  | none => call_set_env w4 process "DISPLAY" (some address)) := by
            intro w4 h4 process address
            split
            · exact events_grow_trans (events_grow_trans h4 (call_set_env_grow _ _ _ _ _))
                (call_set_env_grow _ _ _ _ _)
            · exact events_grow_trans h4 (call_set_env_grow _ _ _ _ _)
          apply htail
          refine events_grow_trans ?_ (events_grow_of_eq _ _ _ rfl)
          refine events_grow_trans ?_ (start_ck_session_grow _ _ _ _ _)
          refine events_grow_trans ?_ (call_pam_session_authorize_grow _ _)
          exact events_grow_of_eq _ _ _ rfl

theorem call_pam_session_get_username_events (w : World) (session : Option Nat) :
    (call_pam_session_get_username w session).2.events = w.events := by
  unfold call_pam_session_get_username
  cases session with
  | none => rfl
  | some i => cases hq : w.pam_sessions[i]? <;> simp [hq]

theorem launch_user_session_grow (w : World) (us : Session) (dmrc_file : KeyFile)
    (username : Option String) (os : CallOS) :
    events_grow (fun _ => true) w (launch_user_session w us dmrc_file username os).2 := by
  have h13 : events_grow (fun _ => true) w
      { w with events := w.events ++ [Event.emit_start_session us.process] } :=
    ⟨_, rfl, by simp⟩
  have hstarted : events_grow (fun _ => true) w
      (if w.display.greeter_session.isNone || w.display.supports_transitions then
        call_session_start
          { w with events := w.events ++ [Event.emit_start_session us.process] } us false
          os.start
      else (true, { w with events := w.events ++ [Event.emit_start_session us.process] })).2 := by
    split
    · exact events_grow_trans h13 (events_grow_weaken (call_session_start_grow _ _ _ _))
    · exact h13
  have hsave : ∀ st : Bool × World, events_grow (fun _ => true) w st.2 →
      events_grow (fun _ => true) w
        (if st.2.halted.isSome then st
         else
          (st.1,
            { st.2 with
              dmrc := dmrc_save st.2.dmrc dmrc_file username
              events := st.2.events ++ [Event.dmrc_save username] })).2 := by
    intro st hst
    split
    · exact hst
    · exact events_grow_trans hst ⟨_, rfl, by simp⟩
  exact hsave _ hstarted

theorem start_user_session_grow (h : Host) (w : World) (session language : Option String)
    (os : CallOS) :
    events_grow (fun _ => true) w (start_user_session h w session language os).2 := by
  have h1 : events_grow (fun _ => true) w
      { (call_pam_session_get_username w w.display.user_pam_session).2 with
        display :=
          { (call_pam_session_get_username w w.display.user_pam_session).2.display with
            login_count :=
              (call_pam_session_get_username w w.display.user_pam_session).2.display.login_count
                + 1 } } :=
    events_grow_of_eq _ _ _ (call_pam_session_get_username_events w _)
  unfold start_user_session
  simp only
  split
  · exact h1
  · split
    · exact h1
    · split
      · exact h1
      · have hck := events_grow_trans h1
          (events_grow_weaken (start_ck_session_grow h _ "" ‹User› os))
        split
        · exact hck
        · split
          · exact events_grow_trans hck (events_grow_of_eq _ _ _ rfl)
          · refine events_grow_trans ?_ (launch_user_session_grow _ _ _ _ _)
            refine events_grow_trans ?_ (events_grow_of_eq _ _ _
              (env_changed_events (user_session_env_env_changed _ _ _ _ _)))
            exact events_grow_trans hck (events_grow_of_eq _ _ _ rfl)

theorem default_session_authentication_result_cb_grow (h : Host) (w : World) (session : Nat)
    (result : Int) (os : CallOS) :
    events_grow (fun _ => true) w
      (default_session_authentication_result_cb h w session result os) := by
  unfold default_session_authentication_result_cb
  split
  · exact events_grow_trans (events_grow_weaken (call_pam_session_authorize_grow w _))
      (start_user_session_grow _ _ _ _ _)
  · exact events_grow_trans ⟨_, rfl, by simp⟩ (events_grow_weaken (start_greeter_grow h w os))

theorem deliver_authentication_result_grow (h : Host) (session : Nat)
    (handlers : List PamCallback) (os : CallOS) (fx : List PamEffect) :
    ∀ w : World, events_grow (fun _ => true) w
      (deliver_authentication_result h w session handlers fx os) := by
  have hhandlers : ∀ (result : Int) (hs : List PamCallback) (w : World),
      events_grow (fun _ => true) w
        (hs.foldl
          (fun acc1 handler =>
            match handler with
            | PamCallback.default_session_authentication_result_cb =>
              if acc1.halted.isSome then acc1
              else default_session_authentication_result_cb h acc1 session result os
            | _ => acc1)
          w) := by
    intro result hs
    induction hs with
    | nil => intro w; exact events_grow_refl _ _
    | cons c cs ih =>
      intro w
      rw [List.foldl_cons]
      refine events_grow_trans ?_ (ih _)
      cases c with
      | default_session_pam_message_cb => exact events_grow_refl _ _
      | default_session_authentication_result_cb =>
        simp only
        split
        · exact events_grow_refl _ _
        · exact default_session_authentication_result_cb_grow _ _ _ _ _
  unfold deliver_authentication_result
  induction fx with
  | nil => intro w; exact events_grow_refl _ _
  | cons e es ih =>
    intro w
    rw [List.foldl_cons]
    refine events_grow_trans ?_ (ih _)
    cases e with
    | emit_authentication_result result => exact hhandlers result handlers w
    | _ => exact events_grow_refl _ _

theorem call_pam_session_cancel_grow (h : Host) (w : World) (session : Nat) (os : CallOS) :
    events_grow (fun _ => true) w (call_pam_session_cancel h w session os) := by
  unfold call_pam_session_cancel
  cases hq : w.pam_sessions[session]? with
  | none => exact events_grow_refl _ _
  | some ps =>
    simp only
    exact events_grow_trans (pam_update_grow _ w session _ (fun _ _ => rfl))
      (deliver_authentication_result_grow _ _ _ _ _ _)

theorem deliver_pam_signals_grow (h : Host) (session : Nat) (ps : PAMSession) (os : CallOS)
    (fx : List PamEffect) :
    ∀ w : World, events_grow (fun _ => true) w (deliver_pam_signals h w session ps fx os) := by
  have hhandlers : ∀ (hs : List PamCallback) (w : World),
      events_grow (fun _ => true) w
        (hs.foldl
          (fun acc1 handler =>
            match handler with
            | PamCallback.default_session_pam_message_cb =>
              if acc1.halted.isSome then acc1
              else default_session_pam_message_cb h acc1 session os
            | _ => acc1)
          w) := by
    intro hs
    induction hs with
    | nil => intro w; exact events_grow_refl _ _
    | cons c cs ih =>
      intro w
      rw [List.foldl_cons]
      refine events_grow_trans ?_ (ih _)
      cases c with
      | default_session_authentication_result_cb => exact events_grow_refl _ _
      | default_session_pam_message_cb =>
        simp only
        split
        · exact events_grow_refl _ _
        · exact call_pam_session_cancel_grow _ _ _ _
  unfold deliver_pam_signals
  induction fx with
  | nil => intro w; exact events_grow_refl _ _
  | cons e es ih =>
    intro w
    rw [List.foldl_cons]
    refine events_grow_trans ?_ (ih _)
    cases e with
    | emit_got_messages n m => exact hhandlers ps.got_messages_handlers w
    | emit_authentication_result result =>
      exact deliver_authentication_result_grow _ _ _ _ _ _
    | _ => exact events_grow_refl _ _

theorem pam_session_start_effects_head (passwd_file passwd_data : Option String)
    (ps : PAMSession) (thread_ok : Bool) (ht : ps.authentication_thread = false) :
    ∃ tail, (pam_session_start passwd_file passwd_data ps thread_ok).2.2 =
      PamEffect.emit_authentication_started :: tail := by
  unfold pam_session_start
  simp only [ht, Bool.false_eq_true, if_false]
  cases passwd_file with
  | none => exact ⟨_, rfl⟩
  | some f =>
    cases hu : ps.username with
    | none => exact ⟨_, rfl⟩
    | some u =>
      simp only
      split
      · exact ⟨_, rfl⟩
      · exact ⟨_, rfl⟩

theorem call_pam_session_end_pam_sessions_length (w : World) (session : Option Nat) :
    (call_pam_session_end w session).pam_sessions.length = w.pam_sessions.length := by
  rw [call_pam_session_end_pam_sessions]
  unfold pam_sessions_after_end
  cases session with
  | none => rfl
  | some i => cases hq : w.pam_sessions[i]? <;> simp [hq]

theorem start_autologin_session_events (h : Host) (w : World) (os : CallOS) :
    ∃ rest, (start_autologin_session h w os).2.events =
      w.events ++ pam_end_events w w.display.user_pam_session ++
        Event.pam w.pam_sessions.length PamEffect.emit_authentication_started :: rest := by
  obtain ⟨tail, htail⟩ := pam_session_start_effects_head
    (call_pam_session_end w w.display.user_pam_session).passwd_file h.passwd_data
    { pam_session_new (call_pam_session_end w w.display.user_pam_session).display.pam_autologin_service
        (call_pam_session_end w w.display.user_pam_session).display.default_user with
      got_messages_handlers := [PamCallback.default_session_pam_message_cb]
      authentication_result_handlers :=
        [PamCallback.default_session_authentication_result_cb] }
    os.thread_ok rfl
  unfold start_autologin_session
  simp only
  obtain ⟨rest, hrest, _⟩ := deliver_pam_signals_grow h
    (call_pam_session_end w w.display.user_pam_session).pam_sessions.length
    (pam_session_start (call_pam_session_end w w.display.user_pam_session).passwd_file
      h.passwd_data
      { pam_session_new
          (call_pam_session_end w w.display.user_pam_session).display.pam_autologin_service
          (call_pam_session_end w w.display.user_pam_session).display.default_user with
        got_messages_handlers := [PamCallback.default_session_pam_message_cb]
        authentication_result_handlers :=
          [PamCallback.default_session_authentication_result_cb] }
      os.thread_ok).2.1 os
    (pam_session_start (call_pam_session_end w w.display.user_pam_session).passwd_file
      h.passwd_data
      { pam_session_new
          (call_pam_session_end w w.display.user_pam_session).display.pam_autologin_service
          (call_pam_session_end w w.display.user_pam_session).display.default_user with
        got_messages_handlers := [PamCallback.default_session_pam_message_cb]
        authentication_result_handlers :=
          [PamCallback.default_session_authentication_result_cb] }
      os.thread_ok).2.2
    (pam_update
      { (call_pam_session_end w w.display.user_pam_session) with
        display :=
          { (call_pam_session_end w w.display.user_pam_session).display with
            user_pam_session :=
              some (call_pam_session_end w w.display.user_pam_session).pam_sessions.length }
        pam_sessions := (call_pam_session_end w w.display.user_pam_session).pam_sessions ++
          [{ pam_session_new
              (call_pam_session_end w w.display.user_pam_session).display.pam_autologin_service
              (call_pam_session_end w w.display.user_pam_session).display.default_user with
            got_messages_handlers := [PamCallback.default_session_pam_message_cb]
            authentication_result_handlers :=
              [PamCallback.default_session_authentication_result_cb] }] }
      (call_pam_session_end w w.display.user_pam_session).pam_sessions.length
      ((pam_session_start (call_pam_session_end w w.display.user_pam_session).passwd_file
        h.passwd_data
        { pam_session_new
            (call_pam_session_end w w.display.user_pam_session).display.pam_autologin_service
            (call_pam_session_end w w.display.user_pam_session).display.default_user with
          got_messages_handlers := [PamCallback.default_session_pam_message_cb]
          authentication_result_handlers :=
            [PamCallback.default_session_authentication_result_cb] }
        os.thread_ok).2.1,
       (pam_session_start (call_pam_session_end w w.display.user_pam_session).passwd_file
        h.passwd_data
        { pam_session_new
            (call_pam_session_end w w.display.user_pam_session).display.pam_autologin_service
            (call_pam_session_end w w.display.user_pam_session).display.default_user with
          got_messages_handlers := [PamCallback.default_session_pam_message_cb]
          authentication_result_handlers :=
            [PamCallback.default_session_authentication_result_cb] }
        os.thread_ok).2.2))
  refine ⟨tail.map (Event.pam w.pam_sessions.length) ++ rest, ?_⟩
  rw [hrest]
  simp only [pam_update, htail, List.map_cons, call_pam_session_end_events,
    call_pam_session_end_pam_sessions_length]
  simp [List.append_assoc]

theorem start_autologin_session_failed (h : Host) (w : World) (os : CallOS)
    (hf : (start_autologin_session h w os).1 = false) :
    (start_autologin_session h w os).2.halted = w.halted := by
  unfold start_autologin_session at hf ⊢
  simp only at hf ⊢
  cases hpf : (call_pam_session_end w w.display.user_pam_session).passwd_file with
  | some f =>
    rw [hpf] at hf
    simp only [pam_session_start, pam_session_new, Bool.false_eq_true, if_false] at hf
    split at hf
    · simp at hf
    · split at hf <;> simp at hf
  | none =>
    simp [pam_session_start, pam_session_new, hpf, deliver_pam_signals, pam_update,
      call_pam_session_end_halted]

theorem start_greeter_new_events (h : Host) (w : World) (os : CallOS) :
    ∃ rest, (start_greeter h w os).2.events =
        w.events ++ Event.load_theme w.display.greeter_theme :: rest ∧
      rest.all (fun e => !is_authentication_started e) = true := by
  obtain ⟨rest, hrest, hall⟩ := start_greeter_grow h w os
  exact ⟨rest, by rw [hrest]; simp, hall⟩

/-- C11: on the ready event of a local-terminal X server `xserver_ready_cb` does nothing:
it attempts no autologin and starts no greeter.  For every other server type (and a world
whose control flow has not stopped) `pam_session_start` of an autologin conversation runs
exactly when a default user is set, the default-user timeout is 0 and `login_count` is 0,
and the callback ends there when that start returns TRUE; when these conditions do not
hold, and when the start returns FALSE, `start_greeter` is called (its first act, loading
the greeter theme, is among the new events). -/
theorem xserver_ready_cb_autologin_or_greeter (h : Host) (w : World) (xserver : Nat)
    (os : CallOS) (server : XServer)
    (hx : w.xservers[xserver]? = some server) (hhalt : w.halted = none) :
    (server.type = XServerType.XSERVER_TYPE_LOCAL_TERMINAL →
      xserver_ready_cb h w xserver os = w) ∧
    (server.type ≠ XServerType.XSERVER_TYPE_LOCAL_TERMINAL →
      ((new_events w (xserver_ready_cb h w xserver os)).any is_authentication_started = true ↔
        (w.display.default_user.isSome ∧ w.display.timeout = 0 ∧
          w.display.login_count = 0)) ∧
      (¬ (w.display.default_user.isSome ∧ w.display.timeout = 0 ∧ w.display.login_count = 0) →
        xserver_ready_cb h w xserver os = (start_greeter h w os).2) ∧
      ((w.display.default_user.isSome ∧ w.display.timeout = 0 ∧ w.display.login_count = 0) →
        (start_autologin_session h w os).1 = true →
        xserver_ready_cb h w xserver os = (start_autologin_session h w os).2) ∧
      ((w.display.default_user.isSome ∧ w.display.timeout = 0 ∧ w.display.login_count = 0) →
        (start_autologin_session h w os).1 = false →
        xserver_ready_cb h w xserver os =
          (start_greeter h (start_autologin_session h w os).2 os).2) ∧
      ((¬ (w.display.default_user.isSome ∧ w.display.timeout = 0 ∧
            w.display.login_count = 0) ∨ (start_autologin_session h w os).1 = false) →
        (new_events w (xserver_ready_cb h w xserver os)).any is_load_theme = true)) := by
  constructor
  · intro ht
    simp [xserver_ready_cb, hx, xserver_get_server_type, ht]
  · intro ht
    have hno : ¬ (w.display.default_user.isSome ∧ w.display.timeout = 0 ∧
        w.display.login_count = 0) →
        xserver_ready_cb h w xserver os = (start_greeter h w os).2 := by
      intro hc
      simp only [xserver_ready_cb, hx, xserver_get_server_type, ht, if_false]
      rw [if_neg hc]
    have hok : (w.display.default_user.isSome ∧ w.display.timeout = 0 ∧
        w.display.login_count = 0) → (start_autologin_session h w os).1 = true →
        xserver_ready_cb h w xserver os = (start_autologin_session h w os).2 := by
      intro hc hr
      simp only [xserver_ready_cb, hx, xserver_get_server_type, ht, if_false]
      rw [if_pos hc]
      simp only [hr, if_true]
    have hfail : (w.display.default_user.isSome ∧ w.display.timeout = 0 ∧
        w.display.login_count = 0) → (start_autologin_session h w os).1 = false →
        xserver_ready_cb h w xserver os =
          (start_greeter h (start_autologin_session h w os).2 os).2 := by
      intro hc hr
      have hh := start_autologin_session_failed h w os hr
      simp only [xserver_ready_cb, hx, xserver_get_server_type, ht, if_false]
      rw [if_pos hc]
      simp only [hr, Bool.false_eq_true, if_false, hh, hhalt, Option.isSome_none]
    obtain ⟨arest, harest⟩ := start_autologin_session_events h w os
    refine ⟨?_, hno, hok, hfail, ?_⟩
    · constructor
      · intro hany
        by_contra hc
        obtain ⟨rest, hrest, hall⟩ := start_greeter_new_events h w os
        rw [hno hc] at hany
        unfold new_events at hany
        rw [hrest, List.drop_left] at hany
        rw [List.any_cons] at hany
        simp only [is_authentication_started, Bool.false_or] at hany
        obtain ⟨e, he, hes⟩ := List.any_eq_true.mp hany
        have := List.all_eq_true.mp hall e he
        simp [hes] at this
      · intro hc
        cases hr : (start_autologin_session h w os).1
        · obtain ⟨rest, hrest, _⟩ :=
            start_greeter_new_events h (start_autologin_session h w os).2 os
          rw [hfail hc hr]
          unfold new_events
          rw [hrest, harest]
          simp [is_authentication_started]
        · rw [hok hc hr]
          unfold new_events
          rw [harest]
          simp [is_authentication_started]
    · intro hcase
      by_cases hc : (w.display.default_user.isSome ∧ w.display.timeout = 0 ∧
          w.display.login_count = 0)
      · have hr : (start_autologin_session h w os).1 = false := by
          rcases hcase with hn | hr
          · exact absurd hc hn
          · exact hr
        obtain ⟨rest, hrest, _⟩ :=
          start_greeter_new_events h (start_autologin_session h w os).2 os
        rw [hfail hc hr]
        unfold new_events
        rw [hrest, harest]
        simp [is_load_theme]
      · obtain ⟨rest, hrest, _⟩ := start_greeter_new_events h w os
        rw [hno hc]
        unfold new_events
        rw [hrest]
        simp [is_load_theme]

theorem xserver_ready_cb_autologin_or_greeter_witness :
    autologin_world.xservers[0]? = some { display_number := 0, pid := 2000 } ∧
    autologin_world.halted = none ∧
    (new_events autologin_world
      (xserver_ready_cb login_host autologin_world 0 call_os)).any
        is_authentication_started = true :=
  ⟨by decide, by decide,
    ((xserver_ready_cb_autologin_or_greeter login_host autologin_world 0 call_os
      { display_number := 0, pid := 2000 } (by decide) (by decide)).2 (by decide)).1.mpr
      (by decide)⟩

/-- C11, counterexample: the X server of the Display is a local terminal.  With a default
user, timeout 0 and `login_count` 0 the ready event starts no autologin conversation, and
without a default user it starts no greeter: in both cases the world is unchanged. -/
theorem xserver_ready_cb_terminal_counterexample :
    (terminal_world.display.default_user.isSome ∧ terminal_world.display.timeout = 0 ∧
      terminal_world.display.login_count = 0) ∧
    xserver_ready_cb login_host terminal_world 0 call_os = terminal_world ∧
    (new_events terminal_world
      (xserver_ready_cb login_host terminal_world 0 call_os)).any is_authentication_started =
        false ∧
    xserver_ready_cb login_host
        { terminal_world with display := { terminal_world.display with default_user := none } }
        0 call_os =
      { terminal_world with display := { terminal_world.display with default_user := none } } ∧
    (new_events
      { terminal_world with display := { terminal_world.display with default_user := none } }
      (xserver_ready_cb login_host
        { terminal_world with display := { terminal_world.display with default_user := none } }
        0 call_os)).any is_load_theme = false := by
  refine ⟨by decide, ?_, ?_, ?_, ?_⟩ <;> decide

theorem run_child_exec_no_signal (process : ChildProcess) (argv : List String) (os : ChildOS) :
    (run_child_exec process argv os).filter is_signal = [] := by
  unfold run_child_exec
  cases process.log_file <;> cases os.execvp_ok <;> simp [is_signal] <;> split <;>
    simp [is_signal]

theorem run_child_user_no_signal (process : ChildProcess) (argv : List String) (os : ChildOS) :
    (run_child_user process argv os).filter is_signal = [] := by
  unfold run_child_user
  cases process.user with
  | none => exact run_child_exec_no_signal process argv os
  | some user =>
    simp only
    have hhome : (if os.chdir_ok then
        ChildAction.chdir user.home_directory :: run_child_exec process argv os
        else [ChildAction.chdir user.home_directory, ChildAction.exit EXIT_FAILURE]).filter
          is_signal = [] := by
      split <;> simp [is_signal, run_child_exec_no_signal]
    split
    · split
      · simp [is_signal]
      · split
        · simp [is_signal]
        · split
          · simp [is_signal]
          · simpa [is_signal] using hhome
    · exact hhome

theorem run_child_setup_signals (process : ChildProcess) (os : ChildOS) :
    (run_child_setup process os).filter is_signal =
      [ChildAction.signal SIGTERM SigDisposition.SIG_IGN,
       ChildAction.signal SIGINT SigDisposition.SIG_IGN,
       ChildAction.signal SIGHUP SigDisposition.SIG_IGN,
       ChildAction.signal SIGUSR1 SigDisposition.SIG_IGN,
       ChildAction.signal SIGUSR2 SigDisposition.SIG_IGN] := by
  unfold run_child_setup
  simp only [List.filter_append]
  have henv : (process.env.map (fun e => ChildAction.setenv e.1 e.2)).filter is_signal =
      [] := by
    rw [List.filter_eq_nil_iff]
    intro a ha
    obtain ⟨e, _, rfl⟩ := List.mem_map.mp ha
    simp [is_signal]
  rw [henv]
  simp [is_signal]

/-- C26: the calls of `signal ()` that `run_child_process` makes in the forked child are
exactly five, for SIGTERM, SIGINT, SIGHUP, SIGUSR1 and SIGUSR2, each with SIG_IGN: the
signals are set to be ignored, and no call with SIG_DFL is made anywhere in the child.  The
five calls are made in the first part of the function, which holds no `execvp`, and the rest
of the function, which executes the command, makes no call of `signal ()`. -/
theorem run_child_process_ignores_signals (process : ChildProcess) (argv : List String)
    (os : ChildOS) :
    (run_child_process process argv os).filter is_signal =
      [ChildAction.signal SIGTERM SigDisposition.SIG_IGN,
       ChildAction.signal SIGINT SigDisposition.SIG_IGN,
       ChildAction.signal SIGHUP SigDisposition.SIG_IGN,
       ChildAction.signal SIGUSR1 SigDisposition.SIG_IGN,
       ChildAction.signal SIGUSR2 SigDisposition.SIG_IGN] ∧
    (∀ signum, ChildAction.signal signum SigDisposition.SIG_DFL ∉
      run_child_process process argv os) ∧
    (∃ pre post, run_child_process process argv os = pre ++ post ∧
      pre.filter is_signal =
        [ChildAction.signal SIGTERM SigDisposition.SIG_IGN,
         ChildAction.signal SIGINT SigDisposition.SIG_IGN,
         ChildAction.signal SIGHUP SigDisposition.SIG_IGN,
         ChildAction.signal SIGUSR1 SigDisposition.SIG_IGN,
         ChildAction.signal SIGUSR2 SigDisposition.SIG_IGN] ∧
      (∀ a ∈ pre, is_execvp a = false) ∧ post.filter is_signal = []) := by
  have hfilter : (run_child_process process argv os).filter is_signal =
      [ChildAction.signal SIGTERM SigDisposition.SIG_IGN,
       ChildAction.signal SIGINT SigDisposition.SIG_IGN,
       ChildAction.signal SIGHUP SigDisposition.SIG_IGN,
       ChildAction.signal SIGUSR1 SigDisposition.SIG_IGN,
       ChildAction.signal SIGUSR2 SigDisposition.SIG_IGN] := by
    unfold run_child_process
    rw [List.filter_append, run_child_user_no_signal, List.append_nil,
      run_child_setup_signals]
  refine ⟨hfilter, ?_, run_child_setup process os, run_child_user process argv os, rfl,
    run_child_setup_signals process os, run_child_setup_no_execvp process os,
    run_child_user_no_signal process argv os⟩
  intro signum hmem
  have hin : ChildAction.signal signum SigDisposition.SIG_DFL ∈
      (run_child_process process argv os).filter is_signal :=
    List.mem_filter.mpr ⟨hmem, rfl⟩
  rw [hfilter] at hin
  simp at hin

/-- C26, counterexample: in the child forked for the session of alice the disposition of
SIGTERM is set to SIG_IGN, no call sets it to SIG_DFL, and the command is executed. -/
theorem run_child_process_sig_ign_counterexample :
    ChildAction.signal SIGTERM SigDisposition.SIG_IGN ∈
      run_child_process { user := some alice } ["gnome-session"] call_os.start.child ∧
    ChildAction.signal SIGTERM SigDisposition.SIG_DFL ∉
      run_child_process { user := some alice } ["gnome-session"] call_os.start.child ∧
    ChildAction.execvp ["gnome-session"] ∈
      run_child_process { user := some alice } ["gnome-session"] call_os.start.child := by
  refine ⟨?_, ?_, ?_⟩ <;> decide

theorem child_process_launch_failed (s : Supervisor) (process : Nat) (p : ChildProcess)
    (fx : List Effect) (a b : Int) (os : StartOS) (hlt : process < s.heap.length)
    (hfail : (child_process_launch s process p fx a b os).1 = StartResult.returned false)
    (hpid : p.pid = 0) :
    child_process_get_pid (child_process_launch s process p fx a b os).2 (some process) = 0 ∧
    (child_process_launch s process p fx a b os).2.processes = s.processes ∧
    (child_process_launch s process p fx a b os).2.watches = s.watches ∧
    (os.argv = none ∨ os.fork < 0) := by
  unfold child_process_launch at hfail ⊢
  cases hargv : os.argv with
  | none =>
    simp [child_process_get_pid, List.getElem?_set_self hlt, hpid]
  | some argv =>
    rw [hargv] at hfail
    simp only at hfail ⊢
    by_cases h1 : os.fork < 0
    · simp [h1, child_process_get_pid, List.getElem?_set_self hlt, hpid]
    · by_cases h2 : os.fork = 0
      · simp [h1, h2] at hfail
      · simp [h1, h2] at hfail

theorem child_process_start_succeeds (s : Supervisor) (process : Nat) (user : User)
    (wd : Option String) (command : String) (cp : Bool) (os : StartOS) (p0 : ChildProcess)
    (argv : List String) (hp0 : s.heap[process]? = some p0) (hpid : p0.pid = 0)
    (hargv : os.argv = some argv) (hfork : 0 < os.fork)
    (hpipe : cp = true → os.to_child_pipe.isSome ∧ os.from_child_pipe.isSome) :
    (child_process_start s process user wd command cp os).1 = StartResult.returned true := by
  have h1 : ¬ os.fork < 0 := by omega
  have h2 : ¬ os.fork = 0 := by omega
  have hl : ∀ p fx a b, (child_process_launch s process p fx a b os).1 =
      StartResult.returned true := by
    intro p fx a b
    simp [child_process_launch, hargv, h1, h2]
  unfold child_process_start
  simp only [hp0, hpid, ne_eq, not_true_eq_false, if_false]
  cases cp with
  | false => exact hl _ _ _ _
  | true =>
    obtain ⟨ht, hf⟩ := hpipe rfl
    obtain ⟨t, ht⟩ := Option.isSome_iff_exists.mp ht
    obtain ⟨f, hf⟩ := Option.isSome_iff_exists.mp hf
    simp only [ht, hf, if_true]
    exact hl _ _ _ _

/-- C28: when `child_process_start` returns FALSE for an instance that is not running (a
pipe could not be created, the command line did not parse, or `fork` failed), the pid of the
instance is still 0 and the registry and the child watches are unchanged; a later
`child_process_start` on the same instance passes the running guard and, when its own calls
succeed, returns TRUE. -/
theorem child_process_start_failure_keeps_idle (s : Supervisor) (process : Nat) (user : User)
    (wd : Option String) (command : String) (cp : Bool) (os : StartOS) (p0 : ChildProcess)
    (hp0 : s.heap[process]? = some p0) (hpid : p0.pid = 0)
    (hfail : (child_process_start s process user wd command cp os).1 =
      StartResult.returned false) :
    child_process_get_pid (child_process_start s process user wd command cp os).2
      (some process) = 0 ∧
    (child_process_start s process user wd command cp os).2.processes = s.processes ∧
    (child_process_start s process user wd command cp os).2.watches = s.watches ∧
    ((cp = true ∧ (os.to_child_pipe = none ∨ os.from_child_pipe = none)) ∨ os.argv = none ∨
      os.fork < 0) ∧
    (∀ (user2 : User) (wd2 : Option String) (command2 : String) (cp2 : Bool) (os2 : StartOS)
        (argv : List String),
      os2.argv = some argv → 0 < os2.fork →
      (cp2 = true → os2.to_child_pipe.isSome ∧ os2.from_child_pipe.isSome) →
      (child_process_start (child_process_start s process user wd command cp os).2 process
        user2 wd2 command2 cp2 os2).1 = StartResult.returned true) := by
  have hlt : process < s.heap.length := lt_length_of_lookup hp0
  have hmain : child_process_get_pid (child_process_start s process user wd command cp os).2
        (some process) = 0 ∧
      (child_process_start s process user wd command cp os).2.processes = s.processes ∧
      (child_process_start s process user wd command cp os).2.watches = s.watches ∧
      ((cp = true ∧ (os.to_child_pipe = none ∨ os.from_child_pipe = none)) ∨ os.argv = none ∨
        os.fork < 0) := by
    unfold child_process_start at hfail ⊢
    simp only [hp0, hpid, ne_eq, not_true_eq_false, if_false] at hfail ⊢
    cases cp with
    | false =>
      simp only [Bool.false_eq_true, if_false] at hfail ⊢
      obtain ⟨h1, h2, h3, h4⟩ := child_process_launch_failed s process _ _ _ _ os hlt hfail rfl
      exact ⟨h1, h2, h3, Or.inr h4⟩
    | true =>
      simp only [if_true] at hfail ⊢
      cases ht : os.to_child_pipe with
      | none =>
        simp [child_process_get_pid, List.getElem?_set_self hlt, hpid]
      | some t =>
        cases hf : os.from_child_pipe with
        | none =>
          simp [child_process_get_pid, List.getElem?_set_self hlt, hpid]
        | some f =>
          rw [ht, hf] at hfail
          simp only at hfail ⊢
          obtain ⟨h1, h2, h3, h4⟩ :=
            child_process_launch_failed s process _ _ _ _ os hlt hfail (by
              simp [child_process_set_env])
          exact ⟨h1, h2, h3, Or.inr h4⟩
  refine ⟨hmain.1, hmain.2.1, hmain.2.2.1, hmain.2.2.2, ?_⟩
  intro user2 wd2 command2 cp2 os2 argv hargv hfork hpipe
  have hget := hmain.1
  unfold child_process_get_pid at hget
  cases hq : (child_process_start s process user wd command cp os).2.heap[process]? with
  | none =>
    simp [hq] at hget
  | some q =>
    have hq0 : q.pid = 0 := by simpa [hq] using hget
    exact child_process_start_succeeds _ process user2 wd2 command2 cp2 os2 q argv hq hq0
      hargv hfork hpipe

theorem child_process_start_failure_keeps_idle_witness :
    (child_process_start idle_supervisor 0 alice none "xterm -e 'oops" true bad_argv_os).1 =
      StartResult.returned false ∧
    child_process_get_pid
      (child_process_start idle_supervisor 0 alice none "xterm -e 'oops" true bad_argv_os).2
      (some 0) = 0 ∧
    (child_process_start idle_supervisor 0 alice none "xterm -e 'oops" true bad_argv_os).2.processes
      = [] ∧
    (child_process_start
      (child_process_start idle_supervisor 0 alice none "xterm -e 'oops" true bad_argv_os).2 0
      alice none "xterm" false call_os.start).1 = StartResult.returned true :=
  ⟨by decide,
    (child_process_start_failure_keeps_idle idle_supervisor 0 alice none "xterm -e 'oops" true
      bad_argv_os {} (by decide) (by decide) (by decide)).1,
    (child_process_start_failure_keeps_idle idle_supervisor 0 alice none "xterm -e 'oops" true
      bad_argv_os {} (by decide) (by decide) (by decide)).2.1,
    (child_process_start_failure_keeps_idle idle_supervisor 0 alice none "xterm -e 'oops" true
      bad_argv_os {} (by decide) (by decide) (by decide)).2.2.2.2 alice none "xterm" false
      call_os.start ["gnome-session"] (by decide) (by decide) (by decide)⟩

theorem start_user_session_fails_early (h : Host) (w : World) (session language : Option String)
    (os : CallOS) (i : Nat) (ps : PAMSession)
    (hptr : w.display.user_pam_session = some i) (hps : w.pam_sessions[i]? = some ps)
    (hfail : hash_lookup h.xsessions (printf_s session) = none ∨
      (∃ desktop, hash_lookup h.xsessions (printf_s session) = some desktop ∧
        g_key_file_get_string desktop "Desktop Entry" "Exec" = none) ∨
      (∃ desktop exec, hash_lookup h.xsessions (printf_s session) = some desktop ∧
        g_key_file_get_string desktop "Desktop Entry" "Exec" = some exec ∧
        user_get_by_name h.users (pam_session_get_username ps).1 = none)) :
    start_user_session h w session language os =
      (false,
        { w with
          display := { w.display with login_count := w.display.login_count + 1 }
          pam_sessions := w.pam_sessions.set i (pam_session_get_username ps).2 }) := by
  rcases hfail with hd | ⟨desktop, hd, he⟩ | ⟨desktop, exec, hd, he, hu⟩
  · simp [start_user_session, call_pam_session_get_username, hptr, hps, hd]
  · simp [start_user_session, call_pam_session_get_username, hptr, hps, hd, he]
  · simp [start_user_session, call_pam_session_get_username, hptr, hps, hd, he, hu]

/-- C29: when `start_user_session` fails for an authorized login because the session
descriptor does not load, names no command, or the user does not resolve, the Display is
not left as it was: `login_count` has been incremented, and `greeter_start_session_cb`,
which does not read the result, goes on to set the guard timer (when the transition flag
left by an earlier session is set) or to ask the greeter to quit.  No user session object
is created and nothing is forked or saved. -/
theorem start_user_session_failure_quits_greeter (h : Host) (w : World) (greeter : Greeter)
    (session language : String) (os : CallOS) (i : Nat) (ps : PAMSession)
    (hhalt : w.halted = none)
    (hptr : greeter.pam_session = some i) (hps : w.pam_sessions[i]? = some ps)
    (hin : ps.in_session = true)
    (hfail : hash_lookup h.xsessions (printf_s (effective_session w.display session)) = none ∨
      (∃ desktop,
        hash_lookup h.xsessions (printf_s (effective_session w.display session)) =
          some desktop ∧
        g_key_file_get_string desktop "Desktop Entry" "Exec" = none) ∨
      (∃ desktop exec,
        hash_lookup h.xsessions (printf_s (effective_session w.display session)) =
          some desktop ∧
        g_key_file_get_string desktop "Desktop Entry" "Exec" = some exec ∧
        user_get_by_name h.users (pam_session_get_username ps).1 = none)) :
    (greeter_start_session_cb h w greeter session language os).display.login_count =
      w.display.login_count + 1 ∧
    (greeter_start_session_cb h w greeter session language os).display.user_session =
      w.display.user_session ∧
    (greeter_start_session_cb h w greeter session language os).display.greeter_session =
      w.display.greeter_session ∧
    (greeter_start_session_cb h w greeter session language os).supervisor = w.supervisor ∧
    (greeter_start_session_cb h w greeter session language os).dmrc = w.dmrc ∧
    (greeter_start_session_cb h w greeter session language os).events =
      w.events ++
        [if w.display.supports_transitions then Event.timeout_add USER_SESSION_TIMEOUT
         else Event.greeter_quit (w.display.greeter_session.map (fun g => g.session.process))] ∧
    (greeter_start_session_cb h w greeter session language os).display.user_session_timer =
      (if w.display.supports_transitions then os.timer else w.display.user_session_timer) := by
  obtain ⟨w1, hw1⟩ : ∃ w1 : World, w1 =
      { w with display := { w.display with user_pam_session := greeter.pam_session } } :=
    ⟨_, rfl⟩
  have hstart := start_user_session_fails_early h w1
    (effective_session w.display session) (effective_language language) os i ps
    (by rw [hw1]; exact hptr) (by rw [hw1]; exact hps) hfail
  have hguard : greeter_start_session_cb h w greeter session language os =
      (if (start_user_session h w1 (effective_session w.display session)
          (effective_language language) os).2.halted.isSome
        then (start_user_session h w1 (effective_session w.display session)
          (effective_language language) os).2
       else if (start_user_session h w1 (effective_session w.display session)
          (effective_language language) os).2.display.supports_transitions then
         { (start_user_session h w1 (effective_session w.display session)
             (effective_language language) os).2 with
           display :=
             { (start_user_session h w1 (effective_session w.display session)
                 (effective_language language) os).2.display with
               user_session_timer := os.timer }
           events := (start_user_session h w1 (effective_session w.display session)
             (effective_language language) os).2.events ++
               [Event.timeout_add USER_SESSION_TIMEOUT] }
       else
         { (start_user_session h w1 (effective_session w.display session)
             (effective_language language) os).2 with
           events := (start_user_session h w1 (effective_session w.display session)
               (effective_language language) os).2.events ++
             [Event.greeter_quit
               ((start_user_session h w1 (effective_session w.display session)
                 (effective_language language) os).2.display.greeter_session.map
                   (fun g => g.session.process))] }) := by
    rw [hw1]
    unfold greeter_start_session_cb
    simp [hptr, get_pam, hps, pam_session_get_in_session, hin]
  rw [hguard, hstart, hw1]
  by_cases ht : w.display.supports_transitions = true <;> simp [ht, hhalt]

theorem start_user_session_failure_quits_greeter_witness :
    (greeter_start_session_cb login_host greeter_world login_greeter "kde" ""
      call_os).display.login_count = greeter_world.display.login_count + 1 ∧
    (greeter_start_session_cb login_host greeter_world login_greeter "kde" "" call_os).events =
      [Event.greeter_quit (some 0)] ∧
    (greeter_quit_cb
      (greeter_start_session_cb login_host greeter_world login_greeter "kde" "" call_os)
      call_os).display.greeter_session = none ∧
    (greeter_quit_cb
      (greeter_start_session_cb login_host greeter_world login_greeter "kde" "" call_os)
      call_os).display.user_session = none :=
  ⟨(start_user_session_failure_quits_greeter login_host greeter_world login_greeter "kde" ""
      call_os 1 { service := "lightdm", username := some "alice", in_session := true }
      (by decide) (by decide) (by decide) (by decide) (Or.inl (by decide))).1,
    by decide, by decide, by decide⟩

theorem hash_lookup_remove_self {κ ν : Type} [DecidableEq κ] (t : List (κ × ν)) (k : κ) :
    hash_lookup (hash_remove t k) k = none := by
  unfold hash_lookup hash_remove
  have h : (t.filter (fun e => decide (e.1 ≠ k))).find? (fun e => decide (e.1 = k)) = none := by
    rw [List.find?_eq_none]
    intro e he
    have := (List.mem_filter.mp he).2
    simpa using this
  rw [h]
  rfl

theorem call_set_env_lookup (w : World) (process : Nat) (name : String)
    (value : Option String) (k : String) (hlt : process < w.supervisor.heap.length) :
    process_env_lookup (call_set_env w process name value).supervisor process k =
      env_after_set k name value (process_env_lookup w.supervisor process k) := by
  unfold env_after_set
  by_cases hk : k = name
  · subst hk
    rw [if_pos rfl]
    cases value with
    | some v => exact call_set_env_lookup_self w process k v hlt
    | none =>
      unfold call_set_env process_env_lookup
      cases hq : w.supervisor.heap[process]? with
      | none =>
        rw [List.getElem?_eq_none_iff] at hq
        omega
      | some p =>
        simp only [List.getElem?_set_self hlt, Option.bind_some, child_process_set_env]
        exact hash_lookup_remove_self p.env k
  · rw [if_neg hk]
    exact call_set_env_lookup_ne w process name value k hk

theorem set_env_from_keyfile_lookup (w : World) (process : Nat) (name : String)
    (key_file : KeyFile) (section_name key : String) (k : String)
    (hlt : process < w.supervisor.heap.length) :
    process_env_lookup
        (set_env_from_keyfile w process name key_file section_name key).supervisor process k =
      env_after_optional k name (g_key_file_get_string key_file section_name key)
        (process_env_lookup w.supervisor process k) := by
  unfold set_env_from_keyfile env_after_optional
  cases hv : g_key_file_get_string key_file section_name key with
  | none => rfl
  | some v =>
    simp only
    rw [call_set_env_lookup _ _ _ _ _ hlt]
    rfl

theorem user_session_env_lookup_all (w : World) (process : Nat) (address : String)
    (session : Option String) (dmrc_file : KeyFile) (i : Nat) (ps : PAMSession) (k : String)
    (hptr : w.display.user_pam_session = some i) (hps : w.pam_sessions[i]? = some ps)
    (hlt : process < w.supervisor.heap.length) :
    process_env_lookup
        (user_session_env w process address session dmrc_file).supervisor process k =
      (session_pam_env w.passwd_file ps).foldl (pam_env_entry k)
        (user_env_before_pam k address w.display.user_ck_cookie session dmrc_file
          (process_env_lookup w.supervisor process k)) := by
  have htail : ∀ w5 : World, w5.display.user_pam_session = some i →
      w5.pam_sessions[i]? = some ps → process < w5.supervisor.heap.length →
      process_env_lookup
        (set_env_from_pam_session
          (set_env_from_keyfile
            (set_env_from_keyfile
              (set_env_from_keyfile
                (set_env_from_keyfile
                  (call_set_env (call_set_env w5 process "DESKTOP_SESSION" session) process
                    "GDMSESSION" session)
                  process "LANG" dmrc_file "Desktop" "Language")
                process "LANGUAGE" dmrc_file "Desktop" "Langlist")
              process "LC_MESSAGES" dmrc_file "Desktop" "LCMess")
            process "GDM_KEYBOARD_LAYOUT" dmrc_file "Desktop" "Layout")
          process (some i)).supervisor process k =
      (session_pam_env w5.passwd_file ps).foldl (pam_env_entry k)
        (env_after_optional k "GDM_KEYBOARD_LAYOUT"
          (g_key_file_get_string dmrc_file "Desktop" "Layout")
          (env_after_optional k "LC_MESSAGES"
            (g_key_file_get_string dmrc_file "Desktop" "LCMess")
            (env_after_optional k "LANGUAGE"
              (g_key_file_get_string dmrc_file "Desktop" "Langlist")
              (env_after_optional k "LANG"
                (g_key_file_get_string dmrc_file "Desktop" "Language")
                (env_after_set k "GDMSESSION" session
                  (env_after_set k "DESKTOP_SESSION" session
                    (process_env_lookup w5.supervisor process k))))))) := by
    intro w5 h5ptr h5ps h5lt
    rw [set_env_from_pam_session_lookup _ process i ps k
      (by simp only [set_env_from_keyfile_pam_sessions, call_set_env_pam_sessions]; exact h5ps)
      (by simp only [set_env_from_keyfile_heap_length, call_set_env_heap_length]; exact h5lt)]
    simp only [set_env_from_keyfile_passwd_file, call_set_env_passwd_file]
    rw [set_env_from_keyfile_lookup _ _ _ _ _ _ _
        (by simp only [set_env_from_keyfile_heap_length, call_set_env_heap_length]; exact h5lt),
      set_env_from_keyfile_lookup _ _ _ _ _ _ _
        (by simp only [set_env_from_keyfile_heap_length, call_set_env_heap_length]; exact h5lt),
      set_env_from_keyfile_lookup _ _ _ _ _ _ _
        (by simp only [set_env_from_keyfile_heap_length, call_set_env_heap_length]; exact h5lt),
      set_env_from_keyfile_lookup _ _ _ _ _ _ _
        (by simp only [call_set_env_heap_length]; exact h5lt),
      call_set_env_lookup _ _ _ _ _ (by simp only [call_set_env_heap_length]; exact h5lt),
      call_set_env_lookup _ _ _ _ _ h5lt]
  unfold user_session_env user_env_before_pam
  cases hck : w.display.user_ck_cookie with
  | none =>
    simp only [call_set_env_display, hck, set_env_from_keyfile_display, hptr]
    rw [htail _ (by rw [call_set_env_display]; exact hptr)
      (by rw [call_set_env_pam_sessions]; exact hps)
      (by rw [call_set_env_heap_length]; exact hlt), call_set_env_passwd_file,
      call_set_env_lookup _ _ _ _ _ hlt]
    rfl
  | some cookie =>
    simp only [call_set_env_display, hck, set_env_from_keyfile_display, hptr]
    rw [htail _ (by simp only [call_set_env_display]; exact hptr)
      (by simp only [call_set_env_pam_sessions]; exact hps)
      (by simp only [call_set_env_heap_length]; exact hlt)]
    simp only [call_set_env_passwd_file]
    rw [call_set_env_lookup _ _ _ _ _ (by simp only [call_set_env_heap_length]; exact hlt),
      call_set_env_lookup _ _ _ _ _ hlt]
    rfl

theorem xserver_get_address_cached (server : XServer) :
    (xserver_get_address (xserver_get_address server).2).1 = (xserver_get_address server).1 := by
  unfold xserver_get_address
  cases ha : server.address <;> simp [ha]

theorem start_user_session_env_full (h : Host) (w : World) (session language : Option String)
    (os : CallOS) (i : Nat) (ps : PAMSession) (desktop : KeyFile) (exec : String) (user : User)
    (x : Nat) (server : XServer)
    (hhalt : w.halted = none)
    (hptr : w.display.user_pam_session = some i) (hps : w.pam_sessions[i]? = some ps)
    (hdesc : hash_lookup h.xsessions (printf_s session) = some desktop)
    (hexec : g_key_file_get_string desktop "Desktop Entry" "Exec" = some exec)
    (huser : user_get_by_name h.users (pam_session_get_username ps).1 = some user)
    (hx : w.display.xserver = some x) (hserver : w.xservers[x]? = some server) :
    ∃ w3 : World,
      start_user_session h w session language os =
        launch_user_session
          (user_session_env w3 w.supervisor.heap.length (xserver_get_address server).1 session
            (updated_dmrc (dmrc_load w.dmrc (pam_session_get_username ps).1) session language))
          ⟨w.supervisor.heap.length, some user,
            some (wrapped_command w.display.session_wrapper exec)⟩
          (updated_dmrc (dmrc_load w.dmrc (pam_session_get_username ps).1) session language)
          (pam_session_get_username ps).1 os ∧
      w3.supervisor.heap = w.supervisor.heap ++ [({} : ChildProcess)] ∧
      w3.pam_sessions = w.pam_sessions.set i (pam_session_get_username ps).2 ∧
      w3.display.user_pam_session = some i ∧
      w3.passwd_file = w.passwd_file ∧ w3.dmrc = w.dmrc ∧ w3.halted = none ∧
      w3.display.user_ck_cookie = (if h.uid ≠ 0 then none else os.ck_cookie) ∧
      w3.display.greeter_session = w.display.greeter_session := by
  by_cases huid : h.uid ≠ 0
  · refine ⟨{ w with
          display :=
            { w.display with
              login_count := w.display.login_count + 1
              user_ck_cookie := none
              supports_transitions :=
                g_key_file_get_boolean desktop "Desktop Entry" "X-LightDM-Supports-Transitions"
              user_session :=
                some ⟨w.supervisor.heap.length, some user,
                  some (wrapped_command w.display.session_wrapper exec)⟩ }
          pam_sessions := w.pam_sessions.set i (pam_session_get_username ps).2
          supervisor := { w.supervisor with heap := w.supervisor.heap ++ [{}] }
          xservers := w.xservers.set x (xserver_get_address server).2 },
        ?_, rfl, rfl, hptr, rfl, rfl, hhalt, by simp [huid], rfl⟩
    simp [start_user_session, call_pam_session_get_username, hptr, hps, hdesc, hexec,
      huser, start_ck_session, huid, hhalt, hx, hserver, wrapped_command]
  · have huid0 : h.uid = 0 := by simpa using huid
    have hlt : x < w.xservers.length := lt_length_of_lookup hserver
    refine ⟨{ w with
          display :=
            { w.display with
              login_count := w.display.login_count + 1
              user_ck_cookie := os.ck_cookie
              supports_transitions :=
                g_key_file_get_boolean desktop "Desktop Entry" "X-LightDM-Supports-Transitions"
              user_session :=
                some ⟨w.supervisor.heap.length, some user,
                  some (wrapped_command w.display.session_wrapper exec)⟩ }
          pam_sessions := w.pam_sessions.set i (pam_session_get_username ps).2
          supervisor := { w.supervisor with heap := w.supervisor.heap ++ [{}] }
          xservers := (w.xservers.set x (xserver_get_address server).2).set x
            (xserver_get_address (xserver_get_address server).2).2
          events := w.events ++ ck_events h "" user server },
        ?_, rfl, rfl, hptr, rfl, rfl, hhalt, by simp [huid0], rfl⟩
    rw [← xserver_get_address_cached server]
    simp [start_user_session, call_pam_session_get_username, hptr, hps, hdesc, hexec,
      huser, start_ck_session, huid0, hhalt, hx, hserver, wrapped_command,
      List.getElem?_set_self hlt, ck_events]

theorem greeter_start_session_cb_built (h : Host) (w : World) (greeter : Greeter)
    (session language : String) (os : CallOS) (i : Nat) (ps : PAMSession)
    (desktop : KeyFile) (exec : String) (user : User) (x : Nat) (server : XServer)
    (hhalt : w.halted = none)
    (hptr : greeter.pam_session = some i) (hps : w.pam_sessions[i]? = some ps)
    (hin : ps.in_session = true)
    (hdesc : hash_lookup h.xsessions (printf_s (effective_session w.display session)) =
      some desktop)
    (hexec : g_key_file_get_string desktop "Desktop Entry" "Exec" = some exec)
    (huser : user_get_by_name h.users (pam_session_get_username ps).1 = some user)
    (hx : w.display.xserver = some x) (hserver : w.xservers[x]? = some server)
    (hfork : os.start.fork ≠ 0) :
    (greeter_start_session_cb h w greeter session language os).halted = none ∧
    (greeter_start_session_cb h w greeter session language os).dmrc =
      dmrc_save w.dmrc
        (updated_dmrc (dmrc_load w.dmrc (pam_session_get_username ps).1)
          (effective_session w.display session) (effective_language language))
        (pam_session_get_username ps).1 ∧
    (∀ k, process_env_lookup
        (greeter_start_session_cb h w greeter session language os).supervisor
        w.supervisor.heap.length k =
      (session_pam_env w.passwd_file ps).foldl (pam_env_entry k)
        (user_env_before_pam k (xserver_get_address server).1
          (if h.uid ≠ 0 then none else os.ck_cookie) (effective_session w.display session)
          (updated_dmrc (dmrc_load w.dmrc (pam_session_get_username ps).1)
            (effective_session w.display session) (effective_language language))
          none)) := by
  obtain ⟨w1, hw1⟩ : ∃ w1 : World, w1 =
      { w with display := { w.display with user_pam_session := greeter.pam_session } } :=
    ⟨_, rfl⟩
  have h1halt : w1.halted = none := by rw [hw1]; exact hhalt
  have h1ptr : w1.display.user_pam_session = some i := by rw [hw1]; exact hptr
  have h1ps : w1.pam_sessions[i]? = some ps := by rw [hw1]; exact hps
  have h1x : w1.display.xserver = some x := by rw [hw1]; exact hx
  have h1server : w1.xservers[x]? = some server := by rw [hw1]; exact hserver
  have h1heap : w1.supervisor.heap = w.supervisor.heap := by rw [hw1]
  have h1dmrc : w1.dmrc = w.dmrc := by rw [hw1]
  have h1pf : w1.passwd_file = w.passwd_file := by rw [hw1]
  have hguard : greeter_start_session_cb h w greeter session language os =
      (if (start_user_session h w1 (effective_session w.display session)
          (effective_language language) os).2.halted.isSome
        then (start_user_session h w1 (effective_session w.display session)
          (effective_language language) os).2
       else if (start_user_session h w1 (effective_session w.display session)
          (effective_language language) os).2.display.supports_transitions then
         { (start_user_session h w1 (effective_session w.display session)
             (effective_language language) os).2 with
           display :=
             { (start_user_session h w1 (effective_session w.display session)
                 (effective_language language) os).2.display with
               user_session_timer := os.timer }
           events := (start_user_session h w1 (effective_session w.display session)
             (effective_language language) os).2.events ++
               [Event.timeout_add USER_SESSION_TIMEOUT] }
       else
         { (start_user_session h w1 (effective_session w.display session)
             (effective_language language) os).2 with
           events := (start_user_session h w1 (effective_session w.display session)
               (effective_language language) os).2.events ++
             [Event.greeter_quit
               ((start_user_session h w1 (effective_session w.display session)
                 (effective_language language) os).2.display.greeter_session.map
                   (fun g => g.session.process))] }) := by
    rw [hw1]
    unfold greeter_start_session_cb
    simp [hptr, get_pam, hps, pam_session_get_in_session, hin]
  obtain ⟨w3, hstart, h3heap, h3pam, h3ptr, h3pf, h3dmrc, h3halt, h3ck, _⟩ :=
    start_user_session_env_full h w1 (effective_session w.display session)
      (effective_language language) os i ps desktop exec user x server h1halt h1ptr h1ps
      hdesc hexec huser h1x h1server
  have hlt3 : w1.supervisor.heap.length < w3.supervisor.heap.length := by
    rw [h3heap]; simp
  have h3ps : w3.pam_sessions[i]? = some (pam_session_get_username ps).2 := by
    rw [h3pam, List.getElem?_set_self (lt_length_of_lookup h1ps)]
  have h3base : ∀ k, process_env_lookup w3.supervisor w1.supervisor.heap.length k = none := by
    intro k
    unfold process_env_lookup
    rw [h3heap]
    simp [hash_lookup]
  obtain ⟨heap, _, henv⟩ := user_session_env_env_changed w3 w1.supervisor.heap.length
    (xserver_get_address server).1 (effective_session w.display session)
    (updated_dmrc (dmrc_load w1.dmrc (pam_session_get_username ps).1)
      (effective_session w.display session) (effective_language language))
  have hehalt : (user_session_env w3 w1.supervisor.heap.length (xserver_get_address server).1
      (effective_session w.display session)
      (updated_dmrc (dmrc_load w1.dmrc (pam_session_get_username ps).1)
        (effective_session w.display session) (effective_language language))).halted = none := by
    rw [henv]; exact h3halt
  have hedmrc : (user_session_env w3 w1.supervisor.heap.length (xserver_get_address server).1
      (effective_session w.display session)
      (updated_dmrc (dmrc_load w1.dmrc (pam_session_get_username ps).1)
        (effective_session w.display session) (effective_language language))).dmrc =
      w.dmrc := by
    rw [henv]; exact h3dmrc.trans h1dmrc
  have hsup : (greeter_start_session_cb h w greeter session language os).supervisor =
      (start_user_session h w1 (effective_session w.display session)
        (effective_language language) os).2.supervisor := by
    rw [hguard]
    split
    · rfl
    · split <;> rfl
  have hdm : (greeter_start_session_cb h w greeter session language os).dmrc =
      (start_user_session h w1 (effective_session w.display session)
        (effective_language language) os).2.dmrc := by
    rw [hguard]
    split
    · rfl
    · split <;> rfl
  have hha : (greeter_start_session_cb h w greeter session language os).halted =
      (start_user_session h w1 (effective_session w.display session)
        (effective_language language) os).2.halted := by
    rw [hguard]
    split
    · rfl
    · split <;> rfl
  refine ⟨?_, ?_, ?_⟩
  · rw [hha, hstart]
    exact (launch_user_session_saves _ _ _ _ os hehalt hfork).1
  · rw [hdm, hstart, (launch_user_session_saves _ _ _ _ os hehalt hfork).2.1, hedmrc, h1dmrc]
  · intro k
    rw [hsup, hstart, (launch_user_session_saves _ _ _ _ os hehalt hfork).2.2.2, ← h1heap,
      user_session_env_lookup_all w3 _ _ _ _ i _ k h3ptr h3ps hlt3, h3pf, h1pf,
      session_pam_env_get_username, h3base, h3ck, h1dmrc]

theorem split_first_equals_join (name value : List Char) (hname : '=' ∉ name) :
    split_first_equals (name ++ '=' :: value) = some (name, value) := by
  induction name with
  | nil => simp [split_first_equals]
  | cons c cs ih =>
    have hc : c ≠ '=' := fun h => hname (by simp [h])
    have hcs : '=' ∉ cs := fun h => hname (List.mem_cons_of_mem _ h)
    simp [split_first_equals, hc, ih hcs]

theorem split_first_equals_none (entry : List Char) (h : '=' ∉ entry) :
    split_first_equals entry = none := by
  induction entry with
  | nil => rfl
  | cons c cs ih =>
    have hc : c ≠ '=' := fun he => h (by simp [he])
    have hcs : '=' ∉ cs := fun he => h (List.mem_cons_of_mem _ he)
    simp [split_first_equals, hc, ih hcs]

theorem pam_env_fold_keep (k : String) (post : List String) (acc : Option String)
    (hpost : ∀ e ∈ post, ∀ n v, split_first_equals e.toList = some (n, v) → String.mk n ≠ k) :
    post.foldl (pam_env_entry k) acc = acc := by
  induction post generalizing acc with
  | nil => rfl
  | cons e es ih =>
    rw [List.foldl_cons]
    have he : pam_env_entry k acc e = acc := by
      unfold pam_env_entry
      cases hs : split_first_equals e.toList with
      | none => rfl
      | some nv =>
        obtain ⟨n, v⟩ := nv
        simp only
        rw [if_neg (hpost e (List.mem_cons_self _ _) n v hs)]
    rw [he]
    exact ih acc (fun e1 h1 => hpost e1 (List.mem_cons_of_mem _ h1))

/-- C30: `set_env_from_pam_session` reads every entry of the PAM environment through
`g_strsplit (entry, "=", 2)`: an entry NAME=VALUE gives NAME everything after the first
equals sign, further equals signs included, and an entry without equals sign is skipped.
After the call each variable has the value of the last entry that names it, whatever the
overlay held before, and keeps its earlier value when no entry names it; in
`start_user_session` the call comes last, so this holds over DISPLAY, XDG_SESSION_COOKIE
and every other variable set there. -/
theorem set_env_from_pam_session_overrides (w : World) (process i : Nat) (ps : PAMSession)
    (hps : w.pam_sessions[i]? = some ps) (hlt : process < w.supervisor.heap.length) :
    (∀ name value : List Char, '=' ∉ name →
      split_first_equals (name ++ '=' :: value) = some (name, value)) ∧
    (∀ entry : List Char, '=' ∉ entry → split_first_equals entry = none) ∧
    (∀ (k : String) (acc : Option String) (entry : String), '=' ∉ entry.toList →
      pam_env_entry k acc entry = acc) ∧
    (∀ k, process_env_lookup (set_env_from_pam_session w process (some i)).supervisor process k =
      (session_pam_env w.passwd_file ps).foldl (pam_env_entry k)
        (process_env_lookup w.supervisor process k)) ∧
    (∀ (pre post : List String) (name value : List Char),
      session_pam_env w.passwd_file ps = pre ++ [String.mk (name ++ '=' :: value)] ++ post →
      '=' ∉ name →
      (∀ e ∈ post, ∀ n v, split_first_equals e.toList = some (n, v) →
        String.mk n ≠ String.mk name) →
      process_env_lookup (set_env_from_pam_session w process (some i)).supervisor process
        (String.mk name) = some (String.mk value)) ∧
    (∀ (address : String) (session : Option String) (dmrc_file : KeyFile) (k : String),
      w.display.user_pam_session = some i →
      process_env_lookup
          (user_session_env w process address session dmrc_file).supervisor process k =
        (session_pam_env w.passwd_file ps).foldl (pam_env_entry k)
          (user_env_before_pam k address w.display.user_ck_cookie session dmrc_file
            (process_env_lookup w.supervisor process k))) := by
  refine ⟨split_first_equals_join, split_first_equals_none, ?_,
    fun k => set_env_from_pam_session_lookup w process i ps k hps hlt, ?_, ?_⟩
  · intro k acc entry he
    unfold pam_env_entry
    rw [split_first_equals_none _ he]
  · intro pre post name value henv hname hpost
    rw [set_env_from_pam_session_lookup w process i ps _ hps hlt, henv, List.foldl_append,
      List.foldl_append, pam_env_fold_keep _ post _ hpost]
    simp only [List.foldl_cons, List.foldl_nil, pam_env_entry]
    have hs : split_first_equals (String.mk (name ++ '=' :: value)).toList =
        some (name, value) := split_first_equals_join name value hname
    rw [hs]
    simp
  · intro address session dmrc_file k hptr
    exact user_session_env_lookup_all w process address session dmrc_file i ps k hptr hps hlt

theorem set_env_from_pam_session_overrides_witness :
    process_env_lookup pam_override_world.supervisor 0 "DISPLAY" = some ":0" ∧
    process_env_lookup (set_env_from_pam_session pam_override_world 0 (some 1)).supervisor 0
      "DISPLAY" = some ":9" ∧
    process_env_lookup (set_env_from_pam_session pam_override_world 0 (some 1)).supervisor 0
      "XMODIFIERS" = some "@im=ibus" ∧
    process_env_lookup (set_env_from_pam_session pam_override_world 0 (some 1)).supervisor 0
      "BROKEN" = none :=
  ⟨by decide,
    ((set_env_from_pam_session_overrides pam_override_world 0 1
      { service := "lightdm", username := some "alice", in_session := true,
        pam_handle := some { user := some "alice",
                             envlist := ["DISPLAY=:9", "LANG=en_US.UTF-8",
                                         "XMODIFIERS=@im=ibus", "BROKEN"] } }
      (by decide) (by decide)).2.2.2.1 "DISPLAY").trans (by decide),
    by decide, by decide⟩

theorem user_env_before_pam_display (address : String) (cookie session : Option String)
    (dmrc_file : KeyFile) (base : Option String) :
    user_env_before_pam "DISPLAY" address cookie session dmrc_file base = some address := by
  simp only [user_env_before_pam, env_after_set, env_after_optional]
  cases g_key_file_get_string dmrc_file "Desktop" "Layout" <;>
    cases g_key_file_get_string dmrc_file "Desktop" "LCMess" <;>
    cases g_key_file_get_string dmrc_file "Desktop" "Langlist" <;>
    cases g_key_file_get_string dmrc_file "Desktop" "Language" <;>
    cases cookie <;> simp

theorem user_env_before_pam_cookie (address : String) (cookie session : Option String)
    (dmrc_file : KeyFile) :
    user_env_before_pam "XDG_SESSION_COOKIE" address cookie session dmrc_file none = cookie := by
  simp only [user_env_before_pam, env_after_set, env_after_optional]
  cases g_key_file_get_string dmrc_file "Desktop" "Layout" <;>
    cases g_key_file_get_string dmrc_file "Desktop" "LCMess" <;>
    cases g_key_file_get_string dmrc_file "Desktop" "Langlist" <;>
    cases g_key_file_get_string dmrc_file "Desktop" "Language" <;>
    cases cookie <;> simp

theorem user_env_before_pam_lang (address : String) (cookie session : Option String)
    (dmrc_file : KeyFile) :
    user_env_before_pam "LANG" address cookie session dmrc_file none =
      g_key_file_get_string dmrc_file "Desktop" "Language" := by
  simp only [user_env_before_pam, env_after_set, env_after_optional]
  cases g_key_file_get_string dmrc_file "Desktop" "Layout" <;>
    cases g_key_file_get_string dmrc_file "Desktop" "LCMess" <;>
    cases g_key_file_get_string dmrc_file "Desktop" "Langlist" <;>
    cases g_key_file_get_string dmrc_file "Desktop" "Language" <;>
    cases cookie <;> simp

theorem user_env_before_pam_language (address : String) (cookie session : Option String)
    (dmrc_file : KeyFile) :
    user_env_before_pam "LANGUAGE" address cookie session dmrc_file none =
      g_key_file_get_string dmrc_file "Desktop" "Langlist" := by
  simp only [user_env_before_pam, env_after_set, env_after_optional]
  cases g_key_file_get_string dmrc_file "Desktop" "Layout" <;>
    cases g_key_file_get_string dmrc_file "Desktop" "LCMess" <;>
    cases g_key_file_get_string dmrc_file "Desktop" "Langlist" <;>
    cases g_key_file_get_string dmrc_file "Desktop" "Language" <;>
    cases cookie <;> simp

theorem user_env_before_pam_lc_messages (address : String) (cookie session : Option String)
    (dmrc_file : KeyFile) :
    user_env_before_pam "LC_MESSAGES" address cookie session dmrc_file none =
      g_key_file_get_string dmrc_file "Desktop" "LCMess" := by
  simp only [user_env_before_pam, env_after_set, env_after_optional]
  cases g_key_file_get_string dmrc_file "Desktop" "Layout" <;>
    cases g_key_file_get_string dmrc_file "Desktop" "LCMess" <;>
    cases g_key_file_get_string dmrc_file "Desktop" "Langlist" <;>
    cases g_key_file_get_string dmrc_file "Desktop" "Language" <;>
    cases cookie <;> simp

theorem set_session_kept (d0 : KeyFile) (name key : String) (hk : key ≠ "Session") :
    g_key_file_get_string (g_key_file_set_string d0 "Desktop" "Session" name) "Desktop" key =
      g_key_file_get_string d0 "Desktop" key := by
  unfold g_key_file_get_string g_key_file_set_string
  rw [hash_lookup_insert, if_neg (by simpa using hk)]

theorem updated_dmrc_language (d0 : KeyFile) (session : Option String) (l : String) :
    g_key_file_get_string (updated_dmrc d0 session (some l)) "Desktop" "Language" = some l := by
  unfold updated_dmrc
  simp only
  split
  · unfold g_key_file_get_string g_key_file_remove_key g_key_file_set_string
    rw [hash_lookup_remove_ne _ _ _ (by decide), hash_lookup_remove_ne _ _ _ (by decide),
      hash_lookup_insert, if_pos rfl]
  · rename_i h
    simpa using h

theorem updated_dmrc_language_changed (d0 : KeyFile) (session : Option String) (l : String)
    (hne : g_key_file_get_string d0 "Desktop" "Language" ≠ some l) :
    g_key_file_get_string (updated_dmrc d0 session (some l)) "Desktop" "Langlist" = none ∧
    g_key_file_get_string (updated_dmrc d0 session (some l)) "Desktop" "LCMess" = none := by
  have hrem : ∀ d1 : KeyFile,
      g_key_file_get_string
        (g_key_file_remove_key
          (g_key_file_remove_key (g_key_file_set_string d1 "Desktop" "Language" l)
            "Desktop" "Langlist") "Desktop" "LCMess") "Desktop" "Langlist" = none ∧
      g_key_file_get_string
        (g_key_file_remove_key
          (g_key_file_remove_key (g_key_file_set_string d1 "Desktop" "Language" l)
            "Desktop" "Langlist") "Desktop" "LCMess") "Desktop" "LCMess" = none := by
    intro d1
    unfold g_key_file_get_string g_key_file_remove_key
    constructor
    · rw [hash_lookup_remove_ne _ _ _ (by decide), hash_lookup_remove_self]
    · rw [hash_lookup_remove_self]
  cases session with
  | none =>
    simp only [updated_dmrc]
    rw [if_pos hne]
    exact hrem d0
  | some name =>
    simp only [updated_dmrc]
    rw [set_session_kept d0 name "Language" (by decide), if_pos hne]
    exact hrem _

theorem updated_dmrc_no_language (d0 : KeyFile) (session : Option String) (key : String)
    (hk : key ≠ "Session") :
    g_key_file_get_string (updated_dmrc d0 session none) "Desktop" key =
      g_key_file_get_string d0 "Desktop" key := by
  cases session with
  | none => rfl
  | some name =>
    simp only [updated_dmrc]
    exact set_session_kept d0 name key hk

/-- C27: for an authorized request whose user session is built, in the daemon image: with
a requested language the saved settings hold it as Desktop/Language and LANG is that
language, as rewritten by the PAM environment, which is applied last; when it differs from
the stored language, Langlist and LCMess are removed from the saved settings, and LANGUAGE
and LC_MESSAGES have only the values the PAM environment gives them.  With no requested
language the saved Language, Langlist and LCMess are the stored ones, and LANG, LANGUAGE and
LC_MESSAGES are the stored values, as rewritten by the PAM environment.  In passwd-file
mode the PAM environment is empty. -/
theorem start_session_language (h : Host) (w : World) (greeter : Greeter)
    (session language : String) (os : CallOS) (i : Nat) (ps : PAMSession)
    (desktop : KeyFile) (exec : String) (user : User) (x : Nat) (server : XServer)
    (hhalt : w.halted = none)
    (hptr : greeter.pam_session = some i) (hps : w.pam_sessions[i]? = some ps)
    (hin : ps.in_session = true)
    (hdesc : hash_lookup h.xsessions (printf_s (effective_session w.display session)) =
      some desktop)
    (hexec : g_key_file_get_string desktop "Desktop Entry" "Exec" = some exec)
    (huser : user_get_by_name h.users (pam_session_get_username ps).1 = some user)
    (hx : w.display.xserver = some x) (hserver : w.xservers[x]? = some server)
    (hfork : os.start.fork ≠ 0) :
    (language ≠ "" →
      g_key_file_get_string
          (dmrc_load (greeter_start_session_cb h w greeter session language os).dmrc
            (pam_session_get_username ps).1) "Desktop" "Language" = some language ∧
      process_env_lookup (greeter_start_session_cb h w greeter session language os).supervisor
          w.supervisor.heap.length "LANG" =
        (session_pam_env w.passwd_file ps).foldl (pam_env_entry "LANG") (some language) ∧
      (g_key_file_get_string (dmrc_load w.dmrc (pam_session_get_username ps).1)
          "Desktop" "Language" ≠ some language →
        g_key_file_get_string
            (dmrc_load (greeter_start_session_cb h w greeter session language os).dmrc
              (pam_session_get_username ps).1) "Desktop" "Langlist" = none ∧
        g_key_file_get_string
            (dmrc_load (greeter_start_session_cb h w greeter session language os).dmrc
              (pam_session_get_username ps).1) "Desktop" "LCMess" = none ∧
        process_env_lookup
            (greeter_start_session_cb h w greeter session language os).supervisor
            w.supervisor.heap.length "LANGUAGE" =
          (session_pam_env w.passwd_file ps).foldl (pam_env_entry "LANGUAGE") none ∧
        process_env_lookup
            (greeter_start_session_cb h w greeter session language os).supervisor
            w.supervisor.heap.length "LC_MESSAGES" =
          (session_pam_env w.passwd_file ps).foldl (pam_env_entry "LC_MESSAGES") none)) ∧
    (language = "" →
      (∀ key, key ≠ "Session" →
        g_key_file_get_string
            (dmrc_load (greeter_start_session_cb h w greeter session language os).dmrc
              (pam_session_get_username ps).1) "Desktop" key =
          g_key_file_get_string (dmrc_load w.dmrc (pam_session_get_username ps).1)
            "Desktop" key) ∧
      process_env_lookup (greeter_start_session_cb h w greeter session language os).supervisor
          w.supervisor.heap.length "LANG" =
        (session_pam_env w.passwd_file ps).foldl (pam_env_entry "LANG")
          (g_key_file_get_string (dmrc_load w.dmrc (pam_session_get_username ps).1)
            "Desktop" "Language") ∧
      process_env_lookup (greeter_start_session_cb h w greeter session language os).supervisor
          w.supervisor.heap.length "LANGUAGE" =
        (session_pam_env w.passwd_file ps).foldl (pam_env_entry "LANGUAGE")
          (g_key_file_get_string (dmrc_load w.dmrc (pam_session_get_username ps).1)
            "Desktop" "Langlist") ∧
      process_env_lookup (greeter_start_session_cb h w greeter session language os).supervisor
          w.supervisor.heap.length "LC_MESSAGES" =
        (session_pam_env w.passwd_file ps).foldl (pam_env_entry "LC_MESSAGES")
          (g_key_file_get_string (dmrc_load w.dmrc (pam_session_get_username ps).1)
            "Desktop" "LCMess")) ∧
    (w.passwd_file.isSome → session_pam_env w.passwd_file ps = []) := by
  obtain ⟨_, hdmrc, hlook⟩ := greeter_start_session_cb_built h w greeter session language os i
    ps desktop exec user x server hhalt hptr hps hin hdesc hexec huser hx hserver hfork
  obtain ⟨u, hu⟩ : ∃ u, (pam_session_get_username ps).1 = some u := by
    cases hn : (pam_session_get_username ps).1 with
    | none => rw [hn] at huser; simp [user_get_by_name] at huser
    | some u => exact ⟨u, rfl⟩
  have hsaved : dmrc_load (greeter_start_session_cb h w greeter session language os).dmrc
      (pam_session_get_username ps).1 =
      updated_dmrc (dmrc_load w.dmrc (pam_session_get_username ps).1)
        (effective_session w.display session) (effective_language language) := by
    rw [hdmrc, hu, dmrc_load_save]
  refine ⟨?_, ?_, ?_⟩
  · intro hl
    have hlang : effective_language language = some language := by
      simp [effective_language, hl]
    refine ⟨?_, ?_, ?_⟩
    · rw [hsaved, hlang]
      exact updated_dmrc_language _ _ _
    · rw [hlook, user_env_before_pam_lang, hlang, updated_dmrc_language]
    · intro hne
      have hrem := updated_dmrc_language_changed _ (effective_session w.display session) _ hne
      refine ⟨?_, ?_, ?_, ?_⟩
      · rw [hsaved, hlang]; exact hrem.1
      · rw [hsaved, hlang]; exact hrem.2
      · rw [hlook, user_env_before_pam_language, hlang, hrem.1]
      · rw [hlook, user_env_before_pam_lc_messages, hlang, hrem.2]
  · intro hl
    have hlang : effective_language language = none := by
      simp [effective_language, hl]
    refine ⟨?_, ?_, ?_, ?_⟩
    · intro key hk
      rw [hsaved, hlang]
      exact updated_dmrc_no_language _ _ key hk
    · rw [hlook, user_env_before_pam_lang, hlang,
        updated_dmrc_no_language _ _ "Language" (by decide)]
    · rw [hlook, user_env_before_pam_language, hlang,
        updated_dmrc_no_language _ _ "Langlist" (by decide)]
    · rw [hlook, user_env_before_pam_lc_messages, hlang,
        updated_dmrc_no_language _ _ "LCMess" (by decide)]
  · intro hpf
    unfold session_pam_env pam_session_get_envlist
    cases hq : w.passwd_file with
    | none => rw [hq] at hpf; simp at hpf
    | some f => rfl

theorem start_session_language_witness :
    g_key_file_get_string
        (dmrc_load
          (greeter_start_session_cb login_host greeter_world login_greeter "gnome" "fr_FR"
            call_os).dmrc (some "alice")) "Desktop" "Language" = some "fr_FR" ∧
    process_env_lookup
        (greeter_start_session_cb login_host greeter_world login_greeter "gnome" "fr_FR"
          call_os).supervisor 1 "LANG" = some "fr_FR" :=
  ⟨((start_session_language login_host greeter_world login_greeter "gnome" "fr_FR" call_os 1
      { service := "lightdm", username := some "alice", in_session := true }
      [(("Desktop Entry", "Exec"), "gnome-session")] "gnome-session" alice 0
      { display_number := 0, pid := 2000, ready := true }
      (by decide) (by decide) (by decide) (by decide) (by decide) (by decide) (by decide)
      (by decide) (by decide) (by decide)).1 (by decide)).1,
    ((start_session_language login_host greeter_world login_greeter "gnome" "fr_FR" call_os 1
      { service := "lightdm", username := some "alice", in_session := true }
      [(("Desktop Entry", "Exec"), "gnome-session")] "gnome-session" alice 0
      { display_number := 0, pid := 2000, ready := true }
      (by decide) (by decide) (by decide) (by decide) (by decide) (by decide) (by decide)
      (by decide) (by decide) (by decide)).1 (by decide)).2.1.trans (by decide)⟩

/-- C27, counterexample: in real-PAM mode the PAM environment of the authorized login
session holds `LANG=en_US.UTF-8`; the greeter requests the language `fr_FR`.  The settings
are saved with Desktop/Language equal to `fr_FR`, and the user session is created and,
when the greeter quits, launched with LANG equal to `en_US.UTF-8`. -/
theorem start_session_language_counterexample :
    g_key_file_get_string
        (dmrc_load
          (greeter_start_session_cb login_host pam_override_world login_greeter "gnome" "fr_FR"
            call_os).dmrc (some "alice")) "Desktop" "Language" = some "fr_FR" ∧
    process_env_lookup
        (greeter_start_session_cb login_host pam_override_world login_greeter "gnome" "fr_FR"
          call_os).supervisor 1 "LANG" = some "en_US.UTF-8" ∧
    child_process_get_pid
        (greeter_quit_cb
          (greeter_start_session_cb login_host pam_override_world login_greeter "gnome"
            "fr_FR" call_os) call_os).supervisor (some 1) = 4242 ∧
    process_env_lookup
        (greeter_quit_cb
          (greeter_start_session_cb login_host pam_override_world login_greeter "gnome"
            "fr_FR" call_os) call_os).supervisor 1 "LANG" = some "en_US.UTF-8" := by
  refine ⟨?_, ?_, ?_, ?_⟩ <;> decide

theorem child_process_launch_lookup (s : Supervisor) (process : Nat) (p : ChildProcess)
    (fx : List Effect) (a b : Int) (os : StartOS) (p0 : ChildProcess) (k : String)
    (hp0 : s.heap[process]? = some p0) (henv : hash_lookup p.env k = hash_lookup p0.env k)
    (j : Nat) :
    process_env_lookup (child_process_launch s process p fx a b os).2 j k =
      process_env_lookup s j k := by
  have hlt := lt_length_of_lookup hp0
  have hset : ∀ q : ChildProcess, hash_lookup q.env k = hash_lookup p0.env k →
      ((s.heap.set process q)[j]?).bind (fun r => hash_lookup r.env k) =
        (s.heap[j]?).bind (fun r => hash_lookup r.env k) := by
    intro q hq
    by_cases hj : j = process
    · subst hj
      rw [List.getElem?_set_self hlt, hp0]
      simp [hq]
    · rw [List.getElem?_set_ne (fun hc => hj hc.symm)]
  unfold child_process_launch process_env_lookup
  cases os.argv with
  | none => exact hset p henv
  | some argv =>
    simp only
    split
    · exact hset p henv
    · split
      · exact hset p henv
      · exact hset _ henv

theorem child_process_start_lookup (s : Supervisor) (process : Nat) (user : User)
    (wd : Option String) (command : String) (cp : Bool) (os : StartOS) (j : Nat) (k : String)
    (hk1 : k ≠ "LDM_TO_SERVER_FD") (hk2 : k ≠ "LDM_FROM_SERVER_FD") :
    process_env_lookup (child_process_start s process user wd command cp os).2 j k =
      process_env_lookup s j k := by
  unfold child_process_start
  cases hq : s.heap[process]? with
  | none => rfl
  | some p0 =>
    simp only
    split
    · rfl
    · cases cp with
      | false =>
        simp only [Bool.false_eq_true, if_false]
        exact child_process_launch_lookup s process { p0 with user := some user } _ _ _ os p0 k
          hq rfl j
      | true =>
        simp only [if_true]
        cases ht : os.to_child_pipe with
        | none =>
          simp only
          unfold process_env_lookup
          by_cases hj : j = process
          · subst hj
            simp [List.getElem?_set_self (lt_length_of_lookup hq), hq]
          · simp [List.getElem?_set_ne (fun hc => hj hc.symm)]
        | some t =>
          cases hf : os.from_child_pipe with
          | none =>
            simp only
            unfold process_env_lookup
            by_cases hj : j = process
            · subst hj
              simp [List.getElem?_set_self (lt_length_of_lookup hq), hq]
            · simp [List.getElem?_set_ne (fun hc => hj hc.symm)]
          | some f =>
            simp only
            apply child_process_launch_lookup s process _ _ _ _ os p0 k hq
            simp only [child_process_set_env]
            rw [hash_lookup_insert, if_neg hk2, hash_lookup_insert, if_neg hk1]

theorem call_session_start_lookup (w : World) (us : Session) (cp : Bool) (os : StartOS)
    (j : Nat) (k : String)
    (hk1 : k ≠ "LDM_TO_SERVER_FD") (hk2 : k ≠ "LDM_FROM_SERVER_FD") :
    process_env_lookup (call_session_start w us cp os).2.supervisor j k =
      process_env_lookup w.supervisor j k := by
  rw [call_session_start_supervisor]
  unfold session_start
  cases hu : us.user with
  | none => rfl
  | some user =>
    cases hc : us.command with
    | none => rfl
    | some command => exact child_process_start_lookup _ _ _ _ _ _ _ _ _ hk1 hk2

theorem set_env_from_pam_session_supervisor_events (w : World) (process : Nat)
    (pam_session : Option Nat) (fx : List Event) (k : String) (j : Nat) :
    process_env_lookup
        { set_env_from_pam_session w process pam_session with
          events := (set_env_from_pam_session w process pam_session).events ++ fx }.supervisor
        j k =
      process_env_lookup (set_env_from_pam_session w process pam_session).supervisor j k := rfl

theorem greeter_env_tail (w4 : World) (n pam : Nat) (ps : PAMSession) (address : String)
    (cookie : Option String) (k : String)
    (hps : w4.pam_sessions[pam]? = some ps) (henv : session_pam_env w4.passwd_file ps = [])
    (hlt : n < w4.supervisor.heap.length)
    (hbase : process_env_lookup w4.supervisor n k = none) :
    (∀ c, cookie = some c →
      process_env_lookup
        (set_env_from_pam_session
          (call_set_env (call_set_env w4 n "DISPLAY" (some address)) n "XDG_SESSION_COOKIE"
            (some c)) n (some pam)).supervisor n k =
        env_after_optional k "XDG_SESSION_COOKIE" cookie
          (env_after_set k "DISPLAY" (some address) none)) ∧
    (cookie = none →
      process_env_lookup
        (set_env_from_pam_session (call_set_env w4 n "DISPLAY" (some address)) n
          (some pam)).supervisor n k =
        env_after_optional k "XDG_SESSION_COOKIE" cookie
          (env_after_set k "DISPLAY" (some address) none)) := by
  constructor
  · intro c hc
    rw [set_env_from_pam_session_lookup _ n pam ps k
      (by simp only [call_set_env_pam_sessions]; exact hps)
      (by simp only [call_set_env_heap_length]; exact hlt)]
    simp only [call_set_env_passwd_file, henv, List.foldl_nil]
    rw [call_set_env_lookup _ _ _ _ _ (by simp only [call_set_env_heap_length]; exact hlt),
      call_set_env_lookup _ _ _ _ _ hlt, hbase, hc]
    rfl
  · intro hc
    rw [set_env_from_pam_session_lookup _ n pam ps k
      (by simp only [call_set_env_pam_sessions]; exact hps)
      (by simp only [call_set_env_heap_length]; exact hlt)]
    simp only [call_set_env_passwd_file, henv, List.foldl_nil]
    rw [call_set_env_lookup _ _ _ _ _ hlt, hbase, hc]
    rfl

theorem new_session_pam_env (passwd_file : Option String) (service : String)
    (username : Option String) :
    session_pam_env passwd_file
      (pam_session_authorize passwd_file (pam_session_new service username)).1 = [] := by
  unfold session_pam_env pam_session_get_envlist pam_session_authorize pam_session_new
  cases passwd_file <;> rfl

theorem start_greeter_env (h : Host) (w : World) (os : CallOS) (command : String)
    (user : User) (x : Nat) (server : XServer)
    (hhalt : w.halted = none)
    (htheme : w.display.greeter_theme.bind (fun name => hash_lookup h.themes name) =
      some command)
    (huser : greeter_identity h w.display = some user)
    (hx : w.display.xserver = some x) (hserver : w.xservers[x]? = some server) :
    ∃ w6 : World,
      start_greeter h w os =
        call_session_start
          { set_env_from_pam_session w6 w.supervisor.heap.length (some w.pam_sessions.length) with
            events :=
              (set_env_from_pam_session w6 w.supervisor.heap.length
                (some w.pam_sessions.length)).events ++
                [Event.emit_start_greeter w.supervisor.heap.length] }
          ⟨w.supervisor.heap.length, some user, some command⟩ true os.start ∧
      w6.display.greeter_ck_cookie = (if h.uid ≠ 0 then none else os.ck_cookie) ∧
      ∀ k, process_env_lookup
          (set_env_from_pam_session w6 w.supervisor.heap.length
            (some w.pam_sessions.length)).supervisor w.supervisor.heap.length k =
        env_after_optional k "XDG_SESSION_COOKIE" (if h.uid ≠ 0 then none else os.ck_cookie)
          (env_after_set k "DISPLAY" (some (xserver_get_address server).1) none) := by
  have hlook : (w.display.greeter_user = none ∧ h.current_user = some user) ∨
      ∃ name, w.display.greeter_user = some name ∧
        user_get_by_name h.users (some name) = some user := by
    unfold greeter_identity at huser
    cases hgu : w.display.greeter_user with
    | none => rw [hgu] at huser; exact Or.inl ⟨rfl, huser⟩
    | some name => rw [hgu] at huser; exact Or.inr ⟨name, rfl, huser⟩
  by_cases huid : h.uid ≠ 0
  · obtain ⟨w4, hw4⟩ : ∃ w4 : World, w4 =
        { w with
          display :=
            { w.display with
              greeter_count := w.display.greeter_count + 1
              greeter_pam_session := some w.pam_sessions.length
              greeter_ck_cookie := none
              greeter_session := some
                { session := ⟨w.supervisor.heap.length, some user, some command⟩
                  theme := w.display.greeter_theme
                  count := w.display.greeter_count
                  default_user := w.display.default_user
                  timeout := w.display.timeout
                  default_session := w.display.default_session } }
          pam_sessions := w.pam_sessions ++
            [(pam_session_authorize w.passwd_file
              (pam_session_new w.display.pam_service (some user.name))).1]
          events := w.events ++ [Event.load_theme w.display.greeter_theme] ++
            (pam_session_authorize w.passwd_file
              (pam_session_new w.display.pam_service (some user.name))).2.map
                (Event.pam w.pam_sessions.length)
          supervisor := { w.supervisor with heap := w.supervisor.heap ++ [{}] }
          xservers := w.xservers.set x (xserver_get_address server).2 } := ⟨_, rfl⟩
    refine ⟨call_set_env w4 w.supervisor.heap.length "DISPLAY"
      (some (xserver_get_address server).1), ?_,
      by rw [call_set_env_display, hw4]; simp [huid], ?_⟩
    · rw [hw4]
      rcases hlook with ⟨hgu, hcur⟩ | ⟨name, hgu, hget⟩
      · simp [start_greeter, htheme, hgu, hcur, call_pam_session_authorize, pam_update,
          start_ck_session, huid, hhalt, hx, hserver, call_set_env_display]
      · simp [start_greeter, htheme, hgu, hget, call_pam_session_authorize, pam_update,
          start_ck_session, huid, hhalt, hx, hserver, call_set_env_display]
    · intro k
      have ht := (greeter_env_tail w4 w.supervisor.heap.length w.pam_sessions.length
        (pam_session_authorize w.passwd_file
          (pam_session_new w.display.pam_service (some user.name))).1
        (xserver_get_address server).1 none k
        (by rw [hw4]; simp)
        (by rw [hw4]; exact new_session_pam_env _ _ _)
        (by rw [hw4]; simp)
        (by rw [hw4]; simp [process_env_lookup, hash_lookup])).2 rfl
      rw [ht]; simp [huid]
  · have huid0 : h.uid = 0 := by simpa using huid
    have hlt : x < w.xservers.length := lt_length_of_lookup hserver
    obtain ⟨w4, hw4⟩ : ∃ w4 : World, w4 =
        { w with
          display :=
            { w.display with
              greeter_count := w.display.greeter_count + 1
              greeter_pam_session := some w.pam_sessions.length
              greeter_ck_cookie := os.ck_cookie
              greeter_session := some
                { session := ⟨w.supervisor.heap.length, some user, some command⟩
                  theme := w.display.greeter_theme
                  count := w.display.greeter_count
                  default_user := w.display.default_user
                  timeout := w.display.timeout
                  default_session := w.display.default_session } }
          pam_sessions := w.pam_sessions ++
            [(pam_session_authorize w.passwd_file
              (pam_session_new w.display.pam_service (some user.name))).1]
          events := w.events ++ [Event.load_theme w.display.greeter_theme] ++
            (pam_session_authorize w.passwd_file
              (pam_session_new w.display.pam_service (some user.name))).2.map
                (Event.pam w.pam_sessions.length) ++ ck_events h "LoginWindow" user server
          supervisor := { w.supervisor with heap := w.supervisor.heap ++ [{}] }
          xservers := (w.xservers.set x (xserver_get_address server).2).set x
            (xserver_get_address (xserver_get_address server).2).2 } := ⟨_, rfl⟩
    have hps : w4.pam_sessions[w.pam_sessions.length]? = some
        (pam_session_authorize w.passwd_file
          (pam_session_new w.display.pam_service (some user.name))).1 := by
      rw [hw4]; simp
    have henv : session_pam_env w4.passwd_file
        (pam_session_authorize w.passwd_file
          (pam_session_new w.display.pam_service (some user.name))).1 = [] := by
      rw [hw4]; exact new_session_pam_env _ _ _
    have hheap : w.supervisor.heap.length < w4.supervisor.heap.length := by rw [hw4]; simp
    have hbase : ∀ k, process_env_lookup w4.supervisor w.supervisor.heap.length k = none := by
      intro k; rw [hw4]; simp [process_env_lookup, hash_lookup]
    cases hck : os.ck_cookie with
    | none =>
      refine ⟨call_set_env w4 w.supervisor.heap.length "DISPLAY"
        (some (xserver_get_address server).1), ?_,
        by rw [call_set_env_display, hw4]; simp [huid0, hck], ?_⟩
      · rw [hw4, ← xserver_get_address_cached server]
        rcases hlook with ⟨hgu, hcur⟩ | ⟨name, hgu, hget⟩
        · simp [start_greeter, htheme, hgu, hcur, call_pam_session_authorize, pam_update,
            start_ck_session, huid0, hhalt, hx, hserver, hck, ck_events,
            List.getElem?_set_self hlt, call_set_env_display]
        · simp [start_greeter, htheme, hgu, hget, call_pam_session_authorize, pam_update,
            start_ck_session, huid0, hhalt, hx, hserver, hck, ck_events,
            List.getElem?_set_self hlt, call_set_env_display]
      · intro k
        rw [(greeter_env_tail w4 _ _ _ (xserver_get_address server).1 none k hps henv hheap
          (hbase k)).2 rfl]
        simp [huid0]
    | some c =>
      refine ⟨call_set_env (call_set_env w4 w.supervisor.heap.length "DISPLAY"
        (some (xserver_get_address server).1)) w.supervisor.heap.length "XDG_SESSION_COOKIE"
        (some c), ?_,
        by rw [call_set_env_display, call_set_env_display, hw4]; simp [huid0, hck], ?_⟩
      · rw [hw4, ← xserver_get_address_cached server]
        rcases hlook with ⟨hgu, hcur⟩ | ⟨name, hgu, hget⟩
        · simp [start_greeter, htheme, hgu, hcur, call_pam_session_authorize, pam_update,
            start_ck_session, huid0, hhalt, hx, hserver, hck, ck_events,
            List.getElem?_set_self hlt, call_set_env_display]
        · simp [start_greeter, htheme, hgu, hget, call_pam_session_authorize, pam_update,
            start_ck_session, huid0, hhalt, hx, hserver, hck, ck_events,
            List.getElem?_set_self hlt, call_set_env_display]
      · intro k
        rw [(greeter_env_tail w4 _ _ _ (xserver_get_address server).1 (some c) k hps henv
          hheap (hbase k)).1 c rfl]
        simp [huid0]

theorem start_greeter_launch (h : Host) (w : World) (os : CallOS) (command : String)
    (user : User) (x : Nat) (server : XServer)
    (hhalt : w.halted = none)
    (htheme : w.display.greeter_theme.bind (fun name => hash_lookup h.themes name) =
      some command)
    (huser : greeter_identity h w.display = some user)
    (hx : w.display.xserver = some x) (hserver : w.xservers[x]? = some server) :
    (∀ k, k ≠ "LDM_TO_SERVER_FD" → k ≠ "LDM_FROM_SERVER_FD" →
      process_env_lookup (start_greeter h w os).2.supervisor w.supervisor.heap.length k =
        env_after_optional k "XDG_SESSION_COOKIE" (if h.uid ≠ 0 then none else os.ck_cookie)
          (env_after_set k "DISPLAY" (some (xserver_get_address server).1) none)) ∧
    (start_greeter h w os).2.display.greeter_ck_cookie =
      (if h.uid ≠ 0 then none else os.ck_cookie) ∧
    Event.session_start w.supervisor.heap.length true ∈ (start_greeter h w os).2.events := by
  obtain ⟨w6, hform, hck, hlook⟩ :=
    start_greeter_env h w os command user x server hhalt htheme huser hx hserver
  refine ⟨?_, ?_, ?_⟩
  · intro k hk1 hk2
    rw [hform, call_session_start_lookup _ _ _ _ _ _ hk1 hk2]
    exact hlook k
  · rw [hform, call_session_start_display]
    obtain ⟨heap, _, henv⟩ :=
      set_env_from_pam_session_env_changed w6 w.supervisor.heap.length
        (some w.pam_sessions.length)
    show (set_env_from_pam_session w6 w.supervisor.heap.length
      (some w.pam_sessions.length)).display.greeter_ck_cookie = _
    rw [henv]; exact hck
  · rw [hform, call_session_start_events]
    simp

theorem launch_user_session_events (wenv : World) (us : Session) (dmrc_file : KeyFile)
    (username : Option String) (os : CallOS) :
    Event.emit_start_session us.process ∈
      (launch_user_session wenv us dmrc_file username os).2.events ∧
    (wenv.display.greeter_session = none →
      Event.session_start us.process false ∈
        (launch_user_session wenv us dmrc_file username os).2.events) := by
  have key : ∀ (e : Event) (started : Bool × World), e ∈ started.2.events →
      e ∈ (if started.2.halted.isSome then started
        else (started.1,
          { started.2 with
            dmrc := dmrc_save started.2.dmrc dmrc_file username
            events := started.2.events ++ [Event.dmrc_save username] })).2.events := by
    intro e started he
    split
    · exact he
    · simp [he]
  unfold launch_user_session
  refine ⟨key _ _ ?_, fun hg => key _ _ ?_⟩
  · split
    · rw [call_session_start_events]
      simp
    · simp
  · simp only [hg, Option.isNone_none, Bool.true_or, if_true]
    rw [call_session_start_events]
    simp

theorem start_user_session_launch (h : Host) (w : World) (session language : Option String)
    (os : CallOS) (i : Nat) (ps : PAMSession) (desktop : KeyFile) (exec : String) (user : User)
    (x : Nat) (server : XServer)
    (hhalt : w.halted = none)
    (hptr : w.display.user_pam_session = some i) (hps : w.pam_sessions[i]? = some ps)
    (hdesc : hash_lookup h.xsessions (printf_s session) = some desktop)
    (hexec : g_key_file_get_string desktop "Desktop Entry" "Exec" = some exec)
    (huser : user_get_by_name h.users (pam_session_get_username ps).1 = some user)
    (hx : w.display.xserver = some x) (hserver : w.xservers[x]? = some server)
    (hfork : os.start.fork ≠ 0) :
    (∀ k, process_env_lookup (start_user_session h w session language os).2.supervisor
        w.supervisor.heap.length k =
      (session_pam_env w.passwd_file ps).foldl (pam_env_entry k)
        (user_env_before_pam k (xserver_get_address server).1
          (if h.uid ≠ 0 then none else os.ck_cookie) session
          (updated_dmrc (dmrc_load w.dmrc (pam_session_get_username ps).1) session language)
          none)) ∧
    (start_user_session h w session language os).2.display.user_ck_cookie =
      (if h.uid ≠ 0 then none else os.ck_cookie) ∧
    Event.emit_start_session w.supervisor.heap.length ∈
      (start_user_session h w session language os).2.events ∧
    (w.display.greeter_session = none →
      Event.session_start w.supervisor.heap.length false ∈
        (start_user_session h w session language os).2.events) := by
  obtain ⟨w3, hstart, h3heap, h3pam, h3ptr, h3pf, h3dmrc, h3halt, h3ck, h3greeter⟩ :=
    start_user_session_env_full h w session language os i ps desktop exec user x server hhalt
      hptr hps hdesc hexec huser hx hserver
  have hlt3 : w.supervisor.heap.length < w3.supervisor.heap.length := by
    rw [h3heap]; simp
  have h3ps : w3.pam_sessions[i]? = some (pam_session_get_username ps).2 := by
    rw [h3pam, List.getElem?_set_self (lt_length_of_lookup hps)]
  have h3base : ∀ k, process_env_lookup w3.supervisor w.supervisor.heap.length k = none := by
    intro k
    unfold process_env_lookup
    rw [h3heap]
    simp [hash_lookup]
  obtain ⟨heap, _, henv⟩ := user_session_env_env_changed w3 w.supervisor.heap.length
    (xserver_get_address server).1 session
    (updated_dmrc (dmrc_load w.dmrc (pam_session_get_username ps).1) session language)
  have hehalt : (user_session_env w3 w.supervisor.heap.length (xserver_get_address server).1
      session
      (updated_dmrc (dmrc_load w.dmrc (pam_session_get_username ps).1) session
        language)).halted = none := by
    rw [henv]; exact h3halt
  have hedisplay : (user_session_env w3 w.supervisor.heap.length
      (xserver_get_address server).1 session
      (updated_dmrc (dmrc_load w.dmrc (pam_session_get_username ps).1) session
        language)).display = w3.display := by
    rw [henv]
  refine ⟨?_, ?_, ?_, ?_⟩
  · intro k
    rw [hstart, (launch_user_session_saves _ _ _ _ os hehalt hfork).2.2.2,
      user_session_env_lookup_all w3 _ _ _ _ i _ k h3ptr h3ps hlt3, h3pf,
      session_pam_env_get_username, h3base, h3ck]
  · rw [hstart, (launch_user_session_saves _ _ _ _ os hehalt hfork).2.2.1, hedisplay, h3ck]
  · rw [hstart]
    exact (launch_user_session_events _ _ _ _ os).1
  · intro hg
    rw [hstart]
    exact (launch_user_session_events _ _ _ _ os).2
      (by rw [hedisplay, h3greeter]; exact hg)

/-- C24: a greeter process launched by `start_greeter` carries DISPLAY equal to the
address of the X server and XDG_SESSION_COOKIE exactly when ConsoleKit opened a session for
it, with the stored cookie as value, and `session_start` is called whether or not a cookie
exists.  A user-session process created by `start_user_session` carries the same two
values for every variable that the PAM environment of the login session does not define
(always so in passwd-file mode), its launch is announced whether or not a cookie exists,
and without a greeter `session_start` is called at once. -/
theorem child_env_display_and_cookie (h : Host) (wg w : World)
    (session language : Option String) (os : CallOS) (command : String) (greeter_user : User)
    (gx : Nat) (gserver : XServer) (i : Nat) (ps : PAMSession) (desktop : KeyFile)
    (exec : String) (user : User) (x : Nat) (server : XServer)
    (hghalt : wg.halted = none)
    (htheme : wg.display.greeter_theme.bind (fun name => hash_lookup h.themes name) =
      some command)
    (hguser : greeter_identity h wg.display = some greeter_user)
    (hgx : wg.display.xserver = some gx) (hgserver : wg.xservers[gx]? = some gserver)
    (hhalt : w.halted = none)
    (hptr : w.display.user_pam_session = some i) (hps : w.pam_sessions[i]? = some ps)
    (hdesc : hash_lookup h.xsessions (printf_s session) = some desktop)
    (hexec : g_key_file_get_string desktop "Desktop Entry" "Exec" = some exec)
    (huser : user_get_by_name h.users (pam_session_get_username ps).1 = some user)
    (hx : w.display.xserver = some x) (hserver : w.xservers[x]? = some server)
    (hfork : os.start.fork ≠ 0) :
    process_env_lookup (start_greeter h wg os).2.supervisor wg.supervisor.heap.length
      "DISPLAY" = some (xserver_get_address gserver).1 ∧
    process_env_lookup (start_greeter h wg os).2.supervisor wg.supervisor.heap.length
      "XDG_SESSION_COOKIE" = (start_greeter h wg os).2.display.greeter_ck_cookie ∧
    (start_greeter h wg os).2.display.greeter_ck_cookie =
      (if h.uid ≠ 0 then none else os.ck_cookie) ∧
    Event.session_start wg.supervisor.heap.length true ∈ (start_greeter h wg os).2.events ∧
    ((∀ e ∈ session_pam_env w.passwd_file ps, ∀ n v,
        split_first_equals e.toList = some (n, v) → String.mk n ≠ "DISPLAY") →
      process_env_lookup (start_user_session h w session language os).2.supervisor
        w.supervisor.heap.length "DISPLAY" = some (xserver_get_address server).1) ∧
    ((∀ e ∈ session_pam_env w.passwd_file ps, ∀ n v,
        split_first_equals e.toList = some (n, v) → String.mk n ≠ "XDG_SESSION_COOKIE") →
      process_env_lookup (start_user_session h w session language os).2.supervisor
        w.supervisor.heap.length "XDG_SESSION_COOKIE" =
          (start_user_session h w session language os).2.display.user_ck_cookie) ∧
    (w.passwd_file ≠ none →
      process_env_lookup (start_user_session h w session language os).2.supervisor
        w.supervisor.heap.length "DISPLAY" = some (xserver_get_address server).1 ∧
      process_env_lookup (start_user_session h w session language os).2.supervisor
        w.supervisor.heap.length "XDG_SESSION_COOKIE" =
          (start_user_session h w session language os).2.display.user_ck_cookie) ∧
    (start_user_session h w session language os).2.display.user_ck_cookie =
      (if h.uid ≠ 0 then none else os.ck_cookie) ∧
    Event.emit_start_session w.supervisor.heap.length ∈
      (start_user_session h w session language os).2.events ∧
    (w.display.greeter_session = none →
      Event.session_start w.supervisor.heap.length false ∈
        (start_user_session h w session language os).2.events) := by
  obtain ⟨hgenv, hgck, hgstart⟩ :=
    start_greeter_launch h wg os command greeter_user gx gserver hghalt htheme hguser hgx
      hgserver
  obtain ⟨huenv, huck, humark, hustart⟩ :=
    start_user_session_launch h w session language os i ps desktop exec user x server hhalt
      hptr hps hdesc hexec huser hx hserver hfork
  have hfile : w.passwd_file ≠ none → session_pam_env w.passwd_file ps = [] := by
    intro hpf
    unfold session_pam_env pam_session_get_envlist
    cases hp : w.passwd_file with
    | none => exact absurd hp hpf
    | some f => rfl
  refine ⟨?_, ?_, hgck, hgstart, ?_, ?_, ?_, huck, humark, hustart⟩
  · rw [hgenv "DISPLAY" (by decide) (by decide)]
    simp only [env_after_optional, env_after_set]
    cases (if h.uid ≠ 0 then none else os.ck_cookie) <;> simp
  · rw [hgenv "XDG_SESSION_COOKIE" (by decide) (by decide), hgck]
    simp only [env_after_optional, env_after_set]
    cases (if h.uid ≠ 0 then none else os.ck_cookie) <;> simp
  · intro hpam
    rw [huenv "DISPLAY", pam_env_fold_keep "DISPLAY" _ _ hpam, user_env_before_pam_display]
  · intro hpam
    rw [huenv "XDG_SESSION_COOKIE", pam_env_fold_keep "XDG_SESSION_COOKIE" _ _ hpam,
      user_env_before_pam_cookie, huck]
  · intro hpf
    rw [huenv "DISPLAY", huenv "XDG_SESSION_COOKIE", hfile hpf, huck]
    simp only [List.foldl_nil]
    exact ⟨user_env_before_pam_display _ _ _ _ _, user_env_before_pam_cookie _ _ _ _⟩

/-- C24, witness: on a root host where ConsoleKit returns the cookie `ck-1`, the greeter
started for `autologin_world` and the user session started for `login_world`, whose PAM
environment defines only DESKTOP_SESSION, both carry DISPLAY `:0` and XDG_SESSION_COOKIE
`ck-1`. -/
theorem child_env_display_and_cookie_witness :
    process_env_lookup (start_greeter root_host autologin_world ck_os).2.supervisor 0
      "DISPLAY" = some ":0" ∧
    process_env_lookup (start_greeter root_host autologin_world ck_os).2.supervisor 0
      "XDG_SESSION_COOKIE" = some "ck-1" ∧
    Event.session_start 0 true ∈ (start_greeter root_host autologin_world ck_os).2.events ∧
    process_env_lookup
      (start_user_session root_host login_world (some "gnome") none ck_os).2.supervisor 1
      "DISPLAY" = some ":0" ∧
    process_env_lookup
      (start_user_session root_host login_world (some "gnome") none ck_os).2.supervisor 1
      "XDG_SESSION_COOKIE" = some "ck-1" := by
  have hsplit : split_first_equals "DESKTOP_SESSION=kde".toList =
      some ("DESKTOP_SESSION".toList, "kde".toList) := by decide
  have hpam : ∀ k : String, k ≠ "DESKTOP_SESSION" →
      ∀ e ∈ session_pam_env login_world.passwd_file
        { service := "lightdm", username := some "alice", in_session := true,
          pam_handle := some { user := some "alice", envlist := ["DESKTOP_SESSION=kde"] } },
      ∀ n v, split_first_equals e.toList = some (n, v) → String.mk n ≠ k := by
    intro k hk e he n v hs
    have he2 : e = "DESKTOP_SESSION=kde" := List.mem_singleton.mp he
    rw [he2, hsplit] at hs
    cases hs
    exact fun hn => hk hn.symm
  have hc := child_env_display_and_cookie root_host autologin_world login_world (some "gnome")
    none ck_os "lightdm-greeter" alice 0 { display_number := 0, pid := 2000 } 1
    { service := "lightdm", username := some "alice", in_session := true,
      pam_handle := some { user := some "alice", envlist := ["DESKTOP_SESSION=kde"] } }
    [(("Desktop Entry", "Exec"), "gnome-session")] "gnome-session" alice 0
    { display_number := 0, pid := 2000, ready := true }
    (by decide) (by decide) (by decide) (by decide) (by decide) (by decide) (by decide)
    (by decide) (by decide) (by decide) (by decide) (by decide) (by decide) (by decide)
  exact ⟨hc.1.trans (by decide), (hc.2.1.trans hc.2.2.1).trans (by decide), hc.2.2.2.1,
    (hc.2.2.2.2.1 (hpam "DISPLAY" (by decide))).trans (by decide),
    ((hc.2.2.2.2.2.1 (hpam "XDG_SESSION_COOKIE" (by decide))).trans
      hc.2.2.2.2.2.2.2.1).trans (by decide)⟩

/-- C24, counterexample: in real-PAM mode the PAM environment of the authorized login
session holds `DISPLAY=:9`.  The X server of the Display has address `:0`, yet the user
session is created with DISPLAY `:9` and launched with it when the greeter quits. -/
theorem child_env_display_counterexample :
    pam_override_world.display.xserver = some 0 ∧
    (pam_override_world.xservers[0]?.map (fun server => (xserver_get_address server).1)) =
      some ":0" ∧
    process_env_lookup
        (greeter_start_session_cb login_host pam_override_world login_greeter "gnome" ""
          call_os).supervisor 1 "DISPLAY" = some ":9" ∧
    child_process_get_pid
        (greeter_quit_cb
          (greeter_start_session_cb login_host pam_override_world login_greeter "gnome" ""
            call_os) call_os).supervisor (some 1) = 4242 ∧
    process_env_lookup
        (greeter_quit_cb
          (greeter_start_session_cb login_host pam_override_world login_greeter "gnome" ""
            call_os) call_os).supervisor 1 "DISPLAY" = some ":9" := by
  refine ⟨?_, ?_, ?_, ?_, ?_⟩ <;> decide

theorem hex_value_digit (n : Nat) (hn : n < 16) : hex_value (hex_digit n) = some n := by
  interval_cases n <;> decide

theorem hex_digit_upper (n : Nat) (hn : n < 16) :
    hex_digit n ∈ "0123456789ABCDEF".toList := by
  interval_cases n <;> decide

theorem cookie_decode_hex (data : List Nat) (hbytes : ∀ b ∈ data, b < 256) :
    cookie_decode (data.flatMap hex_byte) = some data := by
  induction data with
  | nil => rfl
  | cons b bs ih =>
    have hb : b < 256 := hbytes b (List.mem_cons_self _ _)
    have hbs : ∀ c ∈ bs, c < 256 := fun c hc => hbytes c (List.mem_cons_of_mem _ hc)
    have hhi : hex_value (hex_digit (b % 256 / 16)) = some (b % 256 / 16) :=
      hex_value_digit _ (by omega)
    have hlo : hex_value (hex_digit (b % 16)) = some (b % 16) := hex_value_digit _ (by omega)
    have hstep : ∀ rest : List Char,
        cookie_decode (hex_digit (b % 256 / 16) :: hex_digit (b % 16) :: rest) =
          match cookie_decode rest with
          | some bytes => some (b :: bytes)
          | none => none := by
      intro rest
      have h16 : 16 * (b % 256 / 16) + b % 16 = b := by omega
      cases hr : cookie_decode rest <;> simp [cookie_decode, hhi, hlo, hr, h16]
    have hcons : (b :: bs).flatMap hex_byte =
        hex_digit (b % 256 / 16) :: hex_digit (b % 16) :: bs.flatMap hex_byte := by
      simp [List.flatMap_cons, hex_byte]
    rw [hcons, hstep, ih hbs]

theorem hex_length (data : List Nat) : (data.flatMap hex_byte).length = 2 * data.length := by
  induction data with
  | nil => rfl
  | cons b bs ih =>
    simp only [List.flatMap_cons, List.length_append, ih, hex_byte, List.length_cons,
      List.length_nil]
    omega

theorem hex_upper (data : List Nat) :
    ∀ c ∈ data.flatMap hex_byte, c ∈ "0123456789ABCDEF".toList := by
  intro c hc
  rw [List.mem_flatMap] at hc
  obtain ⟨b, _, hcb⟩ := hc
  unfold hex_byte at hcb
  rcases List.mem_cons.mp hcb with h1 | h2
  · rw [h1]; exact hex_digit_upper _ (by omega)
  · rw [List.mem_singleton.mp h2]; exact hex_digit_upper _ (by omega)

theorem printf_d_guint_small (n : Nat) (hn : n < 2 ^ 31) : printf_d_guint n = toString n := by
  unfold printf_d_guint
  have hmod : n % 2 ^ 32 = n := Nat.mod_eq_of_lt (by omega)
  rw [hmod, if_pos hn]

/-- C21: for a local or local-terminal X server that is not running and whose command line
parses, `xserver_start` launches exactly one process, with the command line made of the
configured command, ` :` and the display number, ` -auth` and the path iff an authorization
is set, then for a local terminal ` -port` and the port iff the port is not zero, ` -query`
and the hostname, and ` -cookie 0x` with the hexadecimal text iff the authentication name
is XDM-AUTHENTICATION-1 and the data is not empty, or ` -nolisten tcp` for a local server,
and last ` vt` and the number iff the VT is not negative.  The hexadecimal text has two
upper-case digits per byte and decodes back to the data. -/
theorem xserver_start_command_line (x : XState) (i : Nat) (os : XStartOS) (server : XServer)
    (hserver : x.xservers[i]? = some server) (hpid : server.pid = 0)
    (htype : server.type ≠ XServerType.XSERVER_TYPE_REMOTE) (hargv : os.argv_ok = true)
    (hport : server.port < 2 ^ 32)
    (hbytes : ∀ b ∈ server.authentication_data, b < 256) :
    (xserver_start x i os).2.effects.filter is_spawn =
      x.effects.filter is_spawn ++ [XEffect.spawn (xserver_command_line server)] ∧
    xserver_command_line server =
      server.command.getD "" ++ " :" ++ toString server.display_number ++
        (if server.authorization = true then " -auth " ++ printf_s server.authorization_path
          else "") ++
        (if server.type = XServerType.XSERVER_TYPE_LOCAL_TERMINAL then
          (if server.port ≠ 0 then " -port " ++ printf_d_guint server.port else "") ++
            " -query " ++ printf_s server.hostname ++
            (if server.authentication_name = "XDM-AUTHENTICATION-1" ∧
                server.authentication_data ≠ [] then
              " -cookie 0x" ++ String.mk (server.authentication_data.flatMap hex_byte)
            else "")
        else " -nolisten tcp") ++
        (if 0 ≤ server.vt then " vt" ++ toString server.vt else "") ∧
    (server.type ≠ XServerType.XSERVER_TYPE_LOCAL_TERMINAL →
      server.type = XServerType.XSERVER_TYPE_LOCAL) ∧
    (server.port < 2 ^ 31 → printf_d_guint server.port = toString server.port) ∧
    (server.authentication_data.flatMap hex_byte).length =
      2 * server.authentication_data.length ∧
    (∀ c ∈ server.authentication_data.flatMap hex_byte, c ∈ "0123456789ABCDEF".toList) ∧
    cookie_decode (server.authentication_data.flatMap hex_byte) =
      some server.authentication_data := by
  refine ⟨?_, ?_, ?_, printf_d_guint_small _, hex_length _, hex_upper _,
    cookie_decode_hex _ hbytes⟩
  · unfold xserver_start
    simp only [hserver, hpid, htype, hargv]
    cases os.spawn <;> cases ha : server.authorization <;>
      simp [is_spawn, List.filter_append, xserver_command_line, ha]
  · have hmod : server.port % 2 ^ 32 = server.port := Nat.mod_eq_of_lt hport
    have hlen : (server.authentication_data.length > 0) ↔ server.authentication_data ≠ [] :=
      List.length_pos
    unfold xserver_command_line
    simp only [hmod, hlen, ge_iff_le]
  · intro hterm
    cases ht : server.type with
    | XSERVER_TYPE_LOCAL => rfl
    | XSERVER_TYPE_LOCAL_TERMINAL => exact absurd ht hterm
    | XSERVER_TYPE_REMOTE => exact absurd ht htype

/-- C21, witness: a local-terminal server with authorization, port 177, an XDM cookie of
four bytes and VT 7 is launched with the full command line. -/
theorem xserver_start_command_line_witness :
    (xserver_start { xservers := [terminal_server] } 0 spawn_os).2.effects.filter is_spawn =
      [XEffect.spawn
        "X :1 -auth /tmp/xauth -port 177 -query xdmcp.example.com -cookie 0x00AB09FF vt7"] ∧
    cookie_decode "00AB09FF".toList = some [0, 171, 9, 255] :=
  ⟨(xserver_start_command_line { xservers := [terminal_server] } 0 spawn_os terminal_server
      rfl rfl (by decide) rfl (by decide) (by decide)).1.trans (by decide),
    by decide⟩

theorem seat_step_stopping (seat : SeatXLocal) (op : SeatOp) (hstop : seat.stopping = true) :
    (seat_step seat op).stopping = true ∧ replacements (seat_step seat op) = replacements seat := by
  cases op with
  | display_removed display fresh =>
    simp [seat_step, seat_xlocal_display_removed, hstop]
  | stop =>
    simp [seat_step, seat_xlocal_stop, seat_parent_stop, replacements, List.filter_append]
  | set_active display =>
    simp [seat_step, hstop, replacements]

theorem seat_run_stopping (ops : List SeatOp) (seat : SeatXLocal)
    (hstop : seat.stopping = true) :
    (ops.foldl seat_step seat).stopping = true ∧
    replacements (ops.foldl seat_step seat) = replacements seat := by
  induction ops generalizing seat with
  | nil => exact ⟨hstop, rfl⟩
  | cons op rest ih =>
    rw [List.foldl_cons]
    obtain ⟨h1, h2⟩ := seat_step_stopping seat op hstop
    obtain ⟨h3, h4⟩ := ih (seat_step seat op) h1
    exact ⟨h3, h4.trans h2⟩

/-- C22: `seat_xlocal_display_removed` calls `seat_switch_to_greeter` if and only if the
seat is not stopping and the removed Display is the active one, and otherwise leaves the
seat as it is; after `seat_xlocal_stop` the seat stays stopping and, whatever Displays are
removed or activated later, no replacement is provisioned. -/
theorem seat_xlocal_display_removed_replaces (seat : SeatXLocal) (display fresh : Nat)
    (ops : List SeatOp) :
    (replacements (seat_xlocal_display_removed seat display fresh) = replacements seat + 1 ↔
      (seat.stopping = false ∧ seat_get_active_display seat = some display)) ∧
    ((seat.stopping = false ∧ seat_get_active_display seat = some display) →
      seat_xlocal_display_removed seat display fresh = seat_switch_to_greeter seat fresh) ∧
    (¬ (seat.stopping = false ∧ seat_get_active_display seat = some display) →
      seat_xlocal_display_removed seat display fresh = seat) ∧
    (seat_xlocal_stop seat).stopping = true ∧
    (ops.foldl seat_step (seat_xlocal_stop seat)).stopping = true ∧
    replacements (ops.foldl seat_step (seat_xlocal_stop seat)) = replacements seat ∧
    replacements
        (seat_xlocal_display_removed (ops.foldl seat_step (seat_xlocal_stop seat)) display
          fresh) = replacements seat := by
  have hyes : (seat.stopping = false ∧ seat_get_active_display seat = some display) →
      seat_xlocal_display_removed seat display fresh = seat_switch_to_greeter seat fresh := by
    intro hc
    simp [seat_xlocal_display_removed, hc.1, hc.2]
  have hno : ¬ (seat.stopping = false ∧ seat_get_active_display seat = some display) →
      seat_xlocal_display_removed seat display fresh = seat := by
    intro hc
    unfold seat_xlocal_display_removed
    rw [if_neg]
    intro hcond
    apply hc
    simp only [Bool.and_eq_true, Bool.not_eq_true', decide_eq_true_eq] at hcond
    exact ⟨hcond.1, hcond.2.symm⟩
  have hstopped : (seat_xlocal_stop seat).stopping = true := rfl
  have hcount : replacements (seat_xlocal_stop seat) = replacements seat := by
    simp [seat_xlocal_stop, seat_parent_stop, replacements, List.filter_append]
  obtain ⟨hrun1, hrun2⟩ := seat_run_stopping ops (seat_xlocal_stop seat) hstopped
  refine ⟨?_, hyes, hno, hstopped, hrun1, hrun2.trans hcount, ?_⟩
  · by_cases hc : seat.stopping = false ∧ seat_get_active_display seat = some display
    · rw [hyes hc]
      simp [seat_switch_to_greeter, replacements, List.filter_append, hc]
    · rw [hno hc]
      simp [hc]
  · have hlast := seat_step_stopping (ops.foldl seat_step (seat_xlocal_stop seat))
      (SeatOp.display_removed display fresh) hrun1
    exact hlast.2.trans (hrun2.trans hcount)

end Cheese
